import Mathlib

/-!
AI-engine event tracing resources (`xaiefal-trace.hpp`).

A shallow embedding of the three resource classes of
`XilinxProcessorIPLib/drivers/aiefal/src/rsc/xaiefal-trace.hpp`:

* `XAieTraceCntr`  : the trace control of one tile and module (the "trace unit"),
* `XAieTraceEvent` : one event to trace, holding a slot of a trace control,
* `XAieTracing`    : a trace control together with its events (the "session").

Objects are plain records and every member function is a pure function from the
object (and the objects it reaches through pointers) to a return code and the
updated objects.  The C driver is an explicit record of oracles, `XAieDev`.
Machine integers are natural numbers, reduced modulo `2 ^ w` where the C++ code
converts to a `w`-bit type.  Logging is not modelled, except that a log
expression which dereferences the `TraceCntr` pointer of an event needs that
pointer to be bound.
-/

namespace xaiefal

/-! ## Driver types -/

/-- Return codes of the driver (`AieRC`).  The source names three of them; every
other code of the enumeration is `XAIE_OTHER n`. -/
inductive AieRC where
  | XAIE_OK
  | XAIE_ERR
  | XAIE_INVALID_ARGS
  | XAIE_OTHER (code : Nat)
  deriving DecidableEq, Repr

open AieRC

/-- Module of a tile (`XAie_ModuleType`). -/
inductive XAie_ModuleType where
  | XAIE_MEM_MOD
  | XAIE_CORE_MOD
  | XAIE_PL_MOD
  deriving DecidableEq, Repr

open XAie_ModuleType

/-- Tile kinds returned by `_XAie_GetTileTypefromLoc`.  `XAIEGBL_TILE_TYPE_MAX`
is the answer for an unsupported location; `XAIEGBL_TILE_TYPE_OTHER` stands for
every kind the source does not name. -/
inductive TileType where
  | XAIEGBL_TILE_TYPE_AIETILE
  | XAIEGBL_TILE_TYPE_SHIMNOC
  | XAIEGBL_TILE_TYPE_SHIMPL
  | XAIEGBL_TILE_TYPE_OTHER
  | XAIEGBL_TILE_TYPE_MAX
  deriving DecidableEq, Repr

open TileType

/-- Logical event identifiers (`XAie_Events`). -/
abbrev XAie_Events := Nat

/-- Tile location (`XAie_LocType`). -/
structure XAie_LocType where
  Row : Nat
  Col : Nat
  deriving DecidableEq, Repr

/-- Trace packet setup (`XAie_Packet`). -/
structure XAie_Packet where
  PktId : Nat
  PktType : Nat
  deriving DecidableEq, Repr

/-- Trace operation mode (`XAie_TraceMode`). -/
inductive XAie_TraceMode where
  | XAIE_TRACE_EVENT_TIME
  | XAIE_TRACE_EVENT_PC
  | XAIE_TRACE_INST_EXEC
  deriving DecidableEq, Repr

open XAie_TraceMode

/-- The device handle `Aie->dev()` as seen by this file: the driver functions the
source calls, and the three enumeration constants of `xaiengine.h` it names.
`XAie_EventPhysicalToLogicalConv` is given by the value it leaves in its output
parameter (its return code is ignored everywhere in the source). -/
structure XAieDev where
  _XAie_GetTileTypefromLoc : XAie_LocType → TileType
  _XAie_CheckModule : XAie_LocType → XAie_ModuleType → AieRC
  XAie_EventPhysicalToLogicalConv : XAie_LocType → XAie_ModuleType → Nat → XAie_Events
  XAie_EventLogicalToPhysicalConv : XAie_LocType → XAie_ModuleType → XAie_Events → AieRC
  XAie_EventBroadcast : XAie_LocType → XAie_ModuleType → Nat → XAie_Events → AieRC
  XAie_TraceControlConfigReset : XAie_LocType → XAie_ModuleType → AieRC
  XAie_TraceEventList :
    XAie_LocType → XAie_ModuleType → List XAie_Events → List Nat → AieRC
  XAie_TracePktConfig : XAie_LocType → XAie_ModuleType → XAie_Packet → AieRC
  XAie_TraceControlConfig :
    XAie_LocType → XAie_ModuleType → XAie_Events → XAie_Events → XAie_TraceMode → AieRC
  XAIE_EVENT_NONE_CORE : XAie_Events
  XAIE_EVENT_NONE_MEM : XAie_Events
  XAIE_EVENT_NONE_PL : XAie_Events

/-- A call of the start hook of a trace control into the driver, with its
arguments: for `XAie_TraceEventList` the contents of the two arrays, whose
common length is the count argument. -/
inductive DriverCall where
  | XAie_TraceEventList (L : XAie_LocType) (M : XAie_ModuleType) (vE : List XAie_Events)
      (vSlot : List Nat)
  | XAie_TracePktConfig (L : XAie_LocType) (M : XAie_ModuleType) (Pkt : XAie_Packet)
  | XAie_TraceControlConfig (L : XAie_LocType) (M : XAie_ModuleType)
      (StartEvent StopEvent : XAie_Events) (Mode : XAie_TraceMode)
  deriving DecidableEq

/-- Modelled from the spec: the state record of the base class `XAieRsc`
(`xaiefal-rsc-base.hpp` is not part of the sources), four independent flags. -/
structure XAieRscState where
  Initialized : Bool
  Configured : Bool
  Reserved : Bool
  Running : Bool
  deriving DecidableEq, Repr

/-- Modelled from the spec: the state the base-class constructor `XAieRsc(Dev)`
leaves (`xaiefal-rsc-base.hpp` is not part of the sources): a new resource is in
none of the four lifecycle states. -/
def XAieRscState.init : XAieRscState := ⟨false, false, false, false⟩

/-! ## `XAieTraceCntr` -/

/-- Data members of `XAieTraceCntr` (with the `State` of its base class).
`TraceSlotBits` is a `uint8_t`; `Events` is the array `Events[8]`. -/
structure XAieTraceCntr where
  State : XAieRscState
  Loc : XAie_LocType
  Mod : XAie_ModuleType
  TraceSlotBits : Nat
  Events : Fin 8 → XAie_Events
  StartEvent : XAie_Events
  StopEvent : XAie_Events
  Pkt : XAie_Packet
  Mode : XAie_TraceMode
  deriving DecidableEq

namespace XAieTraceCntr

/-- The two-argument constructor `XAieTraceCntr(Dev, L)`.  `raw` is the storage
of the object before construction: the members the constructor does not assign
keep their indeterminate value. -/
def new (dev : XAieDev) (L : XAie_LocType) (raw : XAieTraceCntr) : XAieTraceCntr :=
  let c := { raw with State := XAieRscState.init, Loc := L, Pkt := ⟨0, 0⟩ }
  let TType := dev._XAie_GetTileTypefromLoc L
  if TType = XAIEGBL_TILE_TYPE_MAX then
    { c with State := { c.State with Initialized := false } }
  else
    let Mod :=
      if TType = XAIEGBL_TILE_TYPE_SHIMPL ∨ TType = XAIEGBL_TILE_TYPE_SHIMNOC then XAIE_PL_MOD
      else if TType = XAIEGBL_TILE_TYPE_AIETILE then XAIE_CORE_MOD
      else XAIE_MEM_MOD
    let StartEvent := dev.XAie_EventPhysicalToLogicalConv L Mod 0
    { c with
      Mod := Mod
      StartEvent := StartEvent
      StopEvent := StartEvent
      Mode := XAIE_TRACE_EVENT_TIME
      TraceSlotBits := 0
      State := { c.State with Initialized := true } }

/-- The three-argument constructor `XAieTraceCntr(Dev, L, M)`. -/
def newMod (dev : XAieDev) (L : XAie_LocType) (M : XAie_ModuleType) (raw : XAieTraceCntr) :
    XAieTraceCntr :=
  let c := { new dev L raw with Mod := M }
  if dev._XAie_CheckModule c.Loc c.Mod ≠ XAIE_OK then
    { c with State := { c.State with Initialized := false } }
  else c

/-- `XAieTraceCntr::setModule`.  The module that is checked is the current `Mod`,
as in the source. -/
def setModule (dev : XAieDev) (c : XAieTraceCntr) (M : XAie_ModuleType) :
    AieRC × XAieTraceCntr :=
  if c.State.Reserved = true then (XAIE_ERR, c)
  else if dev._XAie_CheckModule c.Loc c.Mod ≠ XAIE_OK then (XAIE_INVALID_ARGS, c)
  else (XAIE_OK, { c with Mod := M, State := { c.State with Initialized := true } })

/-- `XAieTraceCntr::getModule`. -/
def getModule (c : XAieTraceCntr) : XAie_ModuleType := c.Mod

/-- The scan of `reserveTraceSlot`: `for (i; i < 8; i++)` with `n` iterations
left.  `Slot` is the caller's variable behind the reference parameter. -/
def reserveTraceSlot.loop (c : XAieTraceCntr) (Slot : Nat) :
    Nat → Nat → AieRC × XAieTraceCntr × Nat
  | 0, _ => (XAIE_ERR, c, Slot)
  | n + 1, i =>
    let Mask := (1 <<< i) % 256
    if c.TraceSlotBits &&& Mask = 0 then
      (XAIE_OK, { c with TraceSlotBits := (c.TraceSlotBits ||| Mask) % 256 }, i)
    else reserveTraceSlot.loop c Slot n (i + 1)

/-- `XAieTraceCntr::reserveTraceSlot(uint8_t &Slot)`: return code, the control
afterwards and the value of `Slot` afterwards. -/
def reserveTraceSlot (c : XAieTraceCntr) (Slot : Nat) : AieRC × XAieTraceCntr × Nat :=
  if c.State.Running = true then (XAIE_ERR, c, Slot)
  else reserveTraceSlot.loop c Slot 8 0

/-- `XAieTraceCntr::releaseTraceSlot(uint8_t Slot)`.  `~(1 << Slot)` is the
complement of a 32-bit `int`; the result of `&=` is converted back to
`uint8_t`. -/
def releaseTraceSlot (dev : XAieDev) (c : XAieTraceCntr) (Slot : Nat) :
    AieRC × XAieTraceCntr :=
  if c.State.Running = true then (XAIE_ERR, c)
  else if h : 8 ≤ Slot then (XAIE_INVALID_ARGS, c)
  else
    let E := dev.XAie_EventPhysicalToLogicalConv c.Loc c.Mod 0
    (XAIE_OK,
      { c with
        TraceSlotBits := (c.TraceSlotBits &&& (0xFFFFFFFF ^^^ (1 <<< Slot))) % 256
        Events := Function.update c.Events ⟨Slot, Nat.lt_of_not_le h⟩ E })

/-- The scan of `XAieTraceCntr::changeToConfigured` over the slots,
`for (i; i < 8; i++)` with `n` iterations left: does some reserved slot hold an
event other than the one `XAie_EventPhysicalToLogicalConv` gives for physical
event 0. -/
def changeToConfigured.loop (dev : XAieDev) (c : XAieTraceCntr) : Nat → Nat → Bool
  | 0, _ => false
  | n + 1, i =>
    if h : i < 8 then
      if c.TraceSlotBits &&& (1 <<< i) = 0 then changeToConfigured.loop dev c n (i + 1)
      else if c.Events ⟨i, h⟩ ≠ dev.XAie_EventPhysicalToLogicalConv c.Loc c.Mod 0 then true
      else changeToConfigured.loop dev c n (i + 1)
    else false

/-- `XAieTraceCntr::changeToConfigured`. -/
def changeToConfigured (dev : XAieDev) (c : XAieTraceCntr) : XAieTraceCntr :=
  if c.State.Configured = false ∧ c.StartEvent ≠ dev.XAIE_EVENT_NONE_CORE ∧
      c.TraceSlotBits ≠ 0 then
    if changeToConfigured.loop dev c 8 0 then
      { c with State := { c.State with Configured := true } }
    else c
  else c

/-- `XAieTraceCntr::setTraceEvent(uint32_t Slot, XAie_Events E)`. -/
def setTraceEvent (dev : XAieDev) (c : XAieTraceCntr) (Slot : Nat) (E : XAie_Events) :
    AieRC × XAieTraceCntr :=
  let r : AieRC × XAieTraceCntr :=
    if c.State.Initialized = false then (XAIE_ERR, c)
    else if c.State.Running = true then (XAIE_ERR, c)
    else if h : 8 ≤ Slot then (XAIE_INVALID_ARGS, c)
    else if c.TraceSlotBits &&& (1 <<< Slot) = 0 then (XAIE_INVALID_ARGS, c)
    else
      let E1 :=
        if E = dev.XAIE_EVENT_NONE_CORE then dev.XAie_EventPhysicalToLogicalConv c.Loc c.Mod 0
        else E
      (XAIE_OK, { c with Events := Function.update c.Events ⟨Slot, Nat.lt_of_not_le h⟩ E1 })
  (r.1, changeToConfigured dev r.2)

/-- `XAieTraceCntr::setCntrEvent`. -/
def setCntrEvent (dev : XAieDev) (c : XAieTraceCntr) (StartE StopE : XAie_Events) :
    AieRC × XAieTraceCntr :=
  let RC : AieRC :=
    if c.State.Initialized = false then XAIE_ERR
    else if c.State.Running = true then XAIE_ERR
    else
      let RC1 := dev.XAie_EventLogicalToPhysicalConv c.Loc c.Mod StartE
      if RC1 = XAIE_OK then dev.XAie_EventLogicalToPhysicalConv c.Loc c.Mod StopE else RC1
  if RC = XAIE_OK then
    (RC, changeToConfigured dev { c with StartEvent := StartE, StopEvent := StopE })
  else (RC, c)

/-- `XAieTraceCntr::setMode`. -/
def setMode (dev : XAieDev) (c : XAieTraceCntr) (M : XAie_TraceMode) : AieRC × XAieTraceCntr :=
  if c.State.Initialized = false then (XAIE_ERR, c)
  else if c.State.Running = true then (XAIE_ERR, c)
  else (XAIE_OK, changeToConfigured dev { c with Mode := M })

/-- `XAieTraceCntr::setPkt`. -/
def setPkt (dev : XAieDev) (c : XAieTraceCntr) (P : XAie_Packet) : AieRC × XAieTraceCntr :=
  if c.State.Initialized = false then (XAIE_ERR, c)
  else if c.State.Running = true then (XAIE_ERR, c)
  else (XAIE_OK, changeToConfigured dev { c with Pkt := P })

/-- `XAieTraceCntr::getMaxTraceEvents`. -/
def getMaxTraceEvents (_c : XAieTraceCntr) : Nat := 8

/-- The loop of `getReservedTraceEvents`, `n` iterations left: `TmpSlots` is
tested against 1 in every iteration and is never shifted. -/
def getReservedTraceEvents.loop (TmpSlots : Nat) : Nat → Nat → Nat
  | 0, NumEvents => NumEvents
  | n + 1, NumEvents =>
    if TmpSlots &&& 1 ≠ 0 then getReservedTraceEvents.loop TmpSlots n ((NumEvents + 1) % 2 ^ 32)
    else getReservedTraceEvents.loop TmpSlots n NumEvents

/-- `XAieTraceCntr::getReservedTraceEvents`. -/
def getReservedTraceEvents (c : XAieTraceCntr) : Nat :=
  getReservedTraceEvents.loop (c.TraceSlotBits % 256) 8 0

/-- `XAieTraceCntr::loc`. -/
def loc (c : XAieTraceCntr) : XAie_LocType := c.Loc

/-- `XAieTraceCntr::_reserve`, the reserve hook: nothing to do. -/
def _reserve (c : XAieTraceCntr) : AieRC × XAieTraceCntr := (XAIE_OK, c)

/-- `XAieTraceCntr::_release`, the release hook: nothing to do. -/
def _release (c : XAieTraceCntr) : AieRC × XAieTraceCntr := (XAIE_OK, c)

/-- The loop of `XAieTraceCntr::_start`, `for (i; i < 8; i++)` with `n` iterations
left: the event and the index of every reserved slot are pushed onto `vE` and
`vSlot`. -/
def _start.loop (c : XAieTraceCntr) :
    Nat → Nat → List XAie_Events × List Nat → List XAie_Events × List Nat
  | 0, _, v => v
  | n + 1, i, v =>
    if h : i < 8 then
      if c.TraceSlotBits &&& (1 <<< i) ≠ 0 then
        _start.loop c n (i + 1) (v.1 ++ [c.Events ⟨i, h⟩], v.2 ++ [i])
      else _start.loop c n (i + 1) v
    else v

/-- `XAieTraceCntr::_start`, the start hook: the return code, the object
afterwards and the driver calls made, in the order they were made. -/
def _start (dev : XAieDev) (c : XAieTraceCntr) : AieRC × XAieTraceCntr × List DriverCall :=
  let v := _start.loop c 8 0 ([], [])
  let RC := dev.XAie_TraceEventList c.Loc c.Mod v.1 v.2
  if RC = XAIE_OK then
    let RC1 := dev.XAie_TracePktConfig c.Loc c.Mod c.Pkt
    if RC1 = XAIE_OK then
      (dev.XAie_TraceControlConfig c.Loc c.Mod c.StartEvent c.StopEvent c.Mode, c,
        [DriverCall.XAie_TraceEventList c.Loc c.Mod v.1 v.2,
          DriverCall.XAie_TracePktConfig c.Loc c.Mod c.Pkt,
          DriverCall.XAie_TraceControlConfig c.Loc c.Mod c.StartEvent c.StopEvent c.Mode])
    else
      (RC1, c,
        [DriverCall.XAie_TraceEventList c.Loc c.Mod v.1 v.2,
          DriverCall.XAie_TracePktConfig c.Loc c.Mod c.Pkt])
  else (RC, c, [DriverCall.XAie_TraceEventList c.Loc c.Mod v.1 v.2])

/-- `XAieTraceCntr::_stop`, the stop hook: the control register is reset and,
when that succeeded, `XAie_TraceEventReset` is called for every reserved slot.
The return codes of those calls are ignored and nothing of the object changes,
so they leave no trace here. -/
def _stop (dev : XAieDev) (c : XAieTraceCntr) : AieRC × XAieTraceCntr :=
  (dev.XAie_TraceControlConfigReset c.Loc c.Mod, c)

/-- Modelled from the spec: the base-class accessor `XAieRsc::isInitialized`
(`xaiefal-rsc-base.hpp` is not part of the sources). -/
def isInitialized (c : XAieTraceCntr) : Bool := c.State.Initialized

/-- Modelled from the spec: the base-class accessor `XAieRsc::isConfigured`
(`xaiefal-rsc-base.hpp` is not part of the sources), the Configured flag. -/
def isConfigured (c : XAieTraceCntr) : Bool := c.State.Configured

/-- Modelled from the spec: the lifecycle wrapper `XAieRsc::reserve` of the base
class (`xaiefal-rsc-base.hpp` is not part of the sources), spec section 4.1:
fails if Reserved; else invokes the hook; on success sets Reserved. -/
def reserve (c : XAieTraceCntr) : AieRC × XAieTraceCntr :=
  if c.State.Reserved = true then (XAIE_ERR, c)
  else
    let r := c._reserve
    if r.1 = XAIE_OK then (r.1, { r.2 with State := { r.2.State with Reserved := true } })
    else r

/-- Modelled from the spec: the lifecycle wrapper `XAieRsc::release` of the base
class (`xaiefal-rsc-base.hpp` is not part of the sources), spec section 4.1:
fails if Running; invokes the hook; clears Reserved and Configured. -/
def release (c : XAieTraceCntr) : AieRC × XAieTraceCntr :=
  if c.State.Running = true then (XAIE_ERR, c)
  else
    let r := c._release
    (r.1, { r.2 with State := { r.2.State with Reserved := false, Configured := false } })

/-- Modelled from the spec: the lifecycle wrapper `XAieRsc::stop` of the base
class (`xaiefal-rsc-base.hpp` is not part of the sources), spec section 4.1:
fails unless Running; invokes the hook; clears Running whatever the hook
returned. -/
def stop (dev : XAieDev) (c : XAieTraceCntr) : AieRC × XAieTraceCntr :=
  if c.State.Running = true then
    let r := c._stop dev
    (r.1, { r.2 with State := { r.2.State with Running := false } })
  else (XAIE_ERR, c)

/-- Modelled from the spec: the lifecycle wrapper `XAieRsc::start` of the base
class (`xaiefal-rsc-base.hpp` is not part of the sources), spec section 4.1:
fails unless Reserved and Configured; invokes the hook; on success sets
Running. -/
def start (dev : XAieDev) (c : XAieTraceCntr) : AieRC × XAieTraceCntr × List DriverCall :=
  if c.State.Reserved = true ∧ c.State.Configured = true then
    let r := c._start dev
    if r.1 = XAIE_OK then
      (r.1, { r.2.1 with State := { r.2.1.State with Running := true } }, r.2.2)
    else r
  else (XAIE_ERR, c, [])

/-- The condition `changeToConfigured` tests on a control whose Configured flag
is clear (lines 393 to 406 of the source): `StartEvent != XAIE_EVENT_NONE_CORE`,
the start event compared with the constant of the core module whatever the
module of the control is, and some reserved slot holds an event other than the
"none" event of the module (the event for physical event 0). -/
abbrev passesConfiguredTest (dev : XAieDev) (c : XAieTraceCntr) : Prop :=
  c.StartEvent ≠ dev.XAIE_EVENT_NONE_CORE ∧
    ∃ i : Fin 8, c.TraceSlotBits.testBit i.val = true ∧
      c.Events i ≠ dev.XAie_EventPhysicalToLogicalConv c.Loc c.Mod 0

/-- The Configured condition in the words of spec section 4.2, "a start event is
set and at least one reserved slot's event differs from the sentinel": the start
event is not the default the control is given, the "none" event of its module,
and some reserved slot holds an event other than that "none" event. -/
abbrev specConfigured (dev : XAieDev) (c : XAieTraceCntr) : Prop :=
  c.StartEvent ≠ dev.XAie_EventPhysicalToLogicalConv c.Loc c.Mod 0 ∧
    ∃ i : Fin 8, c.TraceSlotBits.testBit i.val = true ∧
      c.Events i ≠ dev.XAie_EventPhysicalToLogicalConv c.Loc c.Mod 0

/-- The slot-table invariant of spec section 3: every slot whose bit is clear in
the bitmap holds the "none" event of the module (the event for physical event
0). -/
abbrev freeSlotsHoldNone (dev : XAieDev) (c : XAieTraceCntr) : Prop :=
  ∀ i : Fin 8, c.TraceSlotBits.testBit i.val = false →
    c.Events i = dev.XAie_EventPhysicalToLogicalConv c.Loc c.Mod 0

/-- The members of a trace control that its setters are there to change: the
module, the bitmap, the slot table, the start and stop events, the mode and the
packet setup of `c1` are those of `c`. -/
abbrev sameSetup (c c1 : XAieTraceCntr) : Prop :=
  c1.Mod = c.Mod ∧ c1.TraceSlotBits = c.TraceSlotBits ∧ c1.Events = c.Events ∧
    c1.StartEvent = c.StartEvent ∧ c1.StopEvent = c.StopEvent ∧ c1.Mode = c.Mode ∧
    c1.Pkt = c.Pkt

end XAieTraceCntr

/-! ## The broadcast-channel collaborator -/

/-- Modelled from the spec: the broadcast-channel collaborator `XAieBroadcast`
(`xaiefal-bc.hpp` is not part of the sources), spec section 6: a channel is
acquired and released for (tiles, source module, destination module), and the
channel can be asked for its id and for the event it surfaces in a module.
`acquireRC`, `stopRC`, `BcId` and `BcEvent` are the collaborator's answers;
`acquired` counts the acquisitions it was asked for. -/
structure XAieBroadcast where
  State : XAieRscState
  vLocs : List XAie_LocType
  StartMod : XAie_ModuleType
  EndMod : XAie_ModuleType
  acquired : Nat
  acquireRC : AieRC
  stopRC : AieRC
  BcId : Nat
  BcEvent : XAie_LocType → XAie_ModuleType → XAie_Events

namespace XAieBroadcast

/-- Modelled from the spec: the constructor `XAieBroadcast(Dev)`; `raw` carries
the answers the collaborator will give. -/
def new (raw : XAieBroadcast) : XAieBroadcast :=
  { raw with State := XAieRscState.init, acquired := 0 }

/-- Modelled from the spec: `XAieBroadcast::initialize(vL, StartM, EndM)` (spelt
`initialise` here) records the tiles and the two modules the channel is for. -/
def initialise (b : XAieBroadcast) (vL : List XAie_LocType) (StartM EndM : XAie_ModuleType) :
    XAieBroadcast :=
  { b with vLocs := vL, StartMod := StartM, EndMod := EndM }

/-- Modelled from the spec: `XAieBroadcast::reserve`, the lifecycle wrapper of
spec section 4.1 around the channel acquisition: fails if Reserved; else asks
for a channel; on success sets Reserved. -/
def reserve (b : XAieBroadcast) : AieRC × XAieBroadcast :=
  if b.State.Reserved = true then (XAIE_ERR, b)
  else
    let b1 := { b with acquired := b.acquired + 1 }
    if b.acquireRC = XAIE_OK then
      (XAIE_OK, { b1 with State := { b1.State with Reserved := true } })
    else (b.acquireRC, b1)

/-- Modelled from the spec: `XAieBroadcast::release`, the lifecycle wrapper of
spec section 4.1: fails if Running; else gives the channel back and clears
Reserved and Configured. -/
def release (b : XAieBroadcast) : AieRC × XAieBroadcast :=
  if b.State.Running = true then (XAIE_ERR, b)
  else (XAIE_OK, { b with State := { b.State with Reserved := false, Configured := false } })

/-- Modelled from the spec: `XAieBroadcast::stop`, "stop it" of spec section 6:
the return code is the collaborator's answer, and the channel is not Running
afterwards. -/
def stop (b : XAieBroadcast) : AieRC × XAieBroadcast :=
  (b.stopRC, { b with State := { b.State with Running := false } })

/-- Modelled from the spec: `XAieBroadcast::getBc`, the id of the channel. -/
def getBc (b : XAieBroadcast) : Nat := b.BcId

/-- Modelled from the spec: `XAieBroadcast::getEvent(L, M, E)`, the value left in
`E`: the event the channel surfaces in module `M` of tile `L`. -/
def getEvent (b : XAieBroadcast) (L : XAie_LocType) (M : XAie_ModuleType) : XAie_Events :=
  b.BcEvent L M

end XAieBroadcast

/-! ## `XAieTraceEvent` -/

/-- The part of `Rsc` (`XAie_UserRsc`, a member of the base class
`XAieSingleTileRsc`) that the source assigns. -/
structure XAieUserRsc where
  Mod : XAie_ModuleType
  RscId : Nat
  deriving DecidableEq, Repr

/-- Data members of `XAieTraceEvent`, with `State`, `Loc`, `Mod` and `Rsc` of its
base classes.  `TraceCntr` tells whether the shared pointer is bound; the trace
control it points to is passed to each member function that follows it.  `Slot`
is a `uint8_t`. -/
structure XAieTraceEvent where
  State : XAieRscState
  Loc : XAie_LocType
  Mod : XAie_ModuleType
  Rsc : XAieUserRsc
  TraceCntr : Bool
  Event : XAie_Events
  BC : XAieBroadcast
  Slot : Nat

namespace XAieTraceEvent

/-- The constructor `XAieTraceEvent(Dev, L)`.  `raw` is the storage of the object
before construction (`Mod`, `Rsc`, `Event` and `Slot` stay indeterminate) and
carries the broadcast collaborator the member `BC` is built from. -/
def new (L : XAie_LocType) (raw : XAieTraceEvent) : XAieTraceEvent :=
  { raw with
    State := XAieRscState.init
    Loc := L
    TraceCntr := false
    BC := XAieBroadcast.new raw.BC }

/-- `XAieTraceEvent::initialize` (spelt `initialise` here, the source's spelling
being a reserved word).  `TraceCPtr` is the trace control the argument
points to; `E0` is the indeterminate initial value of the local `E`. -/
def initialise (dev : XAieDev) (e : XAieTraceEvent) (TraceCPtr : XAieTraceCntr)
    (E0 : XAie_Events) : AieRC × XAieTraceEvent :=
  if e.State.Reserved = false then
    let TType := dev._XAie_GetTileTypefromLoc e.Loc
    let r : AieRC × XAie_Events :=
      if TType = XAIEGBL_TILE_TYPE_MAX then (XAIE_INVALID_ARGS, E0)
      else if TType = XAIEGBL_TILE_TYPE_SHIMNOC ∨ TType = XAIEGBL_TILE_TYPE_SHIMPL then
        if TraceCPtr.getModule ≠ XAIE_PL_MOD then (XAIE_INVALID_ARGS, dev.XAIE_EVENT_NONE_PL)
        else (XAIE_OK, dev.XAIE_EVENT_NONE_PL)
      else if TraceCPtr.getModule = XAIE_MEM_MOD then (XAIE_OK, dev.XAIE_EVENT_NONE_MEM)
      else (XAIE_OK, E0)
    if r.1 = XAIE_OK then
      (r.1, { e with
        Event := r.2
        Mod := TraceCPtr.getModule
        TraceCntr := true
        State := { e.State with Initialized := true } })
    else (r.1, e)
  else (XAIE_ERR, e)

/-- `XAieTraceEvent::setEvent`. -/
def setEvent (dev : XAieDev) (e : XAieTraceEvent) (M : XAie_ModuleType) (E : XAie_Events) :
    AieRC × XAieTraceEvent :=
  if dev.XAie_EventLogicalToPhysicalConv e.Loc M E ≠ XAIE_OK then (XAIE_INVALID_ARGS, e)
  else if e.State.Running = true then (XAIE_ERR, e)
  else if e.State.Reserved = true ∧ M ≠ e.Mod then (XAIE_INVALID_ARGS, e)
  else (XAIE_OK, { e with Event := E, Mod := M, State := { e.State with Configured := true } })

/-- `XAieTraceEvent::getEvent(M, E)`: return code and the values of the two
reference parameters afterwards.  The failure branch logs the module of
`*TraceCntr`, so it has no result on an event whose pointer is not bound. -/
def getEvent (e : XAieTraceEvent) (M : XAie_ModuleType) (E : XAie_Events) :
    Option (AieRC × XAie_ModuleType × XAie_Events) :=
  if e.State.Configured = false then
    if e.TraceCntr = true then some (XAIE_ERR, M, E) else none
  else some (XAIE_OK, e.Mod, e.Event)

/-- `XAieTraceEvent::_reserve`, with `c` the trace control `*TraceCntr`; no result
when the pointer is not bound. -/
def _reserve (dev : XAieDev) (c : XAieTraceCntr) (e : XAieTraceEvent) :
    Option (AieRC × XAieTraceCntr × XAieTraceEvent) :=
  if e.TraceCntr = false then none
  else
    let r := c.reserveTraceSlot e.Slot
    let e1 := { e with Slot := r.2.2 }
    if r.1 ≠ XAIE_OK then some (r.1, r.2.1, e1)
    else if e1.Mod ≠ r.2.1.getModule then
      let bc := (e1.BC.initialise [e1.Loc] XAIE_CORE_MOD XAIE_MEM_MOD).reserve
      if bc.1 ≠ XAIE_OK then
        some (bc.1, (r.2.1.releaseTraceSlot dev e1.Slot).2, { e1 with BC := bc.2 })
      else
        some (bc.1, r.2.1, { e1 with BC := bc.2, Rsc := ⟨e1.Mod, e1.Slot⟩ })
    else some (r.1, r.2.1, e1)

/-- `XAieTraceEvent::_release`, with `c` the trace control `*TraceCntr`; no result
when the pointer is not bound. -/
def _release (dev : XAieDev) (c : XAieTraceCntr) (e : XAieTraceEvent) :
    Option (AieRC × XAieTraceCntr × XAieTraceEvent) :=
  if e.TraceCntr = false then none
  else
    let c1 := (c.releaseTraceSlot dev e.Slot).2
    if e.Mod ≠ c1.getModule then some (XAIE_OK, c1, { e with BC := e.BC.release.2 })
    else some (XAIE_OK, c1, e)

/-- `XAieTraceEvent::_start`, with `c` the trace control `*TraceCntr`; no result
when the pointer is not bound. -/
def _start (dev : XAieDev) (c : XAieTraceCntr) (e : XAieTraceEvent) :
    Option (AieRC × XAieTraceCntr × XAieTraceEvent) :=
  if e.TraceCntr = false then none
  else if e.Mod ≠ c.getModule then
    let RC := dev.XAie_EventBroadcast e.Loc e.Mod e.BC.getBc e.Event
    if RC = XAIE_OK then
      let BcE := e.BC.getEvent e.Loc c.getModule
      let r := c.setTraceEvent dev e.Slot BcE
      some (r.1, r.2, e)
    else some (RC, c, e)
  else
    let r := c.setTraceEvent dev e.Slot e.Event
    some (r.1, r.2, e)

/-- `XAieTraceEvent::_stop`, with `c` the trace control `*TraceCntr`; no result
when the pointer is not bound.  The event written to the slot is the one
`XAie_EventPhysicalToLogicalConv` gives for physical event 0 at the location of
the event and the module of the trace control. -/
def _stop (dev : XAieDev) (c : XAieTraceCntr) (e : XAieTraceEvent) :
    Option (AieRC × XAieTraceCntr × XAieTraceEvent) :=
  if e.TraceCntr = false then none
  else
    let E := dev.XAie_EventPhysicalToLogicalConv e.Loc c.getModule 0
    let l := c.setTraceEvent dev e.Slot E
    let RC := if l.1 ≠ XAIE_OK then l.1 else XAIE_OK
    if e.Mod ≠ l.2.getModule then
      let b := e.BC.stop
      some (if b.1 ≠ XAIE_OK then b.1 else RC, l.2, { e with BC := b.2 })
    else some (RC, l.2, e)

/-- Modelled from the spec: the lifecycle wrapper `XAieRsc::reserve` of the base
class (`xaiefal-rsc-base.hpp` is not part of the sources), spec section 4.1:
fails if Reserved; else invokes the hook; on success sets Reserved. -/
def reserve (dev : XAieDev) (c : XAieTraceCntr) (e : XAieTraceEvent) :
    Option (AieRC × XAieTraceCntr × XAieTraceEvent) :=
  if e.State.Reserved = true then some (XAIE_ERR, c, e)
  else
    match e._reserve dev c with
    | none => none
    | some (RC, c1, e1) =>
      if RC = XAIE_OK then some (RC, c1, { e1 with State := { e1.State with Reserved := true } })
      else some (RC, c1, e1)

/-- Modelled from the spec: the lifecycle wrapper `XAieRsc::release` of the base
class (`xaiefal-rsc-base.hpp` is not part of the sources), spec section 4.1:
fails if Running; invokes the hook; clears Reserved and Configured. -/
def release (dev : XAieDev) (c : XAieTraceCntr) (e : XAieTraceEvent) :
    Option (AieRC × XAieTraceCntr × XAieTraceEvent) :=
  if e.State.Running = true then some (XAIE_ERR, c, e)
  else
    match e._release dev c with
    | none => none
    | some (RC, c1, e1) =>
      some (RC, c1, { e1 with State := { e1.State with Reserved := false, Configured := false } })

/-- Modelled from the spec: the lifecycle wrapper `XAieRsc::start` of the base
class (`xaiefal-rsc-base.hpp` is not part of the sources), spec section 4.1:
fails unless Reserved and Configured; invokes the hook; on success sets
Running. -/
def start (dev : XAieDev) (c : XAieTraceCntr) (e : XAieTraceEvent) :
    Option (AieRC × XAieTraceCntr × XAieTraceEvent) :=
  if e.State.Reserved = true ∧ e.State.Configured = true then
    match e._start dev c with
    | none => none
    | some (RC, c1, e1) =>
      if RC = XAIE_OK then some (RC, c1, { e1 with State := { e1.State with Running := true } })
      else some (RC, c1, e1)
  else some (XAIE_ERR, c, e)

/-- Modelled from the spec: the lifecycle wrapper `XAieRsc::stop` of the base
class (`xaiefal-rsc-base.hpp` is not part of the sources), spec section 4.1:
fails unless Running; invokes the hook; clears Running whatever the hook
returned. -/
def stop (dev : XAieDev) (c : XAieTraceCntr) (e : XAieTraceEvent) :
    Option (AieRC × XAieTraceCntr × XAieTraceEvent) :=
  if e.State.Running = true then
    match e._stop dev c with
    | none => none
    | some (RC, c1, e1) =>
      some (RC, c1, { e1 with State := { e1.State with Running := false } })
  else some (XAIE_ERR, c, e)

end XAieTraceEvent

/-! ## `XAieTracing` -/

/-- Data members of `XAieTracing` (with the `State` of its base class).
`TraceCntr` is the trace control the shared pointer of the object and of each of
its events points to. -/
structure XAieTracing where
  State : XAieRscState
  TraceCntr : XAieTraceCntr
  Events : List XAieTraceEvent

namespace XAieTracing

/-- The constructor `XAieTracing(Dev, L)`; `rawC` is the storage the trace control
is constructed in. -/
def new (dev : XAieDev) (L : XAie_LocType) (rawC : XAieTraceCntr) : XAieTracing :=
  { State := XAieRscState.init, TraceCntr := XAieTraceCntr.new dev L rawC, Events := [] }

/-- The constructor `XAieTracing(Dev, L, M)`; `rawC` is the storage the trace
control is constructed in. -/
def newMod (dev : XAieDev) (L : XAie_LocType) (M : XAie_ModuleType) (rawC : XAieTraceCntr) :
    XAieTracing :=
  let t := { new dev L rawC with TraceCntr := XAieTraceCntr.newMod dev L M rawC }
  if t.TraceCntr.isInitialized = true then
    { t with State := { t.State with Initialized := true } }
  else t

/-- `XAieTracing::changeToConfigured`. -/
def changeToConfigured (t : XAieTracing) : XAieTracing :=
  if t.State.Configured = false then
    if t.TraceCntr.isConfigured = true then
      if t.Events.length > 0 then { t with State := { t.State with Configured := true } }
      else t
    else t
  else t

/-- `XAieTracing::addEvent`.  `raw` is the storage the local `TraceE` is
constructed in, with its broadcast collaborator, and `E0` the indeterminate
local of `XAieTraceEvent::initialize`.  No result when the new event has to
follow a `TraceCntr` pointer that `initialize` did not bind. -/
def addEvent (dev : XAieDev) (t : XAieTracing) (M : XAie_ModuleType) (E : XAie_Events)
    (raw : XAieTraceEvent) (E0 : XAie_Events) : Option (AieRC × XAieTracing) :=
  if t.Events.length = t.TraceCntr.getMaxTraceEvents then some (XAIE_ERR, t)
  else if t.State.Running = true then some (XAIE_ERR, t)
  else
    let TraceE0 := XAieTraceEvent.new t.TraceCntr.loc raw
    let TraceE1 := (TraceE0.initialise dev t.TraceCntr E0).2
    let r := TraceE1.setEvent dev M E
    if r.1 ≠ XAIE_OK then some (r.1, t)
    else if t.State.Reserved = true then
      match r.2.reserve dev t.TraceCntr with
      | none => none
      | some (RC, c1, TraceE2) =>
        if RC ≠ XAIE_OK then some (RC, { t with TraceCntr := c1 })
        else
          match TraceE2.start dev c1 with
          | none => none
          | some (RC1, c2, TraceE3) =>
            if RC1 ≠ XAIE_OK then
              match TraceE3.release dev c2 with
              | none => none
              | some (_, c3, _) => some (RC1, { t with TraceCntr := c3 })
            else
              some (RC1, changeToConfigured
                { t with TraceCntr := c2, Events := t.Events ++ [TraceE3] })
    else some (r.1, changeToConfigured { t with Events := t.Events ++ [r.2] })

/-- The local `TraceE` of `XAieTracing::addEvent` after `TraceE.initialize` and
`TraceE.setEvent`. -/
def addEvent.TraceE (dev : XAieDev) (t : XAieTracing) (M : XAie_ModuleType) (E : XAie_Events)
    (raw : XAieTraceEvent) (E0 : XAie_Events) : XAieTraceEvent :=
  (((XAieTraceEvent.new t.TraceCntr.loc raw).initialise dev t.TraceCntr E0).2.setEvent dev M E).2

/-- The search loop of `XAieTracing::removeEvent` over the events from index `i`
on: return code and the events from `i` on afterwards.  `lM0`, `lE0` are the
indeterminate values of the locals `lM`, `lE`, which `getEvent` overwrites when
it succeeds. -/
def removeEvent.loop (M : XAie_ModuleType) (E : XAie_Events) (lM0 : XAie_ModuleType)
    (lE0 : XAie_Events) : List XAieTraceEvent → Option (AieRC × List XAieTraceEvent)
  | [] => some (XAIE_INVALID_ARGS, [])
  | ev :: rest =>
    match ev.getEvent lM0 lE0 with
    | none => none
    | some (_, lM, lE) =>
      if lM = M ∧ E = lE then some (XAIE_OK, rest)
      else
        match removeEvent.loop M E lM0 lE0 rest with
        | none => none
        | some (RC, rest1) => some (RC, ev :: rest1)

/-- `XAieTracing::removeEvent`. -/
def removeEvent (t : XAieTracing) (M : XAie_ModuleType) (E : XAie_Events)
    (lM0 : XAie_ModuleType) (lE0 : XAie_Events) : Option (AieRC × XAieTracing) :=
  if t.State.Running = true then some (XAIE_ERR, t)
  else
    match removeEvent.loop M E lM0 lE0 t.Events with
    | none => none
    | some (RC, Events1) =>
      if RC ≠ XAIE_OK then some (RC, { t with Events := Events1 })
      else some (RC, changeToConfigured { t with Events := Events1 })

/-- `XAieTracing::getMaxTraceEvents`. -/
def getMaxTraceEvents (t : XAieTracing) : Nat := t.TraceCntr.getMaxTraceEvents

/-- `XAieTracing::getTraceControlAvailTraceSlots`; the subtraction is one of
`uint32_t`. -/
def getTraceControlAvailTraceSlots (t : XAieTracing) : Nat :=
  let MaxEvents := t.getMaxTraceEvents
  let NumReserved := t.TraceCntr.getReservedTraceEvents
  (MaxEvents + 2 ^ 32 - NumReserved) % 2 ^ 32

/-- First loop of `XAieTracing::_reserve`: `RC = Events[i].reserve()` for each
event in turn, leaving at the first failure.  `RC` is the value the variable has
on entry, which the loop returns when there is no event. -/
def _reserve.reserveLoop (dev : XAieDev) :
    AieRC → XAieTraceCntr → List XAieTraceEvent →
      Option (AieRC × XAieTraceCntr × List XAieTraceEvent)
  | RC, c, [] => some (RC, c, [])
  | _, c, ev :: rest =>
    match ev.reserve dev c with
    | none => none
    | some (RC1, c1, ev1) =>
      if RC1 ≠ XAIE_OK then some (RC1, c1, ev1 :: rest)
      else
        match _reserve.reserveLoop dev RC1 c1 rest with
        | none => none
        | some (RC2, c2, rest1) => some (RC2, c2, ev1 :: rest1)

/-- The loop `Events[i].release()` over all events (return codes ignored), of
`XAieTracing::_reserve` and `XAieTracing::_release`. -/
def releaseLoop (dev : XAieDev) :
    XAieTraceCntr → List XAieTraceEvent → Option (XAieTraceCntr × List XAieTraceEvent)
  | c, [] => some (c, [])
  | c, ev :: rest =>
    match ev.release dev c with
    | none => none
    | some (_, c1, ev1) =>
      match releaseLoop dev c1 rest with
      | none => none
      | some (c2, rest1) => some (c2, ev1 :: rest1)

/-- The loop `Events[i].start()` over all events (return codes ignored), of
`XAieTracing::_reserve`. -/
def _reserve.startLoop (dev : XAieDev) :
    XAieTraceCntr → List XAieTraceEvent → Option (XAieTraceCntr × List XAieTraceEvent)
  | c, [] => some (c, [])
  | c, ev :: rest =>
    match ev.start dev c with
    | none => none
    | some (_, c1, ev1) =>
      match _reserve.startLoop dev c1 rest with
      | none => none
      | some (c2, rest1) => some (c2, ev1 :: rest1)

/-- `XAieTracing::_reserve`, the reserve hook. -/
def _reserve (dev : XAieDev) (t : XAieTracing) : Option (AieRC × XAieTracing) :=
  let r0 := t.TraceCntr.reserve
  match _reserve.reserveLoop dev r0.1 r0.2 t.Events with
  | none => none
  | some (RC, c1, Events1) =>
    if RC ≠ XAIE_OK then
      match releaseLoop dev c1 Events1 with
      | none => none
      | some (c2, Events2) => some (RC, { t with TraceCntr := c2, Events := Events2 })
    else
      match _reserve.startLoop dev c1 Events1 with
      | none => none
      | some (c2, Events2) =>
        some (RC, changeToConfigured { t with TraceCntr := c2, Events := Events2 })

/-- `XAieTracing::_release`, the release hook. -/
def _release (dev : XAieDev) (t : XAieTracing) : Option (AieRC × XAieTracing) :=
  match releaseLoop dev t.TraceCntr.release.2 t.Events with
  | none => none
  | some (c1, Events1) => some (XAIE_OK, { t with TraceCntr := c1, Events := Events1 })

/-- The loop `Events[i].stop()` over all events of `XAieTracing::_stop`: the
trace control and the events afterwards, and the return codes of the calls, in
call order, which the source ignores. -/
def _stop.stopLoop (dev : XAieDev) :
    XAieTraceCntr → List XAieTraceEvent →
      Option (XAieTraceCntr × List XAieTraceEvent × List AieRC)
  | c, [] => some (c, [], [])
  | c, ev :: rest =>
    match ev.stop dev c with
    | none => none
    | some (RC, c1, ev1) =>
      match _stop.stopLoop dev c1 rest with
      | none => none
      | some (c2, rest1, RCs) => some (c2, ev1 :: rest1, RC :: RCs)

/-- `XAieTracing::_stop`, the stop hook. -/
def _stop (dev : XAieDev) (t : XAieTracing) : Option (AieRC × XAieTracing) :=
  match _stop.stopLoop dev (t.TraceCntr.stop dev).2 t.Events with
  | none => none
  | some (c1, Events1, _) => some (XAIE_OK, { t with TraceCntr := c1, Events := Events1 })

/-- Modelled from the spec: the lifecycle wrapper `XAieRsc::reserve` of the base
class (`xaiefal-rsc-base.hpp` is not part of the sources), spec section 4.1:
fails if Reserved; else invokes the hook; on success sets Reserved. -/
def reserve (dev : XAieDev) (t : XAieTracing) : Option (AieRC × XAieTracing) :=
  if t.State.Reserved = true then some (XAIE_ERR, t)
  else
    match t._reserve dev with
    | none => none
    | some (RC, t1) =>
      if RC = XAIE_OK then some (RC, { t1 with State := { t1.State with Reserved := true } })
      else some (RC, t1)

/-- Modelled from the spec: the lifecycle wrapper `XAieRsc::release` of the base
class (`xaiefal-rsc-base.hpp` is not part of the sources), spec section 4.1:
fails if Running; invokes the hook; clears Reserved and Configured. -/
def release (dev : XAieDev) (t : XAieTracing) : Option (AieRC × XAieTracing) :=
  if t.State.Running = true then some (XAIE_ERR, t)
  else
    match t._release dev with
    | none => none
    | some (RC, t1) =>
      some (RC, { t1 with State := { t1.State with Reserved := false, Configured := false } })

/-- Modelled from the spec: the lifecycle wrapper `XAieRsc::stop` of the base
class (`xaiefal-rsc-base.hpp` is not part of the sources), spec section 4.1:
fails unless Running; invokes the hook; clears Running whatever the hook
returned. -/
def stop (dev : XAieDev) (t : XAieTracing) : Option (AieRC × XAieTracing) :=
  if t.State.Running = true then
    match t._stop dev with
    | none => none
    | some (RC, t1) => some (RC, { t1 with State := { t1.State with Running := false } })
  else some (XAIE_ERR, t)

end XAieTracing

/-! ## Call sequences -/

/-- The calls `reserveTraceSlot(Slot)` made `k` times in a row on one trace
control with one slot variable: the control afterwards and, in call order, the
return code and the slot variable after each call. -/
def reserveSlots (c : XAieTraceCntr) (Slot : Nat) : Nat → XAieTraceCntr × List (AieRC × Nat)
  | 0 => (c, [])
  | k + 1 =>
    let r := c.reserveTraceSlot Slot
    let q := reserveSlots r.2.1 r.2.2 k
    (q.1, (r.1, r.2.2) :: q.2)

/-- The calls `releaseTraceSlot(s)` for the slots `s` of a list, in list order, on
one trace control: the control afterwards and the return codes in call order. -/
def releaseSlots (dev : XAieDev) (c : XAieTraceCntr) : List Nat → XAieTraceCntr × List AieRC
  | [] => (c, [])
  | s :: rest =>
    let r := c.releaseTraceSlot dev s
    let q := releaseSlots dev r.2 rest
    (q.1, r.1 :: q.2)

/-- The arguments of one `addEvent` call: the module and the event, and the two
indeterminate inputs of `XAieTracing.addEvent`. -/
structure AddEventCall where
  M : XAie_ModuleType
  E : XAie_Events
  raw : XAieTraceEvent
  E0 : XAie_Events

/-- The calls `addEvent(M, E)` for a list of arguments, in list order, on one
tracing object: the return codes in call order and the object afterwards. -/
def addEvents (dev : XAieDev) : XAieTracing → List AddEventCall → Option (List AieRC × XAieTracing)
  | t, [] => some ([], t)
  | t, r :: rest =>
    match t.addEvent dev r.M r.E r.raw r.E0 with
    | none => none
    | some (RC, t1) =>
      match addEvents dev t1 rest with
      | none => none
      | some (RCs, t2) => some (RC :: RCs, t2)

/-! ## Example objects -/

/-- A device on which every tile is an AIE tile, every module and event is valid,
and the event for physical event 0 of a module is that module's "none" event. -/
def exampleDev : XAieDev where
  _XAie_GetTileTypefromLoc := fun _ => XAIEGBL_TILE_TYPE_AIETILE
  _XAie_CheckModule := fun _ _ => XAIE_OK
  XAie_EventPhysicalToLogicalConv := fun _ M _ =>
    match M with
    | XAIE_CORE_MOD => 0
    | XAIE_MEM_MOD => 1000
    | XAIE_PL_MOD => 2000
  XAie_EventLogicalToPhysicalConv := fun _ _ _ => XAIE_OK
  XAie_EventBroadcast := fun _ _ _ _ => XAIE_OK
  XAie_TraceControlConfigReset := fun _ _ => XAIE_OK
  XAie_TraceEventList := fun _ _ _ _ => XAIE_OK
  XAie_TracePktConfig := fun _ _ _ => XAIE_OK
  XAie_TraceControlConfig := fun _ _ _ _ _ => XAIE_OK
  XAIE_EVENT_NONE_CORE := 0
  XAIE_EVENT_NONE_MEM := 1000
  XAIE_EVENT_NONE_PL := 2000

/-- Some storage for a trace control, before construction. -/
def rawCntr : XAieTraceCntr where
  State := ⟨true, true, true, true⟩
  Loc := ⟨0, 0⟩
  Mod := XAIE_PL_MOD
  TraceSlotBits := 0xAB
  Events := fun _ => 77
  StartEvent := 5
  StopEvent := 6
  Pkt := ⟨3, 1⟩
  Mode := XAIE_TRACE_INST_EXEC

/-- A newly constructed trace control, of the core module of tile (1, 1). -/
def exampleCntr : XAieTraceCntr := XAieTraceCntr.new exampleDev ⟨1, 1⟩ rawCntr

/-- A trace control with the slots 0, 1 and 3 taken. -/
def busyCntr : XAieTraceCntr := { exampleCntr with TraceSlotBits := 0x0B }

/-- A new tracing object on tile (1, 1): core-module trace control, no event. -/
def exampleTracing : XAieTracing := XAieTracing.new exampleDev ⟨1, 1⟩ rawCntr

/-- Some storage for a trace event, with a broadcast collaborator that grants a
channel (id 4) on which it surfaces event 123. -/
def rawEvent : XAieTraceEvent where
  State := ⟨true, false, true, true⟩
  Loc := ⟨0, 0⟩
  Mod := XAIE_PL_MOD
  Rsc := ⟨XAIE_PL_MOD, 0⟩
  TraceCntr := true
  Event := 55
  BC :=
    { State := XAieRscState.init
      vLocs := []
      StartMod := XAIE_PL_MOD
      EndMod := XAIE_PL_MOD
      acquired := 0
      acquireRC := XAIE_OK
      stopRC := XAIE_OK
      BcId := 4
      BcEvent := fun _ _ => 123 }
  Slot := 200

/-- The same storage with a broadcast collaborator that has no channel to give:
its acquisition fails with code 7. -/
def rawEventNoBc : XAieTraceEvent :=
  { rawEvent with BC := { rawEvent.BC with acquireRC := XAIE_OTHER 7 } }

/-- Eight `addEvent` calls, and a ninth. -/
def nineCalls : List AddEventCall :=
  [⟨XAIE_CORE_MOD, 10, rawEvent, 0⟩, ⟨XAIE_MEM_MOD, 11, rawEvent, 0⟩,
   ⟨XAIE_CORE_MOD, 12, rawEvent, 0⟩, ⟨XAIE_CORE_MOD, 13, rawEventNoBc, 0⟩,
   ⟨XAIE_MEM_MOD, 14, rawEvent, 0⟩, ⟨XAIE_CORE_MOD, 15, rawEvent, 0⟩,
   ⟨XAIE_CORE_MOD, 16, rawEvent, 0⟩, ⟨XAIE_MEM_MOD, 17, rawEventNoBc, 0⟩,
   ⟨XAIE_CORE_MOD, 18, rawEvent, 0⟩]

/-- An event of the memory module bound to the core-module control
`exampleCntr`, not yet reserved; its broadcast collaborator has no channel. -/
def memEventNoBc : XAieTraceEvent :=
  ((((XAieTraceEvent.new exampleCntr.loc rawEventNoBc).initialise exampleDev exampleCntr 0).2).setEvent
    exampleDev XAIE_MEM_MOD 12).2

/-- Three `addEvent` calls: two core-module events and a memory-module event
whose broadcast collaborator has no channel. -/
def threeCalls : List AddEventCall :=
  [⟨XAIE_CORE_MOD, 10, rawEvent, 0⟩, ⟨XAIE_CORE_MOD, 11, rawEvent, 0⟩,
   ⟨XAIE_MEM_MOD, 12, rawEventNoBc, 0⟩]

/-- The new tracing object after the three calls of `threeCalls`. -/
def queuedThree : Option XAieTracing :=
  (addEvents exampleDev exampleTracing threeCalls).map Prod.snd

/-- The new tracing object after `addEvent(XAIE_CORE_MOD, 10)`. -/
def queuedOne : Option XAieTracing :=
  (addEvents exampleDev exampleTracing [⟨XAIE_CORE_MOD, 10, rawEvent, 0⟩]).map Prod.snd

/-- The tracing object `queuedOne` with its trace control Reserved, the tracing
object itself not being Reserved. -/
def queuedOneCntrReserved : Option XAieTracing :=
  queuedOne.map fun t =>
    { t with TraceCntr := { t.TraceCntr with State := { t.TraceCntr.State with Reserved := true } } }

/-- The tracing object `queuedOne` after a `reserve`. -/
def reservedOne : Option XAieTracing :=
  (queuedOne.bind (XAieTracing.reserve exampleDev)).map Prod.snd

/-- The trace control `busyCntr`, Reserved and Running. -/
def runningCntr : XAieTraceCntr := { busyCntr with State := ⟨true, true, true, true⟩ }

/-- The device `exampleDev` with a topology check that rejects the PL module on
every tile and accepts the core and memory modules. -/
def pickyDev : XAieDev :=
  { exampleDev with
    _XAie_CheckModule := fun _ M => if M = XAIE_PL_MOD then XAIE_INVALID_ARGS else XAIE_OK }

/-- A newly constructed trace control on `pickyDev`, of the core module of tile
(1, 1). -/
def pickyCntr : XAieTraceCntr := XAieTraceCntr.new pickyDev ⟨1, 1⟩ rawCntr

/-- A trace control constructed on `pickyDev` with the PL module, which the
topology check rejects. -/
def pickyPlCntr : XAieTraceCntr := XAieTraceCntr.newMod pickyDev ⟨1, 1⟩ XAIE_PL_MOD rawCntr

/-- The device `exampleDev` with an event translation that rejects event 666 and
accepts every other event. -/
def fussyDev : XAieDev :=
  { exampleDev with
    XAie_EventLogicalToPhysicalConv := fun _ _ E => if E = 666 then XAIE_INVALID_ARGS else XAIE_OK }

/-- A memory-module event bound to a core-module control, Reserved and Running,
that holds slot 1; its broadcast collaborator answers `stop` with error 8. -/
def memEventHeld : XAieTraceEvent :=
  { memEventNoBc with
    State := ⟨true, true, true, true⟩
    Slot := 1
    BC := { memEventNoBc.BC with stopRC := XAIE_OTHER 8 } }

/-- A core-module event bound to a core-module control, Reserved and Configured,
that holds slot 3 and is to trace event 10. -/
def coreEventHeld : XAieTraceEvent :=
  { (((XAieTraceEvent.new busyCntr.loc rawEvent).initialise exampleDev busyCntr 0).2.setEvent
      exampleDev XAIE_CORE_MOD 10).2 with
    State := ⟨true, true, true, false⟩
    Slot := 3 }

/-- A memory-module event bound to a core-module control, Reserved and
Configured, that holds slot 3 and is to trace event 12; its broadcast channel
surfaces event 123. -/
def memEventReady : XAieTraceEvent :=
  { (((XAieTraceEvent.new busyCntr.loc rawEvent).initialise exampleDev busyCntr 0).2.setEvent
      exampleDev XAIE_MEM_MOD 12).2 with
    State := ⟨true, true, true, false⟩
    Slot := 3 }

/-- The device `exampleDev` with a control-register reset that fails with
error 9. -/
def brokenResetDev : XAieDev :=
  { exampleDev with XAie_TraceControlConfigReset := fun _ _ => XAIE_OTHER 9 }

/-- The tracing object `reservedOne` as a successful start leaves it: the object
and its trace control are Running (its one event has been Running since the
reservation). -/
def runningOne : XAieTracing :=
  match reservedOne with
  | some t =>
    { t with
      State := { t.State with Running := true }
      TraceCntr := { t.TraceCntr with State := { t.TraceCntr.State with Running := true } } }
  | none => exampleTracing

/-- A trace control of the memory module of tile (1, 1). -/
def memCntr : XAieTraceCntr := XAieTraceCntr.newMod exampleDev ⟨1, 1⟩ XAIE_MEM_MOD rawCntr

/-- A new trace event after a successful `initialize` with `exampleCntr` and
`setEvent(XAIE_CORE_MOD, 10)`; it is not Reserved. -/
def coreEventSet : XAieTraceEvent :=
  (((XAieTraceEvent.new exampleCntr.loc rawEvent).initialise exampleDev exampleCntr 0).2.setEvent
    exampleDev XAIE_CORE_MOD 10).2

/-- The tracing object `reservedOne`: Reserved, not Running, one core-module event
in slot 0. -/
def lateSession : XAieTracing :=
  match reservedOne with
  | some t => t
  | none => exampleTracing

/-- The device `exampleDev` with a driver that cannot program a broadcast: the
call fails with error 5. -/
def noBroadcastDev : XAieDev :=
  { exampleDev with XAie_EventBroadcast := fun _ _ _ _ => XAIE_OTHER 5 }

/-- A new trace event after a successful `initialize` with `exampleCntr`; no
`setEvent` has been called on it. -/
def coreEventBound : XAieTraceEvent :=
  ((XAieTraceEvent.new exampleCntr.loc rawEvent).initialise exampleDev exampleCntr 0).2

/-- The device `exampleDev` on which `XAie_TracePktConfig` fails with error 9. -/
def noPktDev : XAieDev :=
  { exampleDev with XAie_TracePktConfig := fun _ _ _ => XAIE_OTHER 9 }

/-- A trace control constructed over zeroed storage, so that every slot holds
event 0, the "none" event of the core module on `exampleDev`; core module of tile
(1, 1). -/
def cleanCntr : XAieTraceCntr :=
  XAieTraceCntr.new exampleDev ⟨1, 1⟩
    { rawCntr with Events := fun _ => 0, TraceSlotBits := 0, StartEvent := 0, StopEvent := 0 }

/-- The control `cleanCntr` after `setCntrEvent(20, 21)` and one
`reserveTraceSlot`: a start event is set, slot 0 is reserved and holds the "none"
event; the control is Initialized, not Running and not Configured. -/
def armedCntr : XAieTraceCntr :=
  ((cleanCntr.setCntrEvent exampleDev 20 21).2.reserveTraceSlot 0).2.1

/-- A new trace event after a successful `initialize` with the core-module
control `exampleCntr` and `setEvent(XAIE_MEM_MOD, 12)`; it is not Reserved and
its broadcast collaborator has a channel to give. -/
def memEventSet : XAieTraceEvent :=
  (((XAieTraceEvent.new exampleCntr.loc rawEvent).initialise exampleDev exampleCntr 0).2.setEvent
    exampleDev XAIE_MEM_MOD 12).2

/-- A newly constructed trace event on tile (1, 1): `initialize` has not been
called, so it is bound to no trace control. -/
def newEvent : XAieTraceEvent := XAieTraceEvent.new ⟨1, 1⟩ rawEvent

/-- The device `exampleDev` with every tile a memory tile (a tile kind the
source does not name, for which the constructor chooses `XAIE_MEM_MOD`). -/
def memTileDev : XAieDev :=
  { exampleDev with _XAie_GetTileTypefromLoc := fun _ => XAIEGBL_TILE_TYPE_OTHER }

/-- A newly constructed trace control of the memory tile (1, 1) of `memTileDev`,
over storage whose slots hold event 1000, the "none" event of the memory
module. -/
def memTileCntr : XAieTraceCntr :=
  XAieTraceCntr.new memTileDev ⟨1, 1⟩ { rawCntr with Events := fun _ => 1000 }

/-- The control `memTileCntr` after one `reserveTraceSlot`: slot 0 is reserved;
`setCntrEvent` has not been called. -/
def memTileArmed : XAieTraceCntr := (memTileCntr.reserveTraceSlot 0).2.1

/-! ## Bit-level facts about the slot bitmap -/

theorem mask_eq_two_pow {i : Nat} (hi : i < 8) : (1 <<< i) % 256 = 2 ^ i := by
  rw [Nat.one_shiftLeft]
  apply Nat.mod_eq_of_lt
  calc 2 ^ i < 2 ^ 8 := Nat.pow_lt_pow_right (by decide) hi
    _ = 256 := by norm_num

theorem land_two_pow_eq_zero_iff (b i : Nat) : b &&& 2 ^ i = 0 ↔ b.testBit i = false := by
  constructor
  · intro h
    have h1 : (b &&& 2 ^ i).testBit i = false := by rw [h]; simp
    simpa [Nat.testBit_and, Nat.testBit_two_pow_self] using h1
  · intro h
    apply Nat.eq_of_testBit_eq
    intro j
    rw [Nat.testBit_and, Nat.testBit_two_pow]
    by_cases hij : i = j
    · subst hij; simp [h]
    · simp [hij]

theorem lor_two_pow_lt {b i : Nat} (hb : b < 256) (hi : i < 8) : b ||| 2 ^ i < 256 := by
  have h8 : (256 : Nat) = 2 ^ 8 := by norm_num
  rw [h8] at hb ⊢
  exact Nat.or_lt_two_pow hb (Nat.pow_lt_pow_right (by decide) hi)

theorem testBit_of_lt_256 {b j : Nat} (hb : b < 256) (hj : 8 ≤ j) : b.testBit j = false := by
  apply Nat.testBit_lt_two_pow
  calc b < 2 ^ 8 := by simpa using hb
    _ ≤ 2 ^ j := Nat.pow_le_pow_right (by decide) hj

/-- The bitmap `releaseTraceSlot` stores: bit `s` cleared, the others kept. -/
theorem testBit_clear {b s : Nat} (hb : b < 256) (hs : s < 8) (j : Nat) :
    ((b &&& (0xFFFFFFFF ^^^ (1 <<< s))) % 256).testBit j = (b.testBit j && decide (j ≠ s)) := by
  have h8 : (256 : Nat) = 2 ^ 8 := by norm_num
  have h32 : (0xFFFFFFFF : Nat) = 2 ^ 32 - 1 := by norm_num
  rw [h8, Nat.testBit_mod_two_pow, Nat.testBit_and, Nat.testBit_xor, h32,
    Nat.testBit_two_pow_sub_one, Nat.one_shiftLeft, Nat.testBit_two_pow]
  by_cases hj : j < 8
  · have hj32 : j < 32 := by omega
    by_cases hjs : j = s
    · subst hjs; simp [hj, hj32]
    · have hsj : ¬ s = j := fun h => hjs h.symm
      simp [hj, hj32, hjs, hsj]
  · have hbj : b.testBit j = false := testBit_of_lt_256 hb (by omega)
    simp [hj, hbj]

theorem clear_lt_256 (b s : Nat) : (b &&& (0xFFFFFFFF ^^^ (1 <<< s))) % 256 < 256 :=
  Nat.mod_lt _ (by decide)

theorem eq_255_iff_all_set {b : Nat} (hb : b < 256) :
    b = 255 ↔ ∀ j < 8, b.testBit j = true := by
  have h255 : (255 : Nat) = 2 ^ 8 - 1 := by norm_num
  constructor
  · intro h j hj
    rw [h, h255, Nat.testBit_two_pow_sub_one]
    simpa using hj
  · intro h
    apply Nat.eq_of_testBit_eq
    intro j
    rw [h255, Nat.testBit_two_pow_sub_one]
    by_cases hj : j < 8
    · simp [hj, h j hj]
    · have hbj : b.testBit j = false := testBit_of_lt_256 hb (by omega)
      simp [hj, hbj]

/-- What the scan of `reserveTraceSlot` returns from index `i` on, when every
slot below `i` is taken. -/
theorem reserveTraceSlot_loop_spec (c : XAieTraceCntr) (Slot : Nat)
    (hb : c.TraceSlotBits < 256) :
    ∀ n i, i + n = 8 → (∀ j < i, c.TraceSlotBits.testBit j = true) →
      (∃ k, k < 8 ∧ c.TraceSlotBits.testBit k = false ∧
          (∀ j < k, c.TraceSlotBits.testBit j = true) ∧
          XAieTraceCntr.reserveTraceSlot.loop c Slot n i =
            (XAIE_OK, { c with TraceSlotBits := c.TraceSlotBits ||| 2 ^ k }, k)) ∨
      ((∀ j < 8, c.TraceSlotBits.testBit j = true) ∧
          XAieTraceCntr.reserveTraceSlot.loop c Slot n i = (XAIE_ERR, c, Slot)) := by
  intro n
  induction n with
  | zero =>
    intro i hi hlow
    right
    have : i = 8 := by omega
    subst this
    exact ⟨hlow, rfl⟩
  | succ n ih =>
    intro i hi hlow
    have hi8 : i < 8 := by omega
    by_cases hbit : c.TraceSlotBits.testBit i = false
    · left
      refine ⟨i, hi8, hbit, hlow, ?_⟩
      have hz : c.TraceSlotBits &&& 2 ^ i = 0 := (land_two_pow_eq_zero_iff _ _).2 hbit
      simp only [XAieTraceCntr.reserveTraceSlot.loop, mask_eq_two_pow hi8, hz, if_true,
        Nat.mod_eq_of_lt (lor_two_pow_lt hb hi8)]
    · have hbit1 : c.TraceSlotBits.testBit i = true := by simpa using hbit
      have hz : ¬ c.TraceSlotBits &&& 2 ^ i = 0 := fun h =>
        hbit ((land_two_pow_eq_zero_iff _ _).1 h)
      have hstep : XAieTraceCntr.reserveTraceSlot.loop c Slot (n + 1) i =
          XAieTraceCntr.reserveTraceSlot.loop c Slot n (i + 1) := by
        simp only [XAieTraceCntr.reserveTraceSlot.loop, mask_eq_two_pow hi8, hz, if_false]
      rw [hstep]
      apply ih (i + 1) (by omega)
      intro j hj
      by_cases hji : j = i
      · subst hji; exact hbit1
      · exact hlow j (by omega)

/-- The result of `reserveTraceSlot` in each case. -/
theorem reserveTraceSlot_spec (c : XAieTraceCntr) (Slot : Nat)
    (hb : c.TraceSlotBits < 256) :
    (c.State.Running = false → (∃ j < 8, c.TraceSlotBits.testBit j = false) →
      ∃ i < 8, c.TraceSlotBits.testBit i = false ∧
        (∀ j < i, c.TraceSlotBits.testBit j = true) ∧
        c.reserveTraceSlot Slot =
          (XAIE_OK, { c with TraceSlotBits := c.TraceSlotBits ||| 2 ^ i }, i) ∧
        (∀ k, (c.TraceSlotBits ||| 2 ^ i).testBit k =
          (c.TraceSlotBits.testBit k || decide (k = i)))) ∧
    (c.State.Running = true ∨ c.TraceSlotBits = 255 →
      (c.reserveTraceSlot Slot).1 ≠ XAIE_OK ∧ c.reserveTraceSlot Slot = (XAIE_ERR, c, Slot)) := by
  constructor
  · intro hrun hfree
    obtain ⟨j, hj, hjbit⟩ := hfree
    have hloop := reserveTraceSlot_loop_spec c Slot hb 8 0 (by omega) (by intro j hj; omega)
    rcases hloop with ⟨k, hk, hkbit, hklow, hres⟩ | ⟨hall, _⟩
    · refine ⟨k, hk, hkbit, hklow, ?_, ?_⟩
      · simp only [XAieTraceCntr.reserveTraceSlot, hrun, Bool.false_eq_true, if_false, hres]
      · intro m
        rw [Nat.testBit_or, Nat.testBit_two_pow]
        by_cases hmk : m = k
        · subst hmk; simp
        · have : ¬ k = m := fun h => hmk h.symm
          simp [hmk, this]
    · rw [hall j hj] at hjbit
      exact absurd hjbit (by decide)
  · intro h
    have hres : c.reserveTraceSlot Slot = (XAIE_ERR, c, Slot) := by
      by_cases hrun : c.State.Running = true
      · simp only [XAieTraceCntr.reserveTraceSlot, hrun, if_true]
      · have hall : ∀ j < 8, c.TraceSlotBits.testBit j = true := by
          rcases h with h | h
          · exact absurd h hrun
          · exact (eq_255_iff_all_set hb).1 h
        have hloop := reserveTraceSlot_loop_spec c Slot hb 8 0 (by omega) (by intro j hj; omega)
        rcases hloop with ⟨k, hk, hkbit, _, _⟩ | ⟨_, hres⟩
        · rw [hall k hk] at hkbit
          exact absurd hkbit (by decide)
        · simp [XAieTraceCntr.reserveTraceSlot, hrun, hres]
    rw [hres]
    exact ⟨fun h => AieRC.noConfusion h, rfl⟩

/-- C1: `reserveTraceSlot` is first-fit.  On a trace control that is not Running
and whose 8-bit bitmap has a clear bit, it returns `XAIE_OK` and the smallest
index `i < 8` whose bit is clear, and the control afterwards is the one before
with bit `i` of the bitmap set (nothing else changes).  On a control that is
Running or whose bitmap is `0xFF` it returns an error and changes neither the
control nor the caller's slot variable. -/
theorem C1_reserveTraceSlot_first_fit (c : XAieTraceCntr) (Slot : Nat)
    (hb : c.TraceSlotBits < 256) :
    (c.State.Running = false → (∃ j < 8, c.TraceSlotBits.testBit j = false) →
      ∃ i < 8, c.TraceSlotBits.testBit i = false ∧
        (∀ j < i, c.TraceSlotBits.testBit j = true) ∧
        c.reserveTraceSlot Slot =
          (XAIE_OK, { c with TraceSlotBits := c.TraceSlotBits ||| 2 ^ i }, i) ∧
        (∀ k, (c.TraceSlotBits ||| 2 ^ i).testBit k =
          (c.TraceSlotBits.testBit k || decide (k = i)))) ∧
    (c.State.Running = true ∨ c.TraceSlotBits = 255 →
      (c.reserveTraceSlot Slot).1 ≠ XAIE_OK ∧ c.reserveTraceSlot Slot = (XAIE_ERR, c, Slot)) :=
  reserveTraceSlot_spec c Slot hb

/-- C1, at a concrete input: the new core-module control (bitmap 0) gives slot 0
and has bitmap 1 afterwards. -/
theorem C1_reserveTraceSlot_first_fit_witness :
    exampleCntr.TraceSlotBits < 256 ∧
    ∃ i < 8, exampleCntr.TraceSlotBits.testBit i = false ∧
      (∀ j < i, exampleCntr.TraceSlotBits.testBit j = true) ∧
      exampleCntr.reserveTraceSlot 9 =
        (XAIE_OK, { exampleCntr with TraceSlotBits := exampleCntr.TraceSlotBits ||| 2 ^ i }, i) ∧
      (∀ k, (exampleCntr.TraceSlotBits ||| 2 ^ i).testBit k =
        (exampleCntr.TraceSlotBits.testBit k || decide (k = i))) :=
  ⟨by decide,
    (C1_reserveTraceSlot_first_fit exampleCntr 9 (by decide)).1 (by decide)
      ⟨0, by decide, by decide⟩⟩

/-! ## Reserve and release of slots -/

/-- A successful `reserveTraceSlot` took the lowest clear bit. -/
theorem reserveTraceSlot_ok {c c1 : XAieTraceCntr} {Slot s : Nat}
    (hb : c.TraceSlotBits < 256) (h : c.reserveTraceSlot Slot = (XAIE_OK, c1, s)) :
    c.State.Running = false ∧ s < 8 ∧ c.TraceSlotBits.testBit s = false ∧
      (∀ j < s, c.TraceSlotBits.testBit j = true) ∧
      c1 = { c with TraceSlotBits := c.TraceSlotBits ||| 2 ^ s } := by
  by_cases hrun : c.State.Running = true
  · simp [XAieTraceCntr.reserveTraceSlot, hrun] at h
  · have hrun1 : c.State.Running = false := by simpa using hrun
    have hloop := reserveTraceSlot_loop_spec c Slot hb 8 0 (by omega) (by intro j hj; omega)
    have hdef : c.reserveTraceSlot Slot = XAieTraceCntr.reserveTraceSlot.loop c Slot 8 0 := by
      simp [XAieTraceCntr.reserveTraceSlot, hrun1]
    rw [hdef] at h
    rcases hloop with ⟨k, hk, hkbit, hklow, hres⟩ | ⟨_, hres⟩
    · rw [hres] at h
      simp only [Prod.mk.injEq, true_and] at h
      obtain ⟨hc, hs⟩ := h
      subst hs
      exact ⟨hrun1, hk, hkbit, hklow, hc.symm⟩
    · rw [hres] at h
      simp at h

/-- On a control that is not Running, `reserveTraceSlot` succeeds when a bit is
clear. -/
theorem reserveTraceSlot_succeeds (c : XAieTraceCntr) (Slot : Nat)
    (hb : c.TraceSlotBits < 256) (hrun : c.State.Running = false) {j : Nat} (hj : j < 8)
    (hfree : c.TraceSlotBits.testBit j = false) :
    ∃ i, c.reserveTraceSlot Slot =
      (XAIE_OK, { c with TraceSlotBits := c.TraceSlotBits ||| 2 ^ i }, i) := by
  obtain ⟨i, _, _, _, hres, _⟩ :=
    (reserveTraceSlot_spec c Slot hb).1 hrun ⟨j, hj, hfree⟩
  exact ⟨i, hres⟩

/-- What `releaseTraceSlot` does with an in-range slot on a control that is not
Running. -/
theorem releaseTraceSlot_in_range (dev : XAieDev) (c : XAieTraceCntr) {s : Nat}
    (hrun : c.State.Running = false) (hs : s < 8) :
    c.releaseTraceSlot dev s =
      (XAIE_OK,
        { c with
          TraceSlotBits := (c.TraceSlotBits &&& (0xFFFFFFFF ^^^ (1 <<< s))) % 256
          Events := Function.update c.Events ⟨s, hs⟩
            (dev.XAie_EventPhysicalToLogicalConv c.Loc c.Mod 0) }) := by
  have h8 : ¬ 8 ≤ s := by omega
  simp [XAieTraceCntr.releaseTraceSlot, hrun, h8]

/-- Releasing the slot a successful `reserveTraceSlot` returned gives back the
bitmap from before the reservation. -/
theorem release_after_reserve (dev : XAieDev) {c c1 : XAieTraceCntr} {Slot s : Nat}
    (hb : c.TraceSlotBits < 256) (h : c.reserveTraceSlot Slot = (XAIE_OK, c1, s)) :
    (c1.releaseTraceSlot dev s).1 = XAIE_OK ∧
      (c1.releaseTraceSlot dev s).2.TraceSlotBits = c.TraceSlotBits := by
  obtain ⟨hrun, hs, hbit, _, hc1⟩ := reserveTraceSlot_ok hb h
  have hrun1 : c1.State.Running = false := by rw [hc1]; exact hrun
  rw [releaseTraceSlot_in_range dev c1 hrun1 hs]
  refine ⟨rfl, ?_⟩
  show (c1.TraceSlotBits &&& (0xFFFFFFFF ^^^ (1 <<< s))) % 256 = c.TraceSlotBits
  have hb1 : c1.TraceSlotBits < 256 := by rw [hc1]; exact lor_two_pow_lt hb hs
  apply Nat.eq_of_testBit_eq
  intro j
  rw [testBit_clear hb1 hs, hc1]
  show ((c.TraceSlotBits ||| 2 ^ s).testBit j && decide (j ≠ s)) = c.TraceSlotBits.testBit j
  rw [Nat.testBit_or, Nat.testBit_two_pow]
  by_cases hjs : j = s
  · subst hjs; simp [hbit]
  · have : ¬ s = j := fun h => hjs h.symm
    simp [hjs, this]

/-- Reserving `k` slots on a control whose taken slots are exactly those below
`m`: the calls succeed with the slots `m, m + 1, ..`, in this order. -/
theorem reserveSlots_low :
    ∀ (k : Nat) (c : XAieTraceCntr) (Slot m : Nat), c.TraceSlotBits < 256 →
      c.State.Running = false → (∀ j, c.TraceSlotBits.testBit j = decide (j < m)) →
      m + k ≤ 8 →
      (reserveSlots c Slot k).2 = (List.range' m k).map (fun i => (XAIE_OK, i)) ∧
      (reserveSlots c Slot k).1.State.Running = false ∧
      (reserveSlots c Slot k).1.TraceSlotBits < 256 ∧
      (∀ j, (reserveSlots c Slot k).1.TraceSlotBits.testBit j = decide (j < m + k)) := by
  intro k
  induction k with
  | zero =>
    intro c Slot m hb hrun hbits _
    exact ⟨rfl, hrun, hb, by simpa using hbits⟩
  | succ k ih =>
    intro c Slot m hb hrun hbits hmk
    have hm8 : m < 8 := by omega
    have hfree : c.TraceSlotBits.testBit m = false := by rw [hbits m]; simp
    obtain ⟨i, hres⟩ := reserveTraceSlot_succeeds c Slot hb hrun hm8 hfree
    obtain ⟨_, hi8, hibit, hilow, _⟩ := reserveTraceSlot_ok hb hres
    have him : i = m := by
      have h1 : m ≤ i := by
        rw [hbits i] at hibit
        simpa using hibit
      have h2 : ¬ m < i := by
        intro hlt
        have := hilow m hlt
        rw [hfree] at this
        exact absurd this (by decide)
      omega
    subst him
    have hstep : reserveSlots c Slot (k + 1) =
        ((reserveSlots { c with TraceSlotBits := c.TraceSlotBits ||| 2 ^ i } i k).1,
          (XAIE_OK, i) :: (reserveSlots { c with TraceSlotBits := c.TraceSlotBits ||| 2 ^ i }
            i k).2) := by
      simp only [reserveSlots, hres]
    have hbits1 : ∀ j, ({ c with TraceSlotBits := c.TraceSlotBits ||| 2 ^ i } :
        XAieTraceCntr).TraceSlotBits.testBit j = decide (j < i + 1) := by
      intro j
      show (c.TraceSlotBits ||| 2 ^ i).testBit j = decide (j < i + 1)
      rw [Nat.testBit_or, Nat.testBit_two_pow, hbits j]
      by_cases h1 : j < i
      · have : j < i + 1 := by omega
        simp [h1, this]
      · by_cases h2 : i = j
        · subst h2; simp
        · have : ¬ j < i + 1 := by omega
          simp [h1, h2, this]
    obtain ⟨ih1, ih2, ih3, ih4⟩ :=
      ih { c with TraceSlotBits := c.TraceSlotBits ||| 2 ^ i } i (i + 1)
        (lor_two_pow_lt hb hi8) hrun hbits1 (by omega)
    rw [hstep]
    refine ⟨?_, ih2, ih3, ?_⟩
    · show (XAIE_OK, i) :: _ = _
      rw [ih1]
      rfl
    · intro j
      rw [ih4 j]
      have : i + 1 + k = i + (k + 1) := by omega
      rw [this]

/-- Releasing a list of in-range slots on a control that is not Running: every
call succeeds and exactly the bits of the listed slots are cleared. -/
theorem releaseSlots_bits (dev : XAieDev) :
    ∀ (order : List Nat) (c : XAieTraceCntr), (∀ s ∈ order, s < 8) →
      c.TraceSlotBits < 256 → c.State.Running = false →
      (releaseSlots dev c order).2 = List.replicate order.length XAIE_OK ∧
      (releaseSlots dev c order).1.State.Running = false ∧
      (releaseSlots dev c order).1.TraceSlotBits < 256 ∧
      (∀ j, (releaseSlots dev c order).1.TraceSlotBits.testBit j =
        (c.TraceSlotBits.testBit j && decide (j ∉ order))) := by
  intro order
  induction order with
  | nil =>
    intro c _ hb hrun
    exact ⟨rfl, hrun, hb, by intro j; simp [releaseSlots]⟩
  | cons s rest ih =>
    intro c hin hb hrun
    have hs : s < 8 := hin s (List.mem_cons_self _ _)
    have hrest : ∀ x ∈ rest, x < 8 := fun x hx => hin x (List.mem_cons_of_mem _ hx)
    have hrel := releaseTraceSlot_in_range dev c hrun hs
    obtain ⟨ih1, ih2, ih3, ih4⟩ := ih (c.releaseTraceSlot dev s).2 hrest
      (by rw [hrel]; exact clear_lt_256 _ _) (by rw [hrel]; exact hrun)
    have hstep : releaseSlots dev c (s :: rest) =
        ((releaseSlots dev (c.releaseTraceSlot dev s).2 rest).1,
          (c.releaseTraceSlot dev s).1 :: (releaseSlots dev (c.releaseTraceSlot dev s).2 rest).2) :=
      rfl
    rw [hstep]
    refine ⟨?_, ih2, ih3, ?_⟩
    · show _ :: _ = _
      rw [ih1, hrel]
      rfl
    · intro j
      rw [ih4 j, hrel]
      show (((c.TraceSlotBits &&& (0xFFFFFFFF ^^^ (1 <<< s))) % 256).testBit j &&
        decide (j ∉ rest)) = _
      rw [testBit_clear hb hs]
      by_cases hjs : j = s
      · subst hjs; simp
      · simp [hjs]

/-- C2: reserve-then-release is a round trip on the bitmap.  On a trace control
that is not Running, if `reserveTraceSlot` succeeds with slot `s` then
`releaseTraceSlot(s)` succeeds and the bitmap is again the one before the
reservation.  From the all-free bitmap 0 of a new control, `k ≤ 8` reservations
all succeed, and releasing the returned slots in any order succeeds each time
and ends with the bitmap 0. -/
theorem C2_reserve_release_round_trip (dev : XAieDev) (c : XAieTraceCntr) (Slot : Nat)
    (hb : c.TraceSlotBits < 256) (hrun : c.State.Running = false) :
    (∀ c1 s, c.reserveTraceSlot Slot = (XAIE_OK, c1, s) →
      (c1.releaseTraceSlot dev s).1 = XAIE_OK ∧
        (c1.releaseTraceSlot dev s).2.TraceSlotBits = c.TraceSlotBits) ∧
    (c.TraceSlotBits = 0 → ∀ k ≤ 8,
      (reserveSlots c Slot k).2.map Prod.fst = List.replicate k XAIE_OK ∧
      ∀ order : List Nat, order.Perm ((reserveSlots c Slot k).2.map Prod.snd) →
        (releaseSlots dev (reserveSlots c Slot k).1 order).2 = List.replicate k XAIE_OK ∧
        (releaseSlots dev (reserveSlots c Slot k).1 order).1.TraceSlotBits = 0) := by
  refine ⟨fun c1 s h => release_after_reserve dev hb h, ?_⟩
  intro h0 k hk
  have hbits : ∀ j, c.TraceSlotBits.testBit j = decide (j < 0) := by
    intro j; rw [h0]; simp
  obtain ⟨h1, h2, h3, h4⟩ := reserveSlots_low k c Slot 0 hb hrun hbits (by omega)
  have hsnd : (reserveSlots c Slot k).2.map Prod.snd = List.range' 0 k := by
    rw [h1, List.map_map]
    exact List.map_id _
  have hfst : (reserveSlots c Slot k).2.map Prod.fst = List.replicate k XAIE_OK := by
    rw [h1, List.map_map]
    apply List.ext_getElem
    · simp
    · intro n hn1 hn2
      simp
  refine ⟨hfst, ?_⟩
  intro order hperm
  rw [hsnd] at hperm
  have hmem : ∀ j, j ∈ order ↔ j < k := by
    intro j
    rw [hperm.mem_iff, List.mem_range'_1]
    omega
  have hlen : order.length = k := by
    rw [hperm.length_eq, List.length_range']
  obtain ⟨r1, _, _, r4⟩ := releaseSlots_bits dev order (reserveSlots c Slot k).1
    (fun s hs => by have := (hmem s).1 hs; omega) h3 h2
  rw [hlen] at r1
  refine ⟨r1, ?_⟩
  apply Nat.eq_of_testBit_eq
  intro j
  rw [r4 j, h4 j, Nat.zero_testBit]
  by_cases hj : j < k
  · have : j ∈ order := (hmem j).2 hj
    simp [this]
  · have : ¬ j < 0 + k := by omega
    simp [hj]

/-- C2, at a concrete input: on the new core-module control, the reservation
gives slot 0 and releasing slot 0 gives bitmap 0 again; five reservations
followed by the release of the five slots in the order 3, 0, 4, 1, 2 end with
bitmap 0. -/
theorem C2_reserve_release_round_trip_witness :
    exampleCntr.TraceSlotBits < 256 ∧ exampleCntr.State.Running = false ∧
    ((exampleCntr.reserveTraceSlot 9).2.1.releaseTraceSlot exampleDev 0).1 = XAIE_OK ∧
    ((exampleCntr.reserveTraceSlot 9).2.1.releaseTraceSlot exampleDev 0).2.TraceSlotBits =
      exampleCntr.TraceSlotBits ∧
    (releaseSlots exampleDev (reserveSlots exampleCntr 9 5).1 [3, 0, 4, 1, 2]).2 =
      List.replicate 5 XAIE_OK ∧
    (releaseSlots exampleDev (reserveSlots exampleCntr 9 5).1 [3, 0, 4, 1, 2]).1.TraceSlotBits
      = 0 :=
  have h := C2_reserve_release_round_trip exampleDev exampleCntr 9 (by decide) (by decide)
  have h1 := h.1 (exampleCntr.reserveTraceSlot 9).2.1 0 (by decide)
  have h2 := (h.2 (by decide) 5 (by decide)).2 [3, 0, 4, 1, 2] (by decide)
  ⟨by decide, by decide, h1.1, h1.2, h2.1, h2.2⟩

/-- Releasing a reserved slot `s` and reserving again returns the least index
among `s` and the slots that were free. -/
theorem reserve_after_release (dev : XAieDev) (c : XAieTraceCntr) (Slot1 : Nat)
    (hb : c.TraceSlotBits < 256) (hrun : c.State.Running = false) {s : Nat} (hs : s < 8) :
    (c.releaseTraceSlot dev s).1 = XAIE_OK ∧
    ((c.releaseTraceSlot dev s).2.reserveTraceSlot Slot1).1 = XAIE_OK ∧
    ((c.releaseTraceSlot dev s).2.reserveTraceSlot Slot1).2.2 ≤ s ∧
    (∀ j < 8, c.TraceSlotBits.testBit j = false →
      ((c.releaseTraceSlot dev s).2.reserveTraceSlot Slot1).2.2 ≤ j) ∧
    (((c.releaseTraceSlot dev s).2.reserveTraceSlot Slot1).2.2 = s ∨
      c.TraceSlotBits.testBit ((c.releaseTraceSlot dev s).2.reserveTraceSlot Slot1).2.2 = false) := by
  have hrel := releaseTraceSlot_in_range dev c hrun hs
  have hb1 : (c.releaseTraceSlot dev s).2.TraceSlotBits < 256 := by
    rw [hrel]; exact clear_lt_256 _ _
  have hrun1 : (c.releaseTraceSlot dev s).2.State.Running = false := by
    rw [hrel]; exact hrun
  have hbits1 : ∀ j, (c.releaseTraceSlot dev s).2.TraceSlotBits.testBit j =
      (c.TraceSlotBits.testBit j && decide (j ≠ s)) := by
    intro j
    rw [hrel]
    exact testBit_clear hb hs j
  have hsfree : (c.releaseTraceSlot dev s).2.TraceSlotBits.testBit s = false := by
    rw [hbits1 s]; simp
  obtain ⟨i, hres⟩ := reserveTraceSlot_succeeds _ Slot1 hb1 hrun1 hs hsfree
  obtain ⟨_, _, hibit, hilow, _⟩ := reserveTraceSlot_ok hb1 hres
  rw [hres]
  refine ⟨by rw [hrel], rfl, ?_, ?_, ?_⟩
  · show i ≤ s
    by_contra hlt
    have := hilow s (by omega)
    rw [hsfree] at this
    exact absurd this (by decide)
  · intro j _ hjfree
    show i ≤ j
    by_contra hlt
    have := hilow j (by omega)
    rw [hbits1 j, hjfree] at this
    simp at this
  · show i = s ∨ c.TraceSlotBits.testBit i = false
    rw [hbits1 i] at hibit
    by_cases his : i = s
    · exact Or.inl his
    · right
      simpa [his] using hibit

/-- C3: deterministic allocation.  From a trace control that is not Running with
the all-free bitmap 0 of a new control, three `reserveTraceSlot` calls succeed
with the slots 0, 1, 2 in this order, and `releaseTraceSlot(1)` followed by
`reserveTraceSlot` succeeds with slot 1.  For every control that is not Running
and every reserved slot `s`, `releaseTraceSlot(s)` followed by `reserveTraceSlot`
succeeds with the least index among `s` and the slots that were free before the
release. -/
theorem C3_deterministic_allocation (dev : XAieDev) (c : XAieTraceCntr) (Slot Slot1 : Nat)
    (hb : c.TraceSlotBits < 256) (hrun : c.State.Running = false) :
    (c.TraceSlotBits = 0 →
      (reserveSlots c Slot 3).2 = [(XAIE_OK, 0), (XAIE_OK, 1), (XAIE_OK, 2)] ∧
      ((reserveSlots c Slot 3).1.releaseTraceSlot dev 1).1 = XAIE_OK ∧
      (((reserveSlots c Slot 3).1.releaseTraceSlot dev 1).2.reserveTraceSlot Slot1).1 = XAIE_OK ∧
      (((reserveSlots c Slot 3).1.releaseTraceSlot dev 1).2.reserveTraceSlot Slot1).2.2 = 1) ∧
    (∀ s < 8, c.TraceSlotBits.testBit s = true →
      (c.releaseTraceSlot dev s).1 = XAIE_OK ∧
      ((c.releaseTraceSlot dev s).2.reserveTraceSlot Slot1).1 = XAIE_OK ∧
      ((c.releaseTraceSlot dev s).2.reserveTraceSlot Slot1).2.2 ≤ s ∧
      (∀ j < 8, c.TraceSlotBits.testBit j = false →
        ((c.releaseTraceSlot dev s).2.reserveTraceSlot Slot1).2.2 ≤ j) ∧
      (((c.releaseTraceSlot dev s).2.reserveTraceSlot Slot1).2.2 = s ∨
        c.TraceSlotBits.testBit
          ((c.releaseTraceSlot dev s).2.reserveTraceSlot Slot1).2.2 = false)) := by
  constructor
  · intro h0
    have hbits : ∀ j, c.TraceSlotBits.testBit j = decide (j < 0) := by
      intro j; rw [h0]; simp
    obtain ⟨h1, h2, h3, h4⟩ := reserveSlots_low 3 c Slot 0 hb hrun hbits (by omega)
    obtain ⟨r1, r2, r3, _, r5⟩ :=
      reserve_after_release dev (reserveSlots c Slot 3).1 Slot1 h3 h2 (show 1 < 8 by omega)
    refine ⟨by rw [h1]; rfl, r1, r2, ?_⟩
    rcases r5 with r5 | r5
    · exact r5
    · rw [h4] at r5
      have : ¬ ((((reserveSlots c Slot 3).1.releaseTraceSlot dev 1).2.reserveTraceSlot
          Slot1).2.2 < 0 + 3) := by simpa using r5
      omega
  · intro s hs _
    exact reserve_after_release dev c Slot1 hb hrun hs

/-- C3, at a concrete input: the new core-module control gives the slots 0, 1, 2
and, after the release of slot 1, slot 1 again; on the control with the slots
0, 1, 3 taken, releasing slot 3 and reserving gives slot 2, the lowest slot that
was free. -/
theorem C3_deterministic_allocation_witness :
    exampleCntr.TraceSlotBits < 256 ∧ exampleCntr.State.Running = false ∧
    exampleCntr.TraceSlotBits = 0 ∧
    (reserveSlots exampleCntr 9 3).2 = [(XAIE_OK, 0), (XAIE_OK, 1), (XAIE_OK, 2)] ∧
    ((reserveSlots exampleCntr 9 3).1.releaseTraceSlot exampleDev 1).1 = XAIE_OK ∧
    (((reserveSlots exampleCntr 9 3).1.releaseTraceSlot exampleDev 1).2.reserveTraceSlot 2).1
      = XAIE_OK ∧
    (((reserveSlots exampleCntr 9 3).1.releaseTraceSlot exampleDev 1).2.reserveTraceSlot 2).2.2
      = 1 ∧
    busyCntr.TraceSlotBits.testBit 3 = true ∧
    ((busyCntr.releaseTraceSlot exampleDev 3).2.reserveTraceSlot 2).2.2 ≤ 3 ∧
    ((busyCntr.releaseTraceSlot exampleDev 3).2.reserveTraceSlot 2).2.2 = 2 :=
  ⟨by decide, by decide, by decide,
    (C3_deterministic_allocation exampleDev exampleCntr 9 2 (by decide) (by decide)).1
      (by decide) |>.1,
    (C3_deterministic_allocation exampleDev exampleCntr 9 2 (by decide) (by decide)).1
      (by decide) |>.2.1,
    (C3_deterministic_allocation exampleDev exampleCntr 9 2 (by decide) (by decide)).1
      (by decide) |>.2.2.1,
    (C3_deterministic_allocation exampleDev exampleCntr 9 2 (by decide) (by decide)).1
      (by decide) |>.2.2.2,
    by decide,
    ((C3_deterministic_allocation exampleDev busyCntr 9 2 (by decide) (by decide)).2 3
      (by decide) (by decide)).2.2.1,
    by decide⟩

/-! ## Counting the reserved slots -/

/-- The loop of `getReservedTraceEvents` adds the number of iterations when bit 0
of `TmpSlots` is set, and nothing when it is clear. -/
theorem getReservedTraceEvents_loop_eq (T : Nat) :
    ∀ n acc, acc + n < 2 ^ 32 →
      XAieTraceCntr.getReservedTraceEvents.loop T n acc =
        if T &&& 1 ≠ 0 then acc + n else acc := by
  intro n
  induction n with
  | zero =>
    intro acc _
    by_cases h : T &&& 1 = 0
    · simp only [XAieTraceCntr.getReservedTraceEvents.loop, h, ne_eq, not_true, if_false]
    · simp only [XAieTraceCntr.getReservedTraceEvents.loop, h, ne_eq, not_false_iff, if_true,
        Nat.add_zero]
  | succ n ih =>
    intro acc hacc
    by_cases h : T &&& 1 = 0
    · have := ih acc (by omega)
      simp only [h, ne_eq, not_true, if_false] at this
      simp only [XAieTraceCntr.getReservedTraceEvents.loop, h, ne_eq, not_true, if_false, this]
    · have hmod : (acc + 1) % 2 ^ 32 = acc + 1 := Nat.mod_eq_of_lt (by omega)
      have := ih (acc + 1) (by omega)
      simp only [h, ne_eq, not_false_iff, if_true] at this
      simp only [XAieTraceCntr.getReservedTraceEvents.loop, h, ne_eq, not_false_iff, if_true,
        hmod, this]
      omega

/-- The count `getReservedTraceEvents` returns: 8 when bit 0 of the bitmap is
set, 0 when it is clear. -/
theorem getReservedTraceEvents_eq (c : XAieTraceCntr) :
    c.getReservedTraceEvents = if c.TraceSlotBits % 256 &&& 1 ≠ 0 then 8 else 0 := by
  have := getReservedTraceEvents_loop_eq (c.TraceSlotBits % 256) 8 0 (by norm_num)
  simpa [XAieTraceCntr.getReservedTraceEvents] using this

/-- C4, the code at the failing input: after one successful `reserveTraceSlot` on
the new control the bitmap is 1, `getReservedTraceEvents` returns 8 and
`getTraceControlAvailTraceSlots` returns 0 (the claim: 1 and 7); with the bitmap
2, one slot taken, they return 0 and 8.  For every bitmap the count is 8 when
bit 0 is set and 0 when it is clear. -/
theorem C4_reserved_count_at_failing_input :
    (exampleCntr.reserveTraceSlot 9).1 = XAIE_OK ∧
    (exampleCntr.reserveTraceSlot 9).2.1.TraceSlotBits = 1 ∧
    (exampleCntr.reserveTraceSlot 9).2.1.getReservedTraceEvents = 8 ∧
    ({ exampleTracing with TraceCntr := (exampleCntr.reserveTraceSlot 9).2.1 } :
      XAieTracing).getTraceControlAvailTraceSlots = 0 ∧
    ({ exampleCntr with TraceSlotBits := 2 } : XAieTraceCntr).getReservedTraceEvents = 0 ∧
    ({ exampleTracing with TraceCntr := { exampleCntr with TraceSlotBits := 2 } } :
      XAieTracing).getTraceControlAvailTraceSlots = 8 ∧
    (∀ c : XAieTraceCntr,
      c.getReservedTraceEvents = if c.TraceSlotBits % 256 &&& 1 ≠ 0 then 8 else 0) := by
  refine ⟨by decide, by decide, by decide, by decide, by decide, by decide,
    getReservedTraceEvents_eq⟩

/-! ## Releasing a slot that is not held -/

/-- C5 as stated fails: on the new control (bitmap 0, not Running) slot 3 is not
reserved, and `releaseTraceSlot(3)` returns `XAIE_OK`, not `XAIE_INVALID_ARGS`. -/
theorem C5_releaseTraceSlot_counterexample :
    ¬ (∀ (dev : XAieDev) (c : XAieTraceCntr) (Slot : Nat), c.State.Running = false →
        c.TraceSlotBits < 256 → (8 ≤ Slot ∨ c.TraceSlotBits.testBit Slot = false) →
        (c.releaseTraceSlot dev Slot).1 = XAIE_INVALID_ARGS ∧
          (c.releaseTraceSlot dev Slot).2.TraceSlotBits = c.TraceSlotBits ∧
          (c.releaseTraceSlot dev Slot).2.Events = c.Events) := by
  intro h
  have h3 := (h exampleDev exampleCntr 3 (by decide) (by decide) (Or.inr (by decide))).1
  exact absurd h3 (by decide)

/-- C5, amended: on a trace control that is not Running, `releaseTraceSlot(Slot)`
with `Slot ≥ 8` fails with `XAIE_INVALID_ARGS` and leaves the control unchanged;
with `Slot < 8` whose bit is clear it returns `XAIE_OK`, leaves the bitmap
unchanged and stores the event for physical event 0 of the module in the entry
`Slot` of the slot table, every other entry staying as it was. -/
theorem C5_releaseTraceSlot_unheld (dev : XAieDev) (c : XAieTraceCntr) (Slot : Nat)
    (hrun : c.State.Running = false) :
    (8 ≤ Slot → c.releaseTraceSlot dev Slot = (XAIE_INVALID_ARGS, c)) ∧
    (Slot < 8 → c.TraceSlotBits < 256 → c.TraceSlotBits.testBit Slot = false →
      (c.releaseTraceSlot dev Slot).1 = XAIE_OK ∧
      (c.releaseTraceSlot dev Slot).2.TraceSlotBits = c.TraceSlotBits ∧
      (∀ i : Fin 8, (c.releaseTraceSlot dev Slot).2.Events i =
        if i.val = Slot then dev.XAie_EventPhysicalToLogicalConv c.Loc c.Mod 0
        else c.Events i)) := by
  constructor
  · intro h8
    simp [XAieTraceCntr.releaseTraceSlot, hrun, h8]
  · intro hs hb hbit
    rw [releaseTraceSlot_in_range dev c hrun hs]
    refine ⟨rfl, ?_, ?_⟩
    · show (c.TraceSlotBits &&& (0xFFFFFFFF ^^^ (1 <<< Slot))) % 256 = c.TraceSlotBits
      apply Nat.eq_of_testBit_eq
      intro j
      rw [testBit_clear hb hs]
      by_cases hj : j = Slot
      · subst hj; simp [hbit]
      · simp [hj]
    · intro i
      show Function.update c.Events ⟨Slot, hs⟩ _ i = _
      by_cases hi : i.val = Slot
      · have : i = ⟨Slot, hs⟩ := Fin.ext hi
        subst this
        simp
      · have : i ≠ ⟨Slot, hs⟩ := fun h => hi (by rw [h])
        simp [Function.update_noteq this, hi]

/-- C5 amended, at concrete inputs: on the new control `releaseTraceSlot(200)`
fails with `XAIE_INVALID_ARGS`, and `releaseTraceSlot(3)` of the free slot 3
returns `XAIE_OK` with the bitmap unchanged. -/
theorem C5_releaseTraceSlot_unheld_witness :
    exampleCntr.State.Running = false ∧
    exampleCntr.releaseTraceSlot exampleDev 200 = (XAIE_INVALID_ARGS, exampleCntr) ∧
    (exampleCntr.releaseTraceSlot exampleDev 3).1 = XAIE_OK ∧
    (exampleCntr.releaseTraceSlot exampleDev 3).2.TraceSlotBits = exampleCntr.TraceSlotBits :=
  ⟨by decide,
    (C5_releaseTraceSlot_unheld exampleDev exampleCntr 200 (by decide)).1 (by decide),
    ((C5_releaseTraceSlot_unheld exampleDev exampleCntr 3 (by decide)).2
      (by decide) (by decide) (by decide)).1,
    ((C5_releaseTraceSlot_unheld exampleDev exampleCntr 3 (by decide)).2
      (by decide) (by decide) (by decide)).2.1⟩

/-! ## `addEvent` and the capacity of a tracing object -/

theorem changeToConfigured_Events (t : XAieTracing) :
    t.changeToConfigured.Events = t.Events := by
  unfold XAieTracing.changeToConfigured
  split
  · split
    · split <;> rfl
    · rfl
  · rfl

theorem changeToConfigured_TraceCntr (t : XAieTracing) :
    t.changeToConfigured.TraceCntr = t.TraceCntr := by
  unfold XAieTracing.changeToConfigured
  split
  · split
    · split <;> rfl
    · rfl
  · rfl

theorem changeToConfigured_Reserved (t : XAieTracing) :
    t.changeToConfigured.State.Reserved = t.State.Reserved := by
  unfold XAieTracing.changeToConfigured
  split
  · split
    · split <;> rfl
    · rfl
  · rfl

theorem changeToConfigured_Running (t : XAieTracing) :
    t.changeToConfigured.State.Running = t.State.Running := by
  unfold XAieTracing.changeToConfigured
  split
  · split
    · split <;> rfl
    · rfl
  · rfl

/-- What `initialize` leaves of a trace event: its location and its Reserved and
Running flags. -/
theorem initialise_frame (dev : XAieDev) (e : XAieTraceEvent) (c : XAieTraceCntr)
    (E0 : XAie_Events) :
    (e.initialise dev c E0).2.Loc = e.Loc ∧
    (e.initialise dev c E0).2.State.Reserved = e.State.Reserved ∧
    (e.initialise dev c E0).2.State.Running = e.State.Running := by
  unfold XAieTraceEvent.initialise
  dsimp only
  split_ifs <;> exact ⟨rfl, rfl, rfl⟩

/-- `setEvent` on a trace event that is neither Reserved nor Running, with
arguments the driver accepts. -/
theorem setEvent_ok (dev : XAieDev) (e : XAieTraceEvent) (M : XAie_ModuleType)
    (E : XAie_Events) (hok : dev.XAie_EventLogicalToPhysicalConv e.Loc M E = XAIE_OK)
    (hres : e.State.Reserved = false) (hrun : e.State.Running = false) :
    e.setEvent dev M E =
      (XAIE_OK, { e with Event := E, Mod := M, State := { e.State with Configured := true } }) := by
  simp [XAieTraceEvent.setEvent, hok, hres, hrun]

/-- `addEvent` on a tracing object with 8 events. -/
theorem addEvent_full (dev : XAieDev) (t : XAieTracing) (M : XAie_ModuleType)
    (E : XAie_Events) (raw : XAieTraceEvent) (E0 : XAie_Events) (hlen : t.Events.length = 8) :
    t.addEvent dev M E raw E0 = some (XAIE_ERR, t) := by
  simp [XAieTracing.addEvent, XAieTraceCntr.getMaxTraceEvents, hlen]

/-- `addEvent` on a tracing object that is neither Reserved nor Running and has
fewer than 8 events, with arguments the driver accepts: the event is appended. -/
theorem addEvent_queued (dev : XAieDev) (t : XAieTracing) (M : XAie_ModuleType)
    (E : XAie_Events) (raw : XAieTraceEvent) (E0 : XAie_Events) (hlen : t.Events.length < 8)
    (hres : t.State.Reserved = false) (hrun : t.State.Running = false)
    (hok : dev.XAie_EventLogicalToPhysicalConv t.TraceCntr.Loc M E = XAIE_OK) :
    ∃ ev : XAieTraceEvent, ev.Mod = M ∧ ev.Event = E ∧
      t.addEvent dev M E raw E0 =
        some (XAIE_OK, XAieTracing.changeToConfigured { t with Events := t.Events ++ [ev] }) := by
  obtain ⟨hLoc, hRes, hRun⟩ :=
    initialise_frame dev (XAieTraceEvent.new t.TraceCntr.loc raw) t.TraceCntr E0
  have hset := setEvent_ok dev
    ((XAieTraceEvent.new t.TraceCntr.loc raw).initialise dev t.TraceCntr E0).2 M E
    (by rw [hLoc]; exact hok) (by rw [hRes]; rfl) (by rw [hRun]; rfl)
  have hne : ¬ t.Events.length = 8 := by omega
  refine ⟨(((XAieTraceEvent.new t.TraceCntr.loc raw).initialise dev t.TraceCntr E0).2.setEvent
    dev M E).2, by rw [hset], by rw [hset], ?_⟩
  simp only [XAieTracing.addEvent, XAieTraceCntr.getMaxTraceEvents, hne, if_false, hrun,
    Bool.false_eq_true, hset, ne_eq, not_true, hres]

/-- `addEvent` never makes a collection of at most 8 events longer than 8. -/
theorem addEvent_length_le (dev : XAieDev) (t : XAieTracing) (M : XAie_ModuleType)
    (E : XAie_Events) (raw : XAieTraceEvent) (E0 : XAie_Events) (RC : AieRC)
    (t1 : XAieTracing) (hlen : t.Events.length ≤ 8)
    (h : t.addEvent dev M E raw E0 = some (RC, t1)) : t1.Events.length ≤ 8 := by
  by_cases h8 : t.Events.length = 8
  · rw [addEvent_full dev t M E raw E0 h8] at h
    simp only [Option.some.injEq, Prod.mk.injEq] at h
    rw [← h.2]; exact hlen
  · have hlt : t.Events.length + 1 ≤ 8 := by omega
    unfold XAieTracing.addEvent at h
    simp only [XAieTraceCntr.getMaxTraceEvents, h8, if_false] at h
    split at h
    · simp only [Option.some.injEq, Prod.mk.injEq] at h
      rw [← h.2]; exact hlen
    · split at h
      · simp only [Option.some.injEq, Prod.mk.injEq] at h
        rw [← h.2]; exact hlen
      · split at h
        · split at h
          · exact absurd h (by simp)
          · split at h
            · simp only [Option.some.injEq, Prod.mk.injEq] at h
              rw [← h.2]; exact hlen
            · split at h
              · exact absurd h (by simp)
              · split at h
                · split at h
                  · exact absurd h (by simp)
                  · simp only [Option.some.injEq, Prod.mk.injEq] at h
                    rw [← h.2]; exact hlen
                · simp only [Option.some.injEq, Prod.mk.injEq] at h
                  rw [← h.2, changeToConfigured_Events]
                  simpa using hlt
        · simp only [Option.some.injEq, Prod.mk.injEq] at h
          rw [← h.2, changeToConfigured_Events]
          simpa using hlt

/-- A run of `addEvent` calls that fit into the 8 places, on a tracing object
that is neither Reserved nor Running, with arguments the driver accepts: every
call succeeds and appends its event; the trace control is not touched. -/
theorem addEvents_queue (dev : XAieDev) :
    ∀ (calls : List AddEventCall) (t : XAieTracing), t.State.Reserved = false →
      t.State.Running = false → t.Events.length + calls.length ≤ 8 →
      (∀ r ∈ calls, dev.XAie_EventLogicalToPhysicalConv t.TraceCntr.Loc r.M r.E = XAIE_OK) →
      ∃ (t1 : XAieTracing) (evs : List XAieTraceEvent),
        addEvents dev t calls = some (List.replicate calls.length XAIE_OK, t1) ∧
        t1.Events = t.Events ++ evs ∧
        evs.map (fun e => (e.Mod, e.Event)) = calls.map (fun r => (r.M, r.E)) ∧
        t1.TraceCntr = t.TraceCntr ∧ t1.State.Reserved = false ∧
        t1.State.Running = false := by
  intro calls
  induction calls with
  | nil =>
    intro t hres hrun _ _
    exact ⟨t, [], rfl, by simp, rfl, rfl, hres, hrun⟩
  | cons r rest ih =>
    intro t hres hrun hlen hok
    have hlen1 : t.Events.length + (rest.length + 1) ≤ 8 := by simpa using hlen
    obtain ⟨ev, hM, hE, hadd⟩ := addEvent_queued dev t r.M r.E r.raw r.E0 (by omega) hres hrun
      (hok r (List.mem_cons_self _ _))
    have hEv : (XAieTracing.changeToConfigured
        { t with Events := t.Events ++ [ev] }).Events = t.Events ++ [ev] :=
      changeToConfigured_Events _
    have hC : (XAieTracing.changeToConfigured
        { t with Events := t.Events ++ [ev] }).TraceCntr = t.TraceCntr :=
      changeToConfigured_TraceCntr _
    obtain ⟨t1, evs, h1, h2, h3, h4, h5, h6⟩ :=
      ih (XAieTracing.changeToConfigured { t with Events := t.Events ++ [ev] })
        (by rw [changeToConfigured_Reserved]; exact hres)
        (by rw [changeToConfigured_Running]; exact hrun)
        (by rw [hEv, List.length_append]; simp; omega)
        (by intro x hx; rw [hC]; exact hok x (List.mem_cons_of_mem _ hx))
    refine ⟨t1, ev :: evs, ?_, ?_, ?_, ?_, h5, h6⟩
    · simp only [addEvents, hadd, h1, List.length_cons, List.replicate_succ]
    · rw [h2, hEv, List.append_assoc]; rfl
    · simp only [List.map_cons, h3, hM, hE]
    · rw [h4, hC]

/-- C6: capacity bound of `addEvent`.  `addEvent` fails (`XAIE_ERR`) and leaves the
tracing object unchanged whenever 8 events are attached, and a collection of at
most 8 events has at most 8 events after any `addEvent`.  On a tracing object
with no event that is neither Reserved nor Running, a run of up to 8 `addEvent`
calls whose arguments the driver accepts succeeds call by call and leaves the
events of the calls, in call order; after 8 calls every further `addEvent` fails
and leaves the object unchanged. -/
theorem C6_addEvent_capacity (dev : XAieDev) (t : XAieTracing) :
    (∀ M E raw E0, t.Events.length = 8 → t.addEvent dev M E raw E0 = some (XAIE_ERR, t)) ∧
    (∀ M E raw E0 RC t1, t.Events.length ≤ 8 → t.addEvent dev M E raw E0 = some (RC, t1) →
      t1.Events.length ≤ 8) ∧
    (t.Events = [] → t.State.Reserved = false → t.State.Running = false →
      ∀ calls : List AddEventCall, calls.length ≤ 8 →
        (∀ r ∈ calls, dev.XAie_EventLogicalToPhysicalConv t.TraceCntr.Loc r.M r.E = XAIE_OK) →
        ∃ t1 : XAieTracing,
          addEvents dev t calls = some (List.replicate calls.length XAIE_OK, t1) ∧
          t1.Events.map (fun e => (e.Mod, e.Event)) = calls.map (fun r => (r.M, r.E)) ∧
          (calls.length = 8 →
            ∀ M E raw E0, t1.addEvent dev M E raw E0 = some (XAIE_ERR, t1))) := by
  refine ⟨fun M E raw E0 h => addEvent_full dev t M E raw E0 h,
    fun M E raw E0 RC t1 hlen h => addEvent_length_le dev t M E raw E0 RC t1 hlen h, ?_⟩
  intro hnil hres hrun calls hlen hok
  obtain ⟨t1, evs, h1, h2, h3, _, _, _⟩ :=
    addEvents_queue dev calls t hres hrun (by rw [hnil]; simpa using hlen) hok
  rw [hnil, List.nil_append] at h2
  refine ⟨t1, h1, by rw [h2, h3], ?_⟩
  intro h8 M E raw E0
  apply addEvent_full
  have : evs.length = calls.length := by
    have := congrArg List.length h3
    simpa using this
  rw [h2, this, h8]

/-- C6, at a concrete input: on the new tracing object the first eight of nine
calls succeed and leave their events in call order, and the ninth fails and
leaves the object unchanged. -/
theorem C6_addEvent_capacity_witness :
    exampleTracing.Events = [] ∧ exampleTracing.State.Reserved = false ∧
    exampleTracing.State.Running = false ∧
    ∃ t1 : XAieTracing,
      addEvents exampleDev exampleTracing (nineCalls.take 8) =
        some (List.replicate 8 XAIE_OK, t1) ∧
      t1.Events.map (fun e => (e.Mod, e.Event)) =
        [(XAIE_CORE_MOD, 10), (XAIE_MEM_MOD, 11), (XAIE_CORE_MOD, 12), (XAIE_CORE_MOD, 13),
         (XAIE_MEM_MOD, 14), (XAIE_CORE_MOD, 15), (XAIE_CORE_MOD, 16), (XAIE_MEM_MOD, 17)] ∧
      t1.addEvent exampleDev XAIE_CORE_MOD 18 rawEvent 0 = some (XAIE_ERR, t1) :=
  ⟨rfl, rfl, rfl,
    match (C6_addEvent_capacity exampleDev exampleTracing).2.2 rfl rfl rfl (nineCalls.take 8)
      (by decide) (fun _ _ => rfl) with
    | ⟨t1, h1, h2, h3⟩ => ⟨t1, h1, h2, h3 rfl XAIE_CORE_MOD 18 rawEvent 0⟩⟩

/-! ## Reserving a trace event -/

/-- C7: rollback of `XAieTraceEvent::_reserve`.  For an event bound to a trace
control that is not Running and has a free slot, whose module differs from the
control's, if the reservation of the broadcast channel fails then `_reserve`
returns that error, and the bitmap of the control, and with it the count of
reserved slots, is what it was before the call; the state flags of the event
are unchanged.  The same holds of the lifecycle wrapper `reserve` on an event
that is not Reserved. -/
theorem C7_event_reserve_rollback (dev : XAieDev) (c : XAieTraceCntr) (e : XAieTraceEvent)
    (hbound : e.TraceCntr = true) (hb : c.TraceSlotBits < 256)
    (hrun : c.State.Running = false) (hfree : ∃ j < 8, c.TraceSlotBits.testBit j = false)
    (hmod : e.Mod ≠ c.Mod)
    (hbc : (e.BC.initialise [e.Loc] XAIE_CORE_MOD XAIE_MEM_MOD).reserve.1 ≠ XAIE_OK) :
    ∃ (c1 : XAieTraceCntr) (e1 : XAieTraceEvent),
      e._reserve dev c =
        some ((e.BC.initialise [e.Loc] XAIE_CORE_MOD XAIE_MEM_MOD).reserve.1, c1, e1) ∧
      c1.TraceSlotBits = c.TraceSlotBits ∧
      c1.getReservedTraceEvents = c.getReservedTraceEvents ∧
      e1.State = e.State ∧
      (e.State.Reserved = false →
        e.reserve dev c =
          some ((e.BC.initialise [e.Loc] XAIE_CORE_MOD XAIE_MEM_MOD).reserve.1, c1, e1)) := by
  obtain ⟨j, hj, hjfree⟩ := hfree
  obtain ⟨i, hres⟩ := reserveTraceSlot_succeeds c e.Slot hb hrun hj hjfree
  obtain ⟨hrel1, hrel2⟩ := release_after_reserve dev hb hres
  have hmod1 : ¬ e.Mod = c.Mod := hmod
  have hhook : e._reserve dev c =
      some ((e.BC.initialise [e.Loc] XAIE_CORE_MOD XAIE_MEM_MOD).reserve.1,
        (XAieTraceCntr.releaseTraceSlot dev
          { c with TraceSlotBits := c.TraceSlotBits ||| 2 ^ i } i).2,
        { e with
          Slot := i
          BC := (e.BC.initialise [e.Loc] XAIE_CORE_MOD XAIE_MEM_MOD).reserve.2 }) := by
    simp only [XAieTraceEvent._reserve, hbound, hres, XAieTraceCntr.getModule, ne_eq,
      not_true, if_false, hmod1, not_false_iff, if_true, hbc, Bool.true_eq_false]
  refine ⟨_, _, hhook, hrel2, ?_, rfl, ?_⟩
  · simp only [XAieTraceCntr.getReservedTraceEvents, hrel2]
  · intro hnotres
    simp only [XAieTraceEvent.reserve, hnotres, Bool.false_eq_true, if_false, hhook, hbc]

/-- C7, at a concrete input: a memory-module event on the new core-module
control, with a broadcast collaborator that has no channel: `_reserve` returns
the collaborator's error 7 and the bitmap is 0 as before. -/
theorem C7_event_reserve_rollback_witness :
    memEventNoBc.TraceCntr = true ∧ memEventNoBc.Mod ≠ exampleCntr.Mod ∧
    (memEventNoBc.BC.initialise [memEventNoBc.Loc] XAIE_CORE_MOD XAIE_MEM_MOD).reserve.1 =
      XAIE_OTHER 7 ∧
    ∃ (c1 : XAieTraceCntr) (e1 : XAieTraceEvent),
      memEventNoBc._reserve exampleDev exampleCntr = some (XAIE_OTHER 7, c1, e1) ∧
      c1.TraceSlotBits = exampleCntr.TraceSlotBits :=
  ⟨by decide, by decide, by decide,
    match C7_event_reserve_rollback exampleDev exampleCntr memEventNoBc (by decide)
      (by decide) (by decide) ⟨0, by decide, by decide⟩ (by decide) (by decide) with
    | ⟨c1, e1, h1, h2, _⟩ => ⟨c1, e1, h1, h2⟩⟩

/-! ## Reserving a tracing object, and removing an event -/

/-- C8, the code at the failing input.  The new tracing object gets two
core-module events and a memory-module event whose broadcast channel cannot be
had; nothing is reserved and the bitmap is 0.  `reserve` (and its hook
`_reserve`) then fails with the collaborator's error 7, and afterwards the trace
control is Reserved (the claim: not Reserved), while no event is Reserved, the
tracing object is not Reserved and the bitmap is 0. -/
theorem C8_session_reserve_at_failing_input :
    (addEvents exampleDev exampleTracing threeCalls).map Prod.fst =
      some [XAIE_OK, XAIE_OK, XAIE_OK] ∧
    queuedThree.map (fun t => (t.State.Reserved, t.TraceCntr.State.Reserved,
      t.TraceCntr.TraceSlotBits, t.Events.map (fun e => e.State.Reserved))) =
      some (false, false, 0, [false, false, false]) ∧
    (queuedThree.bind (XAieTracing._reserve exampleDev)).map
      (fun q => (q.1, q.2.TraceCntr.State.Reserved)) = some (XAIE_OTHER 7, true) ∧
    (queuedThree.bind (XAieTracing.reserve exampleDev)).map
      (fun q => (q.1, q.2.TraceCntr.State.Reserved)) = some (XAIE_OTHER 7, true) ∧
    (queuedThree.bind (XAieTracing.reserve exampleDev)).map
      (fun q => (q.2.State.Reserved, q.2.TraceCntr.TraceSlotBits,
        q.2.Events.map (fun e => e.State.Reserved))) =
      some (false, 0, [false, false, false]) := by
  refine ⟨by rfl, by rfl, by rfl, by rfl, by rfl⟩

/-- C9, the code at the failing input.  On a tracing object that is not Reserved,
with one queued core-module event, whose trace control is already Reserved, the
reservation of the trace control fails with `XAIE_ERR`, and yet `reserve` (and its
hook `_reserve`) returns `XAIE_OK` (the claim: an error) and the tracing object is
Reserved afterwards. -/
theorem C9_session_reserve_at_failing_input :
    queuedOneCntrReserved.map (fun t => (t.State.Reserved, t.Events.length,
      t.TraceCntr.reserve.1)) = some (false, 1, XAIE_ERR) ∧
    (queuedOneCntrReserved.bind (XAieTracing._reserve exampleDev)).map Prod.fst =
      some XAIE_OK ∧
    (queuedOneCntrReserved.bind (XAieTracing.reserve exampleDev)).map
      (fun q => (q.1, q.2.State.Reserved)) = some (XAIE_OK, true) := by
  refine ⟨by rfl, by rfl, by rfl⟩

/-- C10, the code at the failing input.  After `addEvent(XAIE_CORE_MOD, 10)` and
`reserve` the tracing object is Reserved and not Running, and its event holds the
reserved slot 0 (bitmap 1).  `removeEvent(XAIE_CORE_MOD, 10)` succeeds and drops
the event, and bit 0 of the bitmap is still set afterwards (the claim: clear),
so that the next `reserveTraceSlot` gives slot 1. -/
theorem C10_removeEvent_at_failing_input :
    reservedOne.map (fun t => (t.State.Reserved, t.State.Running,
      t.TraceCntr.TraceSlotBits, t.Events.map (fun e => (e.State.Reserved, e.Slot)))) =
      some (true, false, 1, [(true, 0)]) ∧
    (reservedOne.bind (fun t => t.removeEvent XAIE_CORE_MOD 10 XAIE_PL_MOD 0)).map
      (fun q => (q.1, q.2.Events.length, q.2.TraceCntr.TraceSlotBits.testBit 0)) =
      some (XAIE_OK, 0, true) ∧
    (reservedOne.bind (fun t => t.removeEvent XAIE_CORE_MOD 10 XAIE_PL_MOD 0)).map
      (fun q => (q.2.TraceCntr.reserveTraceSlot 9).2.2) = some 1 := by
  refine ⟨by rfl, by rfl, by rfl⟩

/-! ## The setters of a trace control -/

/-- `XAieTraceCntr::changeToConfigured` changes at most the Configured flag. -/
theorem cntr_changeToConfigured_eq (dev : XAieDev) (c : XAieTraceCntr) :
    ∃ b : Bool, XAieTraceCntr.changeToConfigured dev c =
      { c with State := { c.State with Configured := b } } := by
  unfold XAieTraceCntr.changeToConfigured
  split_ifs
  · exact ⟨true, rfl⟩
  · exact ⟨c.State.Configured, rfl⟩
  · exact ⟨c.State.Configured, rfl⟩

theorem cntr_changeToConfigured_sameSetup (dev : XAieDev) (c : XAieTraceCntr) :
    XAieTraceCntr.sameSetup c (XAieTraceCntr.changeToConfigured dev c) := by
  obtain ⟨b, hb⟩ := cntr_changeToConfigured_eq dev c
  rw [hb]
  exact ⟨rfl, rfl, rfl, rfl, rfl, rfl, rfl⟩

theorem cntr_changeToConfigured_Running (dev : XAieDev) (c : XAieTraceCntr) :
    (XAieTraceCntr.changeToConfigured dev c).State.Running = c.State.Running := by
  obtain ⟨b, hb⟩ := cntr_changeToConfigured_eq dev c
  rw [hb]

theorem cntr_changeToConfigured_Initialized (dev : XAieDev) (c : XAieTraceCntr) :
    (XAieTraceCntr.changeToConfigured dev c).State.Initialized = c.State.Initialized := by
  obtain ⟨b, hb⟩ := cntr_changeToConfigured_eq dev c
  rw [hb]

/-- C12: busy invariant of the trace control.  On a trace control that is Running
(and Reserved), each of `setModule`, `reserveTraceSlot`, `releaseTraceSlot`,
`setTraceEvent`, `setCntrEvent`, `setMode` and `setPkt` returns an error
(`XAIE_ERR`) and leaves the module, the bitmap, the slot table, the start and
stop events, the mode and the packet setup as they were. -/
theorem C12_busy_invariant (dev : XAieDev) (c : XAieTraceCntr)
    (hrun : c.State.Running = true) (hres : c.State.Reserved = true) :
    (∀ M, (c.setModule dev M).1 = XAIE_ERR ∧ XAieTraceCntr.sameSetup c (c.setModule dev M).2) ∧
    (∀ Slot, (c.reserveTraceSlot Slot).1 = XAIE_ERR ∧
      XAieTraceCntr.sameSetup c (c.reserveTraceSlot Slot).2.1) ∧
    (∀ Slot, (c.releaseTraceSlot dev Slot).1 = XAIE_ERR ∧
      XAieTraceCntr.sameSetup c (c.releaseTraceSlot dev Slot).2) ∧
    (∀ Slot E, (c.setTraceEvent dev Slot E).1 = XAIE_ERR ∧
      XAieTraceCntr.sameSetup c (c.setTraceEvent dev Slot E).2) ∧
    (∀ StartE StopE, (c.setCntrEvent dev StartE StopE).1 = XAIE_ERR ∧
      XAieTraceCntr.sameSetup c (c.setCntrEvent dev StartE StopE).2) ∧
    (∀ M, (c.setMode dev M).1 = XAIE_ERR ∧ XAieTraceCntr.sameSetup c (c.setMode dev M).2) ∧
    (∀ P, (c.setPkt dev P).1 = XAIE_ERR ∧ XAieTraceCntr.sameSetup c (c.setPkt dev P).2) := by
  have hsame : XAieTraceCntr.sameSetup c c := ⟨rfl, rfl, rfl, rfl, rfl, rfl, rfl⟩
  refine ⟨?_, ?_, ?_, ?_, ?_, ?_, ?_⟩
  · intro M
    have h : c.setModule dev M = (XAIE_ERR, c) := by
      simp only [XAieTraceCntr.setModule, hres, if_true]
    rw [h]
    exact ⟨rfl, hsame⟩
  · intro Slot
    have h : c.reserveTraceSlot Slot = (XAIE_ERR, c, Slot) := by
      simp only [XAieTraceCntr.reserveTraceSlot, hrun, if_true]
    rw [h]
    exact ⟨rfl, hsame⟩
  · intro Slot
    have h : c.releaseTraceSlot dev Slot = (XAIE_ERR, c) := by
      simp only [XAieTraceCntr.releaseTraceSlot, hrun, if_true]
    rw [h]
    exact ⟨rfl, hsame⟩
  · intro Slot E
    have h : c.setTraceEvent dev Slot E = (XAIE_ERR, XAieTraceCntr.changeToConfigured dev c) := by
      by_cases hi : c.State.Initialized = false
      · simp [XAieTraceCntr.setTraceEvent, hi]
      · simp [XAieTraceCntr.setTraceEvent, hi, hrun]
    rw [h]
    exact ⟨rfl, cntr_changeToConfigured_sameSetup dev c⟩
  · intro StartE StopE
    have h : c.setCntrEvent dev StartE StopE = (XAIE_ERR, c) := by
      by_cases hi : c.State.Initialized = false
      · simp [XAieTraceCntr.setCntrEvent, hi]
      · simp [XAieTraceCntr.setCntrEvent, hi, hrun]
    rw [h]
    exact ⟨rfl, hsame⟩
  · intro M
    have h : c.setMode dev M = (XAIE_ERR, c) := by
      by_cases hi : c.State.Initialized = false
      · simp [XAieTraceCntr.setMode, hi]
      · simp [XAieTraceCntr.setMode, hi, hrun]
    rw [h]
    exact ⟨rfl, hsame⟩
  · intro P
    have h : c.setPkt dev P = (XAIE_ERR, c) := by
      by_cases hi : c.State.Initialized = false
      · simp [XAieTraceCntr.setPkt, hi]
      · simp [XAieTraceCntr.setPkt, hi, hrun]
    rw [h]
    exact ⟨rfl, hsame⟩

/-- C12, at a concrete input: on a Running and Reserved trace control with the
slots 0, 1, 3 taken, `setMode`, `setTraceEvent` on the reserved slot 1 and
`releaseTraceSlot(1)` fail, and the bitmap and the mode are as before. -/
theorem C12_busy_invariant_witness :
    runningCntr.State.Running = true ∧ runningCntr.State.Reserved = true ∧
    (runningCntr.setMode exampleDev XAIE_TRACE_EVENT_PC).1 = XAIE_ERR ∧
    (runningCntr.setMode exampleDev XAIE_TRACE_EVENT_PC).2.Mode = runningCntr.Mode ∧
    (runningCntr.setTraceEvent exampleDev 1 10).1 = XAIE_ERR ∧
    (runningCntr.setTraceEvent exampleDev 1 10).2.Events = runningCntr.Events ∧
    (runningCntr.releaseTraceSlot exampleDev 1).1 = XAIE_ERR ∧
    (runningCntr.releaseTraceSlot exampleDev 1).2.TraceSlotBits = runningCntr.TraceSlotBits :=
  have h := C12_busy_invariant exampleDev runningCntr (by decide) (by decide)
  ⟨by decide, by decide,
    (h.2.2.2.2.2.1 XAIE_TRACE_EVENT_PC).1, (h.2.2.2.2.2.1 XAIE_TRACE_EVENT_PC).2.2.2.2.2.2.1,
    (h.2.2.2.1 1 10).1, (h.2.2.2.1 1 10).2.2.2.1,
    (h.2.2.1 1).1, (h.2.2.1 1).2.2.1⟩

/-- C17, the code at the failing input.  On a device whose topology check rejects
the PL module, the new core-module trace control is not Reserved, and
`setModule(XAIE_PL_MOD)` returns `XAIE_OK` and sets the module to the rejected PL
module (the claim: `XAIE_INVALID_ARGS`, module unchanged).  On the trace control
constructed with the rejected PL module, `setModule(XAIE_CORE_MOD)`, which the
check accepts, returns `XAIE_INVALID_ARGS` and leaves the module (the claim:
success, module set).  On every trace control that is not Reserved, `setModule(M)`
succeeds exactly when the check accepts the module the control has before the
call. -/
theorem C17_setModule_at_failing_input :
    pickyDev._XAie_CheckModule pickyCntr.Loc XAIE_PL_MOD = XAIE_INVALID_ARGS ∧
    pickyCntr.State.Reserved = false ∧ pickyCntr.Mod = XAIE_CORE_MOD ∧
    (pickyCntr.setModule pickyDev XAIE_PL_MOD).1 = XAIE_OK ∧
    (pickyCntr.setModule pickyDev XAIE_PL_MOD).2.Mod = XAIE_PL_MOD ∧
    pickyDev._XAie_CheckModule pickyPlCntr.Loc XAIE_CORE_MOD = XAIE_OK ∧
    pickyPlCntr.State.Reserved = false ∧ pickyPlCntr.Mod = XAIE_PL_MOD ∧
    (pickyPlCntr.setModule pickyDev XAIE_CORE_MOD).1 = XAIE_INVALID_ARGS ∧
    (pickyPlCntr.setModule pickyDev XAIE_CORE_MOD).2.Mod = XAIE_PL_MOD ∧
    (∀ (dev : XAieDev) (c : XAieTraceCntr) (M : XAie_ModuleType), c.State.Reserved = false →
      ((c.setModule dev M).1 = XAIE_OK ↔ dev._XAie_CheckModule c.Loc c.Mod = XAIE_OK)) := by
  refine ⟨by decide, by decide, by decide, by decide, by decide, by decide, by decide,
    by decide, by decide, by decide, ?_⟩
  intro dev c M hres
  by_cases h : dev._XAie_CheckModule c.Loc c.Mod = XAIE_OK
  · simp [XAieTraceCntr.setModule, hres, h]
  · simp [XAieTraceCntr.setModule, hres, h]

/-- C18: `setCntrEvent` commits both events or neither.  On an Initialized trace
control that is not Running, when the event translation accepts the start and
the stop event the call returns `XAIE_OK` and the stored start and stop events
are the given ones; when the control is not Initialized, or is Running, or the
translation rejects one of the two events, the call returns an error and the
control, with its start and stop events, is unchanged. -/
theorem C18_setCntrEvent_both_or_neither (dev : XAieDev) (c : XAieTraceCntr)
    (StartE StopE : XAie_Events) :
    (c.State.Initialized = true → c.State.Running = false →
      dev.XAie_EventLogicalToPhysicalConv c.Loc c.Mod StartE = XAIE_OK →
      dev.XAie_EventLogicalToPhysicalConv c.Loc c.Mod StopE = XAIE_OK →
      (c.setCntrEvent dev StartE StopE).1 = XAIE_OK ∧
      (c.setCntrEvent dev StartE StopE).2.StartEvent = StartE ∧
      (c.setCntrEvent dev StartE StopE).2.StopEvent = StopE) ∧
    (c.State.Initialized = false ∨ c.State.Running = true ∨
        dev.XAie_EventLogicalToPhysicalConv c.Loc c.Mod StartE ≠ XAIE_OK ∨
        dev.XAie_EventLogicalToPhysicalConv c.Loc c.Mod StopE ≠ XAIE_OK →
      (c.setCntrEvent dev StartE StopE).1 ≠ XAIE_OK ∧
      (c.setCntrEvent dev StartE StopE).2 = c) := by
  constructor
  · intro hi hr h1 h2
    obtain ⟨b, hb⟩ := cntr_changeToConfigured_eq dev
      { c with StartEvent := StartE, StopEvent := StopE }
    have h : c.setCntrEvent dev StartE StopE =
        (XAIE_OK, XAieTraceCntr.changeToConfigured dev
          { c with StartEvent := StartE, StopEvent := StopE }) := by
      simp [XAieTraceCntr.setCntrEvent, hi, hr, h1, h2]
    rw [h, hb]
    exact ⟨rfl, rfl, rfl⟩
  · intro h
    by_cases hi : c.State.Initialized = false
    · simp [XAieTraceCntr.setCntrEvent, hi]
    · by_cases hr : c.State.Running = true
      · simp [XAieTraceCntr.setCntrEvent, hi, hr]
      · by_cases h1 : dev.XAie_EventLogicalToPhysicalConv c.Loc c.Mod StartE = XAIE_OK
        · have h2 : dev.XAie_EventLogicalToPhysicalConv c.Loc c.Mod StopE ≠ XAIE_OK := by
            rcases h with h | h | h | h
            · exact absurd h hi
            · exact absurd h hr
            · exact absurd h1 h
            · exact h
          simp [XAieTraceCntr.setCntrEvent, hi, hr, h1, h2]
        · simp [XAieTraceCntr.setCntrEvent, hi, hr, h1]

/-- C18, at concrete inputs: on the new core-module control `setCntrEvent(20, 21)`
stores both events; on a device that rejects event 666, `setCntrEvent(20, 666)`
and `setCntrEvent(666, 21)` fail and change nothing. -/
theorem C18_setCntrEvent_both_or_neither_witness :
    exampleCntr.State.Initialized = true ∧ exampleCntr.State.Running = false ∧
    (exampleCntr.setCntrEvent exampleDev 20 21).1 = XAIE_OK ∧
    (exampleCntr.setCntrEvent exampleDev 20 21).2.StartEvent = 20 ∧
    (exampleCntr.setCntrEvent exampleDev 20 21).2.StopEvent = 21 ∧
    (exampleCntr.setCntrEvent fussyDev 20 666).1 ≠ XAIE_OK ∧
    (exampleCntr.setCntrEvent fussyDev 20 666).2 = exampleCntr ∧
    (exampleCntr.setCntrEvent fussyDev 666 21).2 = exampleCntr :=
  have h1 := (C18_setCntrEvent_both_or_neither exampleDev exampleCntr 20 21).1
    (by decide) (by decide) (by decide) (by decide)
  have h2 := (C18_setCntrEvent_both_or_neither fussyDev exampleCntr 20 666).2
    (Or.inr (Or.inr (Or.inr (by decide))))
  have h3 := (C18_setCntrEvent_both_or_neither fussyDev exampleCntr 666 21).2
    (Or.inr (Or.inr (Or.inl (by decide))))
  ⟨by decide, by decide, h1.1, h1.2.1, h1.2.2, h2.1, h2.2, h3.2⟩

theorem land_shift_eq_zero_iff (b s : Nat) : b &&& (1 <<< s) = 0 ↔ b.testBit s = false := by
  rw [Nat.one_shiftLeft]
  exact land_two_pow_eq_zero_iff b s

/-- `setTraceEvent` on an Initialized control that is not Running, for a reserved
slot. -/
theorem setTraceEvent_ok (dev : XAieDev) (c : XAieTraceCntr) {Slot : Nat} (E : XAie_Events)
    (hi : c.State.Initialized = true) (hr : c.State.Running = false) (hs : Slot < 8)
    (hbit : c.TraceSlotBits.testBit Slot = true) :
    c.setTraceEvent dev Slot E =
      (XAIE_OK, XAieTraceCntr.changeToConfigured dev
        { c with
          Events := Function.update c.Events ⟨Slot, hs⟩
            (if E = dev.XAIE_EVENT_NONE_CORE then
              dev.XAie_EventPhysicalToLogicalConv c.Loc c.Mod 0 else E) }) := by
  have h8 : ¬ 8 ≤ Slot := by omega
  have hz : ¬ c.TraceSlotBits &&& (1 <<< Slot) = 0 := by
    rw [land_shift_eq_zero_iff, hbit]; decide
  simp [XAieTraceCntr.setTraceEvent, hi, hr, h8, hz]

/-- `setTraceEvent` in every other case. -/
theorem setTraceEvent_fail (dev : XAieDev) (c : XAieTraceCntr) (Slot : Nat) (E : XAie_Events)
    (h : ¬ (c.State.Initialized = true ∧ c.State.Running = false ∧ Slot < 8 ∧
      c.TraceSlotBits.testBit Slot = true)) :
    (c.setTraceEvent dev Slot E).1 ≠ XAIE_OK ∧
      (c.setTraceEvent dev Slot E).2 = XAieTraceCntr.changeToConfigured dev c := by
  by_cases hi : c.State.Initialized = false
  · simp [XAieTraceCntr.setTraceEvent, hi]
  · by_cases hr : c.State.Running = true
    · simp [XAieTraceCntr.setTraceEvent, hi, hr]
    · by_cases h8 : 8 ≤ Slot
      · simp [XAieTraceCntr.setTraceEvent, hi, hr, h8]
      · have hz : c.TraceSlotBits &&& (1 <<< Slot) = 0 := by
          rw [land_shift_eq_zero_iff]
          by_contra hbit
          apply h
          refine ⟨by simpa using hi, by simpa using hr, by omega, by simpa using hbit⟩
        simp [XAieTraceCntr.setTraceEvent, hi, hr, h8, hz]

/-- The slot table and the bitmap after a successful `setTraceEvent`. -/
theorem setTraceEvent_ok_effect (dev : XAieDev) (c : XAieTraceCntr) {Slot : Nat}
    (E : XAie_Events) (hi : c.State.Initialized = true) (hr : c.State.Running = false)
    (hs : Slot < 8) (hbit : c.TraceSlotBits.testBit Slot = true) :
    (c.setTraceEvent dev Slot E).1 = XAIE_OK ∧
    (c.setTraceEvent dev Slot E).2.TraceSlotBits = c.TraceSlotBits ∧
    (c.setTraceEvent dev Slot E).2.State.Running = false ∧
    (c.setTraceEvent dev Slot E).2.Mod = c.Mod ∧
    (∀ i : Fin 8, (c.setTraceEvent dev Slot E).2.Events i =
      if i.val = Slot then
        (if E = dev.XAIE_EVENT_NONE_CORE then dev.XAie_EventPhysicalToLogicalConv c.Loc c.Mod 0
          else E)
      else c.Events i) := by
  rw [setTraceEvent_ok dev c E hi hr hs hbit]
  obtain ⟨b, hb⟩ := cntr_changeToConfigured_eq dev
    { c with
      Events := Function.update c.Events ⟨Slot, hs⟩
        (if E = dev.XAIE_EVENT_NONE_CORE then
          dev.XAie_EventPhysicalToLogicalConv c.Loc c.Mod 0 else E) }
  rw [hb]
  refine ⟨rfl, rfl, hr, rfl, ?_⟩
  intro i
  show Function.update c.Events ⟨Slot, hs⟩ _ i = _
  by_cases hi' : i.val = Slot
  · have : i = ⟨Slot, hs⟩ := Fin.ext hi'
    subst this
    simp
  · have : i ≠ ⟨Slot, hs⟩ := fun h => hi' (by rw [h])
    simp [Function.update_noteq this, hi']

/-- C19: `setTraceEvent(Slot, E)` returns `XAIE_OK` exactly when the trace control
is Initialized, is not Running, `Slot < 8` and the bit of `Slot` is set in the
bitmap.  When it succeeds the entry `Slot` of the slot table holds `E`, or the
event for physical event 0 of the module when `E` is `XAIE_EVENT_NONE_CORE`, and
the other entries and the bitmap are unchanged; when it fails the bitmap and the
whole slot table are unchanged. -/
theorem C19_setTraceEvent (dev : XAieDev) (c : XAieTraceCntr) (Slot : Nat) (E : XAie_Events) :
    ((c.setTraceEvent dev Slot E).1 = XAIE_OK ↔
      c.State.Initialized = true ∧ c.State.Running = false ∧ Slot < 8 ∧
        c.TraceSlotBits.testBit Slot = true) ∧
    ((c.setTraceEvent dev Slot E).1 = XAIE_OK →
      (c.setTraceEvent dev Slot E).2.TraceSlotBits = c.TraceSlotBits ∧
      (∀ i : Fin 8, (c.setTraceEvent dev Slot E).2.Events i =
        if i.val = Slot then
          (if E = dev.XAIE_EVENT_NONE_CORE then
            dev.XAie_EventPhysicalToLogicalConv c.Loc c.Mod 0 else E)
        else c.Events i)) ∧
    ((c.setTraceEvent dev Slot E).1 ≠ XAIE_OK →
      (c.setTraceEvent dev Slot E).2.TraceSlotBits = c.TraceSlotBits ∧
      (c.setTraceEvent dev Slot E).2.Events = c.Events) := by
  by_cases h : c.State.Initialized = true ∧ c.State.Running = false ∧ Slot < 8 ∧
      c.TraceSlotBits.testBit Slot = true
  · obtain ⟨hi, hr, hs, hbit⟩ := h
    obtain ⟨h1, h2, _, _, h3⟩ := setTraceEvent_ok_effect dev c E hi hr hs hbit
    exact ⟨⟨fun _ => ⟨hi, hr, hs, hbit⟩, fun _ => h1⟩, fun _ => ⟨h2, h3⟩,
      fun hne => absurd h1 hne⟩
  · obtain ⟨h1, h2⟩ := setTraceEvent_fail dev c Slot E h
    obtain ⟨_, hb, he, _⟩ := cntr_changeToConfigured_sameSetup dev c
    refine ⟨⟨fun hok => absurd hok h1, fun hh => absurd hh h⟩, fun hok => absurd hok h1, ?_⟩
    intro _
    rw [h2]
    exact ⟨hb, he⟩

/-- C19, at concrete inputs: on the control with the slots 0, 1, 3 taken,
`setTraceEvent(3, 10)` succeeds and slot 3 holds event 10; `setTraceEvent(2, 10)`
on the free slot 2 fails and the slot table is unchanged. -/
theorem C19_setTraceEvent_witness :
    (busyCntr.setTraceEvent exampleDev 3 10).1 = XAIE_OK ∧
    (busyCntr.setTraceEvent exampleDev 3 10).2.Events 3 = 10 ∧
    (busyCntr.setTraceEvent exampleDev 3 10).2.TraceSlotBits = busyCntr.TraceSlotBits ∧
    (busyCntr.setTraceEvent exampleDev 2 10).1 ≠ XAIE_OK ∧
    (busyCntr.setTraceEvent exampleDev 2 10).2.Events = busyCntr.Events :=
  have h := C19_setTraceEvent exampleDev busyCntr 3 10
  have hok := h.1.2 ⟨by decide, by decide, by decide, by decide⟩
  have g := C19_setTraceEvent exampleDev busyCntr 2 10
  have hne : (busyCntr.setTraceEvent exampleDev 2 10).1 ≠ XAIE_OK :=
    fun hh => absurd (g.1.1 hh).2.2.2 (by decide)
  ⟨hok, (h.2.1 hok).2 3, (h.2.1 hok).1, hne, (g.2.2 hne).2⟩

/-- What `setTraceEvent` never changes. -/
theorem setTraceEvent_frame (dev : XAieDev) (c : XAieTraceCntr) (Slot : Nat) (E : XAie_Events) :
    (c.setTraceEvent dev Slot E).2.Mod = c.Mod ∧
    (c.setTraceEvent dev Slot E).2.Loc = c.Loc ∧
    (c.setTraceEvent dev Slot E).2.TraceSlotBits = c.TraceSlotBits ∧
    (c.setTraceEvent dev Slot E).2.State.Running = c.State.Running ∧
    (c.setTraceEvent dev Slot E).2.State.Initialized = c.State.Initialized := by
  by_cases h : c.State.Initialized = true ∧ c.State.Running = false ∧ Slot < 8 ∧
      c.TraceSlotBits.testBit Slot = true
  · obtain ⟨hi, hr, hs, hbit⟩ := h
    rw [setTraceEvent_ok dev c E hi hr hs hbit]
    obtain ⟨b, hb⟩ := cntr_changeToConfigured_eq dev
      { c with
        Events := Function.update c.Events ⟨Slot, hs⟩
          (if E = dev.XAIE_EVENT_NONE_CORE then
            dev.XAie_EventPhysicalToLogicalConv c.Loc c.Mod 0 else E) }
    rw [hb]
    exact ⟨rfl, rfl, rfl, rfl, rfl⟩
  · rw [(setTraceEvent_fail dev c Slot E h).2]
    obtain ⟨b, hb⟩ := cntr_changeToConfigured_eq dev c
    rw [hb]
    exact ⟨rfl, rfl, rfl, rfl, rfl⟩

/-! ## Starting and stopping a trace event -/

/-- The result of the stop hook of a bound trace event, in terms of its two
steps. -/
theorem event_stop_hook_eq (dev : XAieDev) (c : XAieTraceCntr) (e : XAieTraceEvent)
    (hbound : e.TraceCntr = true) :
    e._stop dev c =
      some (if e.Mod ≠ c.Mod then
              (if e.BC.stop.1 ≠ XAIE_OK then e.BC.stop.1
               else (c.setTraceEvent dev e.Slot
                 (dev.XAie_EventPhysicalToLogicalConv e.Loc c.Mod 0)).1)
            else (c.setTraceEvent dev e.Slot
              (dev.XAie_EventPhysicalToLogicalConv e.Loc c.Mod 0)).1,
        (c.setTraceEvent dev e.Slot (dev.XAie_EventPhysicalToLogicalConv e.Loc c.Mod 0)).2,
        if e.Mod ≠ c.Mod then { e with BC := e.BC.stop.2 } else e) := by
  have hmod := (setTraceEvent_frame dev c e.Slot
    (dev.XAie_EventPhysicalToLogicalConv e.Loc c.Mod 0)).1
  by_cases hm : e.Mod = c.Mod
  · by_cases hl : (c.setTraceEvent dev e.Slot
        (dev.XAie_EventPhysicalToLogicalConv e.Loc c.Mod 0)).1 = XAIE_OK
    · simp [XAieTraceEvent._stop, hbound, XAieTraceCntr.getModule, hmod, hm, hl]
    · simp [XAieTraceEvent._stop, hbound, XAieTraceCntr.getModule, hmod, hm, hl]
  · by_cases hl : (c.setTraceEvent dev e.Slot
        (dev.XAie_EventPhysicalToLogicalConv e.Loc c.Mod 0)).1 = XAIE_OK
    · simp [XAieTraceEvent._stop, hbound, XAieTraceCntr.getModule, hmod, hm, hl]
    · simp [XAieTraceEvent._stop, hbound, XAieTraceCntr.getModule, hmod, hm, hl]

/-- C13 as stated fails: the memory-module event `memEventHeld` holds slot 1 of
the Running core-module control `runningCntr`.  The slot reset fails with
`XAIE_ERR` (the control is Running), the channel stop fails with error 8, and the
stop hook returns error 8, the error of the second step, not that of the
first. -/
theorem C13_event_stop_counterexample :
    ¬ (∀ (dev : XAieDev) (c : XAieTraceCntr) (e : XAieTraceEvent) (RC : AieRC)
        (c1 : XAieTraceCntr) (e1 : XAieTraceEvent), e.TraceCntr = true → e.Mod ≠ c.Mod →
        e._stop dev c = some (RC, c1, e1) →
        (RC = XAIE_OK ↔
          (c.setTraceEvent dev e.Slot (dev.XAie_EventPhysicalToLogicalConv e.Loc c.Mod 0)).1 =
            XAIE_OK ∧ e.BC.stop.1 = XAIE_OK) ∧
        ((c.setTraceEvent dev e.Slot (dev.XAie_EventPhysicalToLogicalConv e.Loc c.Mod 0)).1 ≠
            XAIE_OK →
          RC = (c.setTraceEvent dev e.Slot
            (dev.XAie_EventPhysicalToLogicalConv e.Loc c.Mod 0)).1) ∧
        ((c.setTraceEvent dev e.Slot (dev.XAie_EventPhysicalToLogicalConv e.Loc c.Mod 0)).1 =
            XAIE_OK → e.BC.stop.1 ≠ XAIE_OK → RC = e.BC.stop.1)) := by
  intro h
  have hstop : memEventHeld._stop exampleDev runningCntr =
      some (XAIE_OTHER 8,
        (runningCntr.setTraceEvent exampleDev 1 0).2,
        { memEventHeld with BC := memEventHeld.BC.stop.2 }) := by rfl
  have h1 := (h exampleDev runningCntr memEventHeld _ _ _ (by decide) (by decide) hstop).2.1
    (by decide)
  exact absurd h1 (by decide)

/-- C13, amended: the stop hook of a trace event is best-effort and reports the
last error.  For a bound event whose module differs from the control's, both
steps are made whatever the first returns (the control afterwards is the one
`setTraceEvent` leaves, the broadcast object the one `stop` leaves); the result
is `XAIE_OK` exactly when both steps returned `XAIE_OK`; when the channel stop
fails its error is the result, also when the slot reset failed too; when the
channel stop succeeds the result is that of the slot reset.  For an event of the
control's module the result is that of the slot reset. -/
theorem C13_event_stop_last_error (dev : XAieDev) (c : XAieTraceCntr) (e : XAieTraceEvent)
    (hbound : e.TraceCntr = true) :
    (e.Mod ≠ c.Mod →
      ∃ RC : AieRC,
        e._stop dev c = some (RC,
          (c.setTraceEvent dev e.Slot (dev.XAie_EventPhysicalToLogicalConv e.Loc c.Mod 0)).2,
          { e with BC := e.BC.stop.2 }) ∧
        (RC = XAIE_OK ↔
          (c.setTraceEvent dev e.Slot (dev.XAie_EventPhysicalToLogicalConv e.Loc c.Mod 0)).1 =
            XAIE_OK ∧ e.BC.stop.1 = XAIE_OK) ∧
        (e.BC.stop.1 ≠ XAIE_OK → RC = e.BC.stop.1) ∧
        (e.BC.stop.1 = XAIE_OK →
          RC = (c.setTraceEvent dev e.Slot
            (dev.XAie_EventPhysicalToLogicalConv e.Loc c.Mod 0)).1)) ∧
    (e.Mod = c.Mod →
      e._stop dev c = some
        ((c.setTraceEvent dev e.Slot (dev.XAie_EventPhysicalToLogicalConv e.Loc c.Mod 0)).1,
          (c.setTraceEvent dev e.Slot (dev.XAie_EventPhysicalToLogicalConv e.Loc c.Mod 0)).2,
          e)) := by
  have heq := event_stop_hook_eq dev c e hbound
  constructor
  · intro hmod
    rw [if_pos hmod, if_pos hmod] at heq
    refine ⟨_, heq, ?_, ?_, ?_⟩
    · by_cases hb : e.BC.stop.1 = XAIE_OK
      · simp [hb]
      · simp [hb]
    · intro hb
      rw [if_pos hb]
    · intro hb
      rw [if_neg (by simpa using hb)]
  · intro hmod
    rw [if_neg (by simpa using hmod), if_neg (by simpa using hmod)] at heq
    exact heq

/-- C13 amended, at a concrete input: for `memEventHeld` on `runningCntr` both
steps fail and the stop hook returns the error 8 of the channel stop. -/
theorem C13_event_stop_last_error_witness :
    memEventHeld.TraceCntr = true ∧ memEventHeld.Mod ≠ runningCntr.Mod ∧
    (runningCntr.setTraceEvent exampleDev memEventHeld.Slot
      (exampleDev.XAie_EventPhysicalToLogicalConv memEventHeld.Loc runningCntr.Mod 0)).1 =
      XAIE_ERR ∧
    memEventHeld.BC.stop.1 = XAIE_OTHER 8 ∧
    ∃ (c1 : XAieTraceCntr) (e1 : XAieTraceEvent),
      memEventHeld._stop exampleDev runningCntr = some (XAIE_OTHER 8, c1, e1) :=
  ⟨by decide, by decide, by decide, by decide,
    match (C13_event_stop_last_error exampleDev runningCntr memEventHeld (by decide)).1
      (by decide) with
    | ⟨_, h1, _, h3, _⟩ => ⟨_, _, (h3 (by decide)) ▸ h1⟩⟩

/-- C16: stop resets but does not release.  For a bound trace event on the tile
of an Initialized trace control that is not Running, holding the reserved slot
`e.Slot`, the stop hook returns a result, and afterwards the entry `e.Slot` of
the slot table holds the "none" event of the control's module (the event for
physical event 0), every other entry is unchanged and the bitmap is unchanged,
so the bit of `e.Slot` is still set.  Through the lifecycle wrapper `stop`, on a
Running event, the control is left the same way and the event is no longer
Running but as Reserved as before. -/
theorem C16_event_stop_resets_slot (dev : XAieDev) (c : XAieTraceCntr) (e : XAieTraceEvent)
    (hbound : e.TraceCntr = true) (hloc : e.Loc = c.Loc) (hi : c.State.Initialized = true)
    (hr : c.State.Running = false) (hs : e.Slot < 8)
    (hbit : c.TraceSlotBits.testBit e.Slot = true) :
    ∃ (RC : AieRC) (c1 : XAieTraceCntr) (e1 : XAieTraceEvent),
      e._stop dev c = some (RC, c1, e1) ∧
      c1.TraceSlotBits = c.TraceSlotBits ∧ c1.TraceSlotBits.testBit e.Slot = true ∧
      (∀ i : Fin 8, c1.Events i =
        if i.val = e.Slot then dev.XAie_EventPhysicalToLogicalConv c.Loc c.Mod 0
        else c.Events i) ∧
      (e.State.Running = true →
        e.stop dev c = some (RC, c1, { e1 with State := { e1.State with Running := false } }) ∧
        e1.State.Reserved = e.State.Reserved) := by
  have heq := event_stop_hook_eq dev c e hbound
  obtain ⟨_, h2, _, _, h5⟩ := setTraceEvent_ok_effect dev c
    (dev.XAie_EventPhysicalToLogicalConv e.Loc c.Mod 0) hi hr hs hbit
  refine ⟨_, _, _, heq, h2, by rw [h2]; exact hbit, ?_, ?_⟩
  · intro i
    rw [h5 i, hloc]
    by_cases hi' : i.val = e.Slot
    · simp [hi']
    · simp [hi']
  · intro hrun
    constructor
    · simp only [XAieTraceEvent.stop, hrun, if_true, heq]
    · split_ifs <;> rfl

/-- C16, at a concrete input: the core-module event `coreEventHeld` holds slot 3
of `busyCntr` (slots 0, 1, 3 taken); after the stop hook slot 3 holds the "none"
event 0 of the core module and the bitmap is still `0x0B`. -/
theorem C16_event_stop_resets_slot_witness :
    coreEventHeld.TraceCntr = true ∧ coreEventHeld.Slot = 3 ∧
    busyCntr.TraceSlotBits.testBit 3 = true ∧
    ∃ (RC : AieRC) (c1 : XAieTraceCntr) (e1 : XAieTraceEvent),
      coreEventHeld._stop exampleDev busyCntr = some (RC, c1, e1) ∧
      c1.TraceSlotBits = 0x0B ∧ c1.Events 3 = 0 :=
  ⟨by decide, by decide, by decide,
    match C16_event_stop_resets_slot exampleDev busyCntr coreEventHeld (by decide) (by decide)
      (by decide) (by decide) (by decide) (by decide) with
    | ⟨RC, c1, e1, h1, h2, _, h4, _⟩ => ⟨RC, c1, e1, h1, h2, h4 3⟩⟩

/-- The start hook of a bound trace event of the control's module. -/
theorem event_start_hook_same (dev : XAieDev) (c : XAieTraceCntr) (e : XAieTraceEvent)
    (hbound : e.TraceCntr = true) (hmod : e.Mod = c.Mod) :
    e._start dev c =
      some ((c.setTraceEvent dev e.Slot e.Event).1, (c.setTraceEvent dev e.Slot e.Event).2, e) := by
  simp [XAieTraceEvent._start, hbound, XAieTraceCntr.getModule, hmod]

/-- The start hook of a bound trace event of another module than the control's,
when the broadcast of its event is programmed. -/
theorem event_start_hook_cross (dev : XAieDev) (c : XAieTraceCntr) (e : XAieTraceEvent)
    (hbound : e.TraceCntr = true) (hmod : e.Mod ≠ c.Mod)
    (hbc : dev.XAie_EventBroadcast e.Loc e.Mod e.BC.getBc e.Event = XAIE_OK) :
    e._start dev c =
      some ((c.setTraceEvent dev e.Slot (e.BC.getEvent e.Loc c.Mod)).1,
        (c.setTraceEvent dev e.Slot (e.BC.getEvent e.Loc c.Mod)).2, e) := by
  have hmod1 : ¬ e.Mod = c.Mod := hmod
  simp [XAieTraceEvent._start, hbound, XAieTraceCntr.getModule, hmod1, hbc]

/-- The start hook of a bound trace event of another module than the control's,
when the broadcast of its event cannot be programmed. -/
theorem event_start_hook_cross_fail (dev : XAieDev) (c : XAieTraceCntr) (e : XAieTraceEvent)
    (hbound : e.TraceCntr = true) (hmod : e.Mod ≠ c.Mod)
    (hbc : dev.XAie_EventBroadcast e.Loc e.Mod e.BC.getBc e.Event ≠ XAIE_OK) :
    e._start dev c = some (dev.XAie_EventBroadcast e.Loc e.Mod e.BC.getBc e.Event, c, e) := by
  have hmod1 : ¬ e.Mod = c.Mod := hmod
  simp [XAieTraceEvent._start, hbound, XAieTraceCntr.getModule, hmod1, hbc]

/-- What a start hook that goes through `setTraceEvent(e.Slot, id)` leaves, for a
reserved slot of an Initialized trace control that is not Running. -/
theorem event_start_installs (dev : XAieDev) (c : XAieTraceCntr) (e : XAieTraceEvent)
    (id : XAie_Events) (hi : c.State.Initialized = true) (hr : c.State.Running = false)
    (hs : e.Slot < 8) (hbit : c.TraceSlotBits.testBit e.Slot = true)
    (hstart : e._start dev c =
      some ((c.setTraceEvent dev e.Slot id).1, (c.setTraceEvent dev e.Slot id).2, e)) :
    ∃ c1 : XAieTraceCntr,
      e._start dev c = some (XAIE_OK, c1, e) ∧
      (e.State.Reserved = true → e.State.Configured = true →
        e.start dev c =
          some (XAIE_OK, c1, { e with State := { e.State with Running := true } })) ∧
      c1.TraceSlotBits = c.TraceSlotBits ∧
      (∀ i : Fin 8, c1.Events i =
        if i.val = e.Slot then
          (if id = dev.XAIE_EVENT_NONE_CORE then
            dev.XAie_EventPhysicalToLogicalConv c.Loc c.Mod 0 else id)
        else c.Events i) ∧
      (id ≠ dev.XAIE_EVENT_NONE_CORE → c1.Events ⟨e.Slot, hs⟩ = id) := by
  obtain ⟨h1, h2, _, _, h5⟩ := setTraceEvent_ok_effect dev c id hi hr hs hbit
  rw [h1] at hstart
  refine ⟨(c.setTraceEvent dev e.Slot id).2, hstart, ?_, h2, h5, ?_⟩
  · intro hres hcfg
    simp [XAieTraceEvent.start, hres, hcfg, hstart]
  · intro hid
    have := h5 ⟨e.Slot, hs⟩
    simpa [hid] using this

/-- C15: what a started trace event leaves in its slot.  For a bound trace event
holding the reserved slot `e.Slot` of an Initialized trace control that is not
Running: when the module of the event is the control's, the start hook succeeds
and the slot holds the event's own id; when the modules differ and the broadcast
of the event is programmed, the start hook succeeds and the slot holds the id the
broadcast channel surfaces in the control's module, whatever the event's own id
is.  (An id equal to `XAIE_EVENT_NONE_CORE`, "no event", is stored as the "none"
event of the control's module, as `setTraceEvent` does for every caller.)  In
both cases every other entry of the slot table and the bitmap are unchanged, and
the lifecycle wrapper `start`, on an event that is Reserved and Configured,
returns `XAIE_OK` with the same trace control and the event Running. -/
theorem C15_event_start_slot (dev : XAieDev) (c : XAieTraceCntr) (e : XAieTraceEvent)
    (hbound : e.TraceCntr = true) (hi : c.State.Initialized = true)
    (hr : c.State.Running = false) (hs : e.Slot < 8)
    (hbit : c.TraceSlotBits.testBit e.Slot = true) :
    (e.Mod = c.Mod →
      ∃ c1 : XAieTraceCntr,
        e._start dev c = some (XAIE_OK, c1, e) ∧
        (e.State.Reserved = true → e.State.Configured = true →
          e.start dev c =
            some (XAIE_OK, c1, { e with State := { e.State with Running := true } })) ∧
        c1.TraceSlotBits = c.TraceSlotBits ∧
        (∀ i : Fin 8, c1.Events i =
          if i.val = e.Slot then
            (if e.Event = dev.XAIE_EVENT_NONE_CORE then
              dev.XAie_EventPhysicalToLogicalConv c.Loc c.Mod 0 else e.Event)
          else c.Events i) ∧
        (e.Event ≠ dev.XAIE_EVENT_NONE_CORE → c1.Events ⟨e.Slot, hs⟩ = e.Event)) ∧
    (e.Mod ≠ c.Mod → dev.XAie_EventBroadcast e.Loc e.Mod e.BC.getBc e.Event = XAIE_OK →
      ∃ c1 : XAieTraceCntr,
        e._start dev c = some (XAIE_OK, c1, e) ∧
        (e.State.Reserved = true → e.State.Configured = true →
          e.start dev c =
            some (XAIE_OK, c1, { e with State := { e.State with Running := true } })) ∧
        c1.TraceSlotBits = c.TraceSlotBits ∧
        (∀ i : Fin 8, c1.Events i =
          if i.val = e.Slot then
            (if e.BC.getEvent e.Loc c.Mod = dev.XAIE_EVENT_NONE_CORE then
              dev.XAie_EventPhysicalToLogicalConv c.Loc c.Mod 0
              else e.BC.getEvent e.Loc c.Mod)
          else c.Events i) ∧
        (e.BC.getEvent e.Loc c.Mod ≠ dev.XAIE_EVENT_NONE_CORE →
          c1.Events ⟨e.Slot, hs⟩ = e.BC.getEvent e.Loc c.Mod)) :=
  ⟨fun hmod => event_start_installs dev c e e.Event hi hr hs hbit
      (event_start_hook_same dev c e hbound hmod),
    fun hmod hbc => event_start_installs dev c e (e.BC.getEvent e.Loc c.Mod) hi hr hs hbit
      (event_start_hook_cross dev c e hbound hmod hbc)⟩

/-- C15, at concrete inputs: on `busyCntr` (core module, slots 0, 1, 3 taken) the
core-module event `coreEventHeld`, to trace event 10 in slot 3, leaves 10 in slot
3; the memory-module event `memEventReady`, to trace event 12 in slot 3, leaves
there the event 123 its broadcast channel surfaces, not 12. -/
theorem C15_event_start_slot_witness :
    coreEventHeld.Mod = busyCntr.Mod ∧ coreEventHeld.Event = 10 ∧
    (∃ c1 : XAieTraceCntr, coreEventHeld._start exampleDev busyCntr =
      some (XAIE_OK, c1, coreEventHeld) ∧ c1.Events 3 = 10 ∧ c1.TraceSlotBits = 0x0B) ∧
    memEventReady.Mod ≠ busyCntr.Mod ∧ memEventReady.Event = 12 ∧
    (∃ c1 : XAieTraceCntr, memEventReady._start exampleDev busyCntr =
      some (XAIE_OK, c1, memEventReady) ∧ c1.Events 3 = 123 ∧ c1.TraceSlotBits = 0x0B) :=
  ⟨by decide, by decide,
    match (C15_event_start_slot exampleDev busyCntr coreEventHeld (by decide) (by decide)
      (by decide) (by decide) (by decide)).1 (by decide) with
    | ⟨c1, h1, _, h3, _, h5⟩ => ⟨c1, h1, h5 (by decide), h3⟩,
    by decide, by decide,
    match (C15_event_start_slot exampleDev busyCntr memEventReady (by decide) (by decide)
      (by decide) (by decide) (by decide)).2 (by decide) (by decide) with
    | ⟨c1, h1, _, h3, _, h5⟩ => ⟨c1, h1, h5 (by decide), h3⟩⟩

/-! ## Stopping a tracing object -/

/-- The lifecycle wrapper `stop` of a bound trace event returns a result. -/
theorem event_stop_total (dev : XAieDev) (c : XAieTraceCntr) (e : XAieTraceEvent)
    (hbound : e.TraceCntr = true) :
    ∃ r, e.stop dev c = some r := by
  by_cases hrun : e.State.Running = true
  · simp only [XAieTraceEvent.stop, hrun, if_true, event_stop_hook_eq dev c e hbound]
    exact ⟨_, rfl⟩
  · simp only [XAieTraceEvent.stop, hrun, if_false]
    exact ⟨_, rfl⟩

/-- The stop loop calls `stop` once for every event. -/
theorem stopLoop_length (dev : XAieDev) :
    ∀ (evs : List XAieTraceEvent) (c c1 : XAieTraceCntr) (evs1 : List XAieTraceEvent)
      (RCs : List AieRC),
      XAieTracing._stop.stopLoop dev c evs = some (c1, evs1, RCs) →
      RCs.length = evs.length ∧ evs1.length = evs.length := by
  intro evs
  induction evs with
  | nil =>
    intro c c1 evs1 RCs h
    simp only [XAieTracing._stop.stopLoop, Option.some.injEq, Prod.mk.injEq] at h
    obtain ⟨_, h2, h3⟩ := h
    rw [← h2, ← h3]
    exact ⟨rfl, rfl⟩
  | cons ev rest ih =>
    intro c c1 evs1 RCs h
    unfold XAieTracing._stop.stopLoop at h
    split at h
    · exact absurd h (by simp)
    · split at h
      · exact absurd h (by simp)
      · rename_i heq
        simp only [Option.some.injEq, Prod.mk.injEq] at h
        obtain ⟨_, h2, h3⟩ := h
        obtain ⟨i1, i2⟩ := ih _ _ _ _ heq
        rw [← h2, ← h3]
        simp [i1, i2]

/-- On bound events the stop loop returns a result. -/
theorem stopLoop_total (dev : XAieDev) :
    ∀ (evs : List XAieTraceEvent) (c : XAieTraceCntr), (∀ e ∈ evs, e.TraceCntr = true) →
      ∃ r, XAieTracing._stop.stopLoop dev c evs = some r := by
  intro evs
  induction evs with
  | nil =>
    intro c _
    exact ⟨_, rfl⟩
  | cons ev rest ih =>
    intro c hb
    obtain ⟨⟨RC, c1, ev1⟩, h1⟩ := event_stop_total dev c ev (hb ev (List.mem_cons_self _ _))
    obtain ⟨⟨c2, rest1, RCs⟩, h2⟩ := ih c1 (fun e he => hb e (List.mem_cons_of_mem _ he))
    exact ⟨(c2, ev1 :: rest1, RC :: RCs), by simp only [XAieTracing._stop.stopLoop, h1, h2]⟩

/-- C14 as stated fails: the Running tracing object `runningOne`, on a device
whose control-register reset fails with error 9.  The stop of the trace control
returns error 9, and the stop hook of the tracing object returns `XAIE_OK`. -/
theorem C14_session_stop_counterexample :
    ¬ (∀ (dev : XAieDev) (t : XAieTracing) (RC : AieRC) (t1 : XAieTracing),
        t._stop dev = some (RC, t1) → RC = XAIE_OK → (t.TraceCntr.stop dev).1 = XAIE_OK) := by
  intro h
  have hfst : (runningOne._stop brokenResetDev).map Prod.fst = some XAIE_OK := by rfl
  rcases hq : runningOne._stop brokenResetDev with _ | ⟨RC, t1⟩
  · rw [hq] at hfst
    exact absurd hfst (by simp)
  · rw [hq] at hfst
    have hRC : RC = XAIE_OK := by simpa using hfst
    exact absurd (h brokenResetDev runningOne RC t1 hq hRC) (by decide)

/-- C14, amended: the stop hook of a tracing object is best-effort and reports
nothing.  It stops the trace control and then calls `stop` on every attached
event, one call per event whatever the earlier calls returned; whenever it
returns, it returns `XAIE_OK`, whatever the stop of the trace control and the
stops of the events returned; and it does return when every event is bound to
the trace control. -/
theorem C14_session_stop_always_ok (dev : XAieDev) (t : XAieTracing) :
    (∀ RC t1, t._stop dev = some (RC, t1) →
      RC = XAIE_OK ∧
      ∃ RCs : List AieRC,
        XAieTracing._stop.stopLoop dev (t.TraceCntr.stop dev).2 t.Events =
          some (t1.TraceCntr, t1.Events, RCs) ∧
        RCs.length = t.Events.length ∧ t1.Events.length = t.Events.length) ∧
    ((∀ e ∈ t.Events, e.TraceCntr = true) → ∃ t1, t._stop dev = some (XAIE_OK, t1)) := by
  constructor
  · intro RC t1 h
    unfold XAieTracing._stop at h
    split at h
    · exact absurd h (by simp)
    · rename_i c1 Events1 RCs heq
      simp only [Option.some.injEq, Prod.mk.injEq] at h
      obtain ⟨h1, h2⟩ := h
      obtain ⟨l1, l2⟩ := stopLoop_length dev _ _ _ _ _ heq
      rw [← h2]
      exact ⟨h1.symm, RCs, heq, l1, l2⟩
  · intro hb
    obtain ⟨⟨c1, Events1, RCs⟩, h⟩ := stopLoop_total dev t.Events (t.TraceCntr.stop dev).2 hb
    exact ⟨{ t with TraceCntr := c1, Events := Events1 }, by simp only [XAieTracing._stop, h]⟩

/-- C14 amended, at a concrete input: on the device whose control-register reset
fails, the stop of the trace control of `runningOne` returns error 9 and the stop
hook of `runningOne` returns `XAIE_OK`. -/
theorem C14_session_stop_always_ok_witness :
    (runningOne.TraceCntr.stop brokenResetDev).1 = XAIE_OTHER 9 ∧
    (∀ e ∈ runningOne.Events, e.TraceCntr = true) ∧
    ∃ t1, runningOne._stop brokenResetDev = some (XAIE_OK, t1) :=
  have hb : ∀ e ∈ runningOne.Events, e.TraceCntr = true := by decide
  ⟨by decide, hb, (C14_session_stop_always_ok brokenResetDev runningOne).2 hb⟩

/-! ## Binding a trace event -/

/-- C20 as stated fails: a new trace event is initialized with the core-module
control `exampleCntr` (success); it is not Reserved.  A second `initialize`, with
the memory-module control `memCntr`, returns `XAIE_OK` and changes the module
from the core to the memory module. -/
theorem C20_initialise_counterexample :
    ¬ (∀ (dev : XAieDev) (e : XAieTraceEvent) (c c1 : XAieTraceCntr) (E0 E1 : XAie_Events),
        (e.initialise dev c E0).1 = XAIE_OK →
        ((e.initialise dev c E0).2.initialise dev c1 E1).1 ≠ XAIE_OK ∧
        ((e.initialise dev c E0).2.initialise dev c1 E1).2.Mod = (e.initialise dev c E0).2.Mod ∧
        ((e.initialise dev c E0).2.initialise dev c1 E1).2.Event =
          (e.initialise dev c E0).2.Event) := by
  intro h
  have h1 := h exampleDev (XAieTraceEvent.new exampleCntr.loc rawEvent) exampleCntr memCntr 0 0
    (by decide)
  exact absurd h1.2.1 (by decide)

/-- C20, amended: `initialize` refuses a Reserved event only.  On a Reserved event
it returns `XAIE_ERR` and leaves the event, with its binding, module and stored
event, unchanged.  On an event that is not Reserved, initialized before or not,
it succeeds exactly when the tile of the event is of a supported kind and, for a
shim tile, the trace control is of the PL module; when it succeeds the event is
bound and Initialized and its module is that of the trace control passed, and
when it fails the event is unchanged. -/
theorem C20_initialise_until_reserved (dev : XAieDev) (e : XAieTraceEvent)
    (c : XAieTraceCntr) (E0 : XAie_Events) :
    (e.State.Reserved = true → e.initialise dev c E0 = (XAIE_ERR, e)) ∧
    (e.State.Reserved = false →
      ((e.initialise dev c E0).1 = XAIE_OK ↔
        dev._XAie_GetTileTypefromLoc e.Loc ≠ XAIEGBL_TILE_TYPE_MAX ∧
        (dev._XAie_GetTileTypefromLoc e.Loc = XAIEGBL_TILE_TYPE_SHIMNOC ∨
            dev._XAie_GetTileTypefromLoc e.Loc = XAIEGBL_TILE_TYPE_SHIMPL →
          c.Mod = XAIE_PL_MOD)) ∧
      ((e.initialise dev c E0).1 = XAIE_OK →
        (e.initialise dev c E0).2.Mod = c.Mod ∧ (e.initialise dev c E0).2.TraceCntr = true ∧
        (e.initialise dev c E0).2.State.Initialized = true) ∧
      ((e.initialise dev c E0).1 ≠ XAIE_OK → (e.initialise dev c E0).2 = e)) := by
  constructor
  · intro hres
    simp [XAieTraceEvent.initialise, hres]
  · intro hres
    by_cases hmax : dev._XAie_GetTileTypefromLoc e.Loc = XAIEGBL_TILE_TYPE_MAX
    · simp [XAieTraceEvent.initialise, hres, hmax]
    · by_cases hshim : dev._XAie_GetTileTypefromLoc e.Loc = XAIEGBL_TILE_TYPE_SHIMNOC ∨
          dev._XAie_GetTileTypefromLoc e.Loc = XAIEGBL_TILE_TYPE_SHIMPL
      · by_cases hpl : c.Mod = XAIE_PL_MOD
        · simp [XAieTraceEvent.initialise, hres, hmax, hshim, hpl, XAieTraceCntr.getModule]
        · simp [XAieTraceEvent.initialise, hres, hmax, hshim, hpl, XAieTraceCntr.getModule]
      · by_cases hmem : c.Mod = XAIE_MEM_MOD
        · simp [XAieTraceEvent.initialise, hres, hmax, hshim, hmem, XAieTraceCntr.getModule]
        · simp [XAieTraceEvent.initialise, hres, hmax, hshim, hmem, XAieTraceCntr.getModule]

/-- C20 amended, at concrete inputs: the event `coreEventSet`, initialized before
and not Reserved, is bound again by `initialize` with `memCntr`, and its module
becomes the memory module; once Reserved, `initialize` fails and changes
nothing. -/
theorem C20_initialise_until_reserved_witness :
    coreEventSet.State.Initialized = true ∧ coreEventSet.State.Reserved = false ∧
    coreEventSet.Mod = XAIE_CORE_MOD ∧
    (coreEventSet.initialise exampleDev memCntr 0).1 = XAIE_OK ∧
    (coreEventSet.initialise exampleDev memCntr 0).2.Mod = XAIE_MEM_MOD ∧
    coreEventHeld.State.Reserved = true ∧
    coreEventHeld.initialise exampleDev memCntr 0 = (XAIE_ERR, coreEventHeld) :=
  have h := (C20_initialise_until_reserved exampleDev coreEventSet memCntr 0).2 (by decide)
  have hok := h.1.2 ⟨by decide, by decide⟩
  ⟨by decide, by decide, by decide, hok, (h.2.1 hok).1,
    by decide, (C20_initialise_until_reserved exampleDev coreEventHeld memCntr 0).1 (by decide)⟩

/-! ## Adding an event to a reserved tracing object -/

/-- `reserveTraceSlot` either fails and changes nothing, or takes the lowest free
slot. -/
theorem reserveTraceSlot_cases (c : XAieTraceCntr) (Slot : Nat) (hb : c.TraceSlotBits < 256) :
    c.reserveTraceSlot Slot = (XAIE_ERR, c, Slot) ∨
    ∃ i, c.reserveTraceSlot Slot =
      (XAIE_OK, { c with TraceSlotBits := c.TraceSlotBits ||| 2 ^ i }, i) := by
  by_cases h : c.State.Running = true ∨ c.TraceSlotBits = 255
  · exact Or.inl ((reserveTraceSlot_spec c Slot hb).2 h).2
  · right
    have hrun : c.State.Running = false := by
      by_contra hr
      exact h (Or.inl (by simpa using hr))
    have hfree : ∃ j < 8, c.TraceSlotBits.testBit j = false := by
      by_contra hno
      apply h
      right
      rw [eq_255_iff_all_set hb]
      intro j hj
      by_contra hbit
      exact hno ⟨j, hj, by simpa using hbit⟩
    obtain ⟨j, hj, hjfree⟩ := hfree
    exact reserveTraceSlot_succeeds c Slot hb hrun hj hjfree

/-- The outcome of the lifecycle wrapper `reserve` on a bound trace event that is
not Reserved: an error with the bitmap as before, or success with the lowest
free slot taken and held by the event. -/
theorem event_reserve_outcome (dev : XAieDev) (c : XAieTraceCntr) (e : XAieTraceEvent)
    (hbound : e.TraceCntr = true) (hres : e.State.Reserved = false)
    (hb : c.TraceSlotBits < 256) :
    ∃ (RC : AieRC) (c1 : XAieTraceCntr) (e1 : XAieTraceEvent),
      e.reserve dev c = some (RC, c1, e1) ∧
      (RC ≠ XAIE_OK → c1.TraceSlotBits = c.TraceSlotBits) ∧
      (RC = XAIE_OK →
        e1.Slot < 8 ∧ c.TraceSlotBits.testBit e1.Slot = false ∧
        (∀ j < e1.Slot, c.TraceSlotBits.testBit j = true) ∧
        c1 = { c with TraceSlotBits := c.TraceSlotBits ||| 2 ^ e1.Slot } ∧
        c.State.Running = false ∧
        e1.State = { e.State with Reserved := true } ∧
        e1.Mod = e.Mod ∧ e1.Event = e.Event ∧ e1.TraceCntr = true ∧ e1.Loc = e.Loc) := by
  rcases reserveTraceSlot_cases c e.Slot hb with hfail | ⟨i, hok⟩
  · refine ⟨XAIE_ERR, c, { e with Slot := e.Slot }, ?_, fun _ => rfl,
      fun h => absurd h (by decide)⟩
    simp [XAieTraceEvent.reserve, XAieTraceEvent._reserve, hres, hbound, hfail]
  · obtain ⟨hrun, hi8, hibit, hilow, _⟩ := reserveTraceSlot_ok hb hok
    by_cases hmod : e.Mod = c.Mod
    · refine ⟨XAIE_OK, { c with TraceSlotBits := c.TraceSlotBits ||| 2 ^ i },
        { e with Slot := i, State := { e.State with Reserved := true } }, ?_,
        fun h => absurd rfl h, fun _ => ⟨hi8, hibit, hilow, rfl, hrun, rfl, rfl, rfl, hbound, rfl⟩⟩
      simp [XAieTraceEvent.reserve, XAieTraceEvent._reserve, hres, hbound, hok,
        XAieTraceCntr.getModule, hmod]
    · by_cases hbc : (e.BC.initialise [e.Loc] XAIE_CORE_MOD XAIE_MEM_MOD).reserve.1 = XAIE_OK
      · refine ⟨XAIE_OK, { c with TraceSlotBits := c.TraceSlotBits ||| 2 ^ i },
          { e with
            Slot := i
            BC := (e.BC.initialise [e.Loc] XAIE_CORE_MOD XAIE_MEM_MOD).reserve.2
            Rsc := ⟨e.Mod, i⟩
            State := { e.State with Reserved := true } }, ?_,
          fun h => absurd rfl h,
          fun _ => ⟨hi8, hibit, hilow, rfl, hrun, rfl, rfl, rfl, hbound, rfl⟩⟩
        simp [XAieTraceEvent.reserve, XAieTraceEvent._reserve, hres, hbound, hok,
          XAieTraceCntr.getModule, hmod, hbc]
      · refine ⟨(e.BC.initialise [e.Loc] XAIE_CORE_MOD XAIE_MEM_MOD).reserve.1,
          (XAieTraceCntr.releaseTraceSlot dev
            { c with TraceSlotBits := c.TraceSlotBits ||| 2 ^ i } i).2,
          { e with
            Slot := i
            BC := (e.BC.initialise [e.Loc] XAIE_CORE_MOD XAIE_MEM_MOD).reserve.2 }, ?_,
          fun _ => (release_after_reserve dev hb hok).2, fun h => absurd h hbc⟩
        simp [XAieTraceEvent.reserve, XAieTraceEvent._reserve, hres, hbound, hok,
          XAieTraceCntr.getModule, hmod, hbc]

/-- The start hook of a bound trace event returns a result; it leaves the event
as it is and, of the trace control, the bitmap and the Running flag. -/
theorem event_start_hook_frame (dev : XAieDev) (c : XAieTraceCntr) (e : XAieTraceEvent)
    (hbound : e.TraceCntr = true) :
    ∃ (RC : AieRC) (c1 : XAieTraceCntr),
      e._start dev c = some (RC, c1, e) ∧ c1.TraceSlotBits = c.TraceSlotBits ∧
      c1.State.Running = c.State.Running := by
  by_cases hmod : e.Mod = c.Mod
  · obtain ⟨_, _, h3, h4, _⟩ := setTraceEvent_frame dev c e.Slot e.Event
    exact ⟨_, _, event_start_hook_same dev c e hbound hmod, h3, h4⟩
  · by_cases hbc : dev.XAie_EventBroadcast e.Loc e.Mod e.BC.getBc e.Event = XAIE_OK
    · obtain ⟨_, _, h3, h4, _⟩ := setTraceEvent_frame dev c e.Slot (e.BC.getEvent e.Loc c.Mod)
      exact ⟨_, _, event_start_hook_cross dev c e hbound hmod hbc, h3, h4⟩
    · exact ⟨_, _, event_start_hook_cross_fail dev c e hbound hmod hbc, rfl, rfl⟩

/-- The outcome of the lifecycle wrapper `start` on a bound trace event: the
bitmap and the Running flag of the trace control are kept; the event is kept on
failure and is the same event, Running, on success. -/
theorem event_start_outcome (dev : XAieDev) (c : XAieTraceCntr) (e : XAieTraceEvent)
    (hbound : e.TraceCntr = true) :
    ∃ (RC : AieRC) (c1 : XAieTraceCntr) (e1 : XAieTraceEvent),
      e.start dev c = some (RC, c1, e1) ∧ c1.TraceSlotBits = c.TraceSlotBits ∧
      c1.State.Running = c.State.Running ∧
      (RC ≠ XAIE_OK → e1 = e) ∧
      (RC = XAIE_OK → e1 = { e with State := { e.State with Running := true } }) := by
  by_cases hready : e.State.Reserved = true ∧ e.State.Configured = true
  · obtain ⟨RC, c1, h1, h2, h3⟩ := event_start_hook_frame dev c e hbound
    by_cases hRC : RC = XAIE_OK
    · refine ⟨RC, c1, { e with State := { e.State with Running := true } }, ?_, h2, h3,
        fun h => absurd hRC h, fun _ => rfl⟩
      simp [XAieTraceEvent.start, hready, h1, hRC]
    · refine ⟨RC, c1, e, ?_, h2, h3, fun _ => rfl, fun h => absurd h hRC⟩
      simp [XAieTraceEvent.start, hready, h1, hRC]
  · refine ⟨XAIE_ERR, c, e, ?_, rfl, rfl, fun _ => rfl, fun h => absurd h (by decide)⟩
    simp only [XAieTraceEvent.start, hready, if_false]

/-- `releaseTraceSlot` never changes the module. -/
theorem releaseTraceSlot_Mod (dev : XAieDev) (c : XAieTraceCntr) (Slot : Nat) :
    (c.releaseTraceSlot dev Slot).2.Mod = c.Mod := by
  unfold XAieTraceCntr.releaseTraceSlot
  split_ifs <;> rfl

/-- The lifecycle wrapper `release` on a bound trace event that is not Running
returns `XAIE_OK` and leaves the trace control as `releaseTraceSlot` of the
event's slot leaves it. -/
theorem event_release_outcome (dev : XAieDev) (c : XAieTraceCntr) (e : XAieTraceEvent)
    (hbound : e.TraceCntr = true) (herun : e.State.Running = false) :
    ∃ e1 : XAieTraceEvent,
      e.release dev c = some (XAIE_OK, (c.releaseTraceSlot dev e.Slot).2, e1) := by
  have hM := releaseTraceSlot_Mod dev c e.Slot
  by_cases hmod : e.Mod = c.Mod
  · exact ⟨{ e with State := { e.State with Reserved := false, Configured := false } }, by
      simp [XAieTraceEvent.release, herun, XAieTraceEvent._release, hbound,
        XAieTraceCntr.getModule, hM, hmod]⟩
  · exact ⟨{ e with
        BC := e.BC.release.2
        State := { e.State with Reserved := false, Configured := false } }, by
      simp [XAieTraceEvent.release, herun, XAieTraceEvent._release, hbound,
        XAieTraceCntr.getModule, hM, hmod]⟩

/-- A successful `initialize` binds the event. -/
theorem initialise_ok_bound (dev : XAieDev) (e : XAieTraceEvent) (c : XAieTraceCntr)
    (E0 : XAie_Events) (h : (e.initialise dev c E0).1 = XAIE_OK) :
    (e.initialise dev c E0).2.TraceCntr = true := by
  by_cases hres : e.State.Reserved = false
  · by_cases hmax : dev._XAie_GetTileTypefromLoc e.Loc = XAIEGBL_TILE_TYPE_MAX
    · simp [XAieTraceEvent.initialise, hres, hmax] at h
    · by_cases hshim : dev._XAie_GetTileTypefromLoc e.Loc = XAIEGBL_TILE_TYPE_SHIMNOC ∨
          dev._XAie_GetTileTypefromLoc e.Loc = XAIEGBL_TILE_TYPE_SHIMPL
      · by_cases hpl : c.Mod = XAIE_PL_MOD
        · simp [XAieTraceEvent.initialise, hres, hmax, hshim, hpl, XAieTraceCntr.getModule]
        · simp [XAieTraceEvent.initialise, hres, hmax, hshim, hpl, XAieTraceCntr.getModule] at h
      · by_cases hmem : c.Mod = XAIE_MEM_MOD
        · simp [XAieTraceEvent.initialise, hres, hmax, hshim, hmem, XAieTraceCntr.getModule]
        · simp [XAieTraceEvent.initialise, hres, hmax, hshim, hmem, XAieTraceCntr.getModule]
  · simp [XAieTraceEvent.initialise, hres] at h

/-- What a successful `setEvent` leaves. -/
theorem setEvent_ok_inv (dev : XAieDev) (e : XAieTraceEvent) (M : XAie_ModuleType)
    (E : XAie_Events) (h : (e.setEvent dev M E).1 = XAIE_OK) :
    (e.setEvent dev M E).2 =
      { e with Event := E, Mod := M, State := { e.State with Configured := true } } := by
  by_cases h1 : dev.XAie_EventLogicalToPhysicalConv e.Loc M E = XAIE_OK
  · by_cases h2 : e.State.Running = true
    · simp [XAieTraceEvent.setEvent, h1, h2] at h
    · by_cases h3 : e.State.Reserved = true ∧ M ≠ e.Mod
      · simp [XAieTraceEvent.setEvent, h1, h2, h3] at h
      · simp [XAieTraceEvent.setEvent, h1, h2, h3]
  · simp [XAieTraceEvent.setEvent, h1] at h

/-- The local `TraceE` of `addEvent`, when `initialize` succeeded and the driver
accepts the event: bound, Configured, neither Reserved nor Running, with the
module and the event of the call. -/
theorem addEvent_TraceE_props (dev : XAieDev) (t : XAieTracing) (M : XAie_ModuleType)
    (E : XAie_Events) (raw : XAieTraceEvent) (E0 : XAie_Events)
    (hinit : ((XAieTraceEvent.new t.TraceCntr.loc raw).initialise dev t.TraceCntr E0).1 = XAIE_OK)
    (hok : dev.XAie_EventLogicalToPhysicalConv t.TraceCntr.Loc M E = XAIE_OK) :
    (((XAieTraceEvent.new t.TraceCntr.loc raw).initialise dev t.TraceCntr E0).2.setEvent
      dev M E).1 = XAIE_OK ∧
    (XAieTracing.addEvent.TraceE dev t M E raw E0).TraceCntr = true ∧
    (XAieTracing.addEvent.TraceE dev t M E raw E0).State.Reserved = false ∧
    (XAieTracing.addEvent.TraceE dev t M E raw E0).State.Running = false ∧
    (XAieTracing.addEvent.TraceE dev t M E raw E0).State.Configured = true ∧
    (XAieTracing.addEvent.TraceE dev t M E raw E0).Mod = M ∧
    (XAieTracing.addEvent.TraceE dev t M E raw E0).Event = E := by
  obtain ⟨hLoc, hRes, hRun⟩ :=
    initialise_frame dev (XAieTraceEvent.new t.TraceCntr.loc raw) t.TraceCntr E0
  have hbound := initialise_ok_bound dev _ _ _ hinit
  have hset := setEvent_ok dev
    ((XAieTraceEvent.new t.TraceCntr.loc raw).initialise dev t.TraceCntr E0).2 M E
    (by rw [hLoc]; exact hok) (by rw [hRes]; rfl) (by rw [hRun]; rfl)
  unfold XAieTracing.addEvent.TraceE
  rw [hset]
  exact ⟨rfl, hbound, hRes.trans rfl, hRun.trans rfl, rfl, rfl, rfl⟩

/-- `addEvent` on a Reserved tracing object that is not Running and has room, when
`setEvent` accepted the event: the immediate reserve, start and, on a failed
start, release of the new event. -/
theorem addEvent_late_eq (dev : XAieDev) (t : XAieTracing) (M : XAie_ModuleType)
    (E : XAie_Events) (raw : XAieTraceEvent) (E0 : XAie_Events)
    (hlen : t.Events.length < 8) (hrun : t.State.Running = false)
    (hres : t.State.Reserved = true)
    (hset : (((XAieTraceEvent.new t.TraceCntr.loc raw).initialise dev t.TraceCntr E0).2.setEvent
      dev M E).1 = XAIE_OK) :
    t.addEvent dev M E raw E0 =
      match (XAieTracing.addEvent.TraceE dev t M E raw E0).reserve dev t.TraceCntr with
      | none => none
      | some (RC, c1, TraceE2) =>
        if RC ≠ XAIE_OK then some (RC, { t with TraceCntr := c1 })
        else
          match TraceE2.start dev c1 with
          | none => none
          | some (RC1, c2, TraceE3) =>
            if RC1 ≠ XAIE_OK then
              match TraceE3.release dev c2 with
              | none => none
              | some (_, c3, _) => some (RC1, { t with TraceCntr := c3 })
            else
              some (RC1, XAieTracing.changeToConfigured
                { t with TraceCntr := c2, Events := t.Events ++ [TraceE3] }) := by
  have hne : ¬ t.Events.length = 8 := by omega
  simp only [XAieTracing.addEvent, XAieTraceCntr.getMaxTraceEvents, hne, if_false, hrun,
    Bool.false_eq_true, hset, ne_eq, not_true, hres, if_true, XAieTracing.addEvent.TraceE]

/-- Setting a clear bit of the bitmap and clearing it again gives the bitmap
back. -/
theorem clear_set_bit {b s : Nat} (hb : b < 256) (hs : s < 8) (hbit : b.testBit s = false) :
    ((b ||| 2 ^ s) &&& (0xFFFFFFFF ^^^ (1 <<< s))) % 256 = b := by
  apply Nat.eq_of_testBit_eq
  intro j
  rw [testBit_clear (lor_two_pow_lt hb hs) hs, Nat.testBit_or, Nat.testBit_two_pow]
  by_cases hjs : j = s
  · subst hjs; simp [hbit]
  · have : ¬ s = j := fun h => hjs h.symm
    simp [hjs, this]

/-- C11: late addition in `addEvent`.  On a Reserved tracing object that is not
Running and has fewer than 8 events, when `initialize` bound the new event and
the driver accepts the event, the new event is reserved at once.  If that
reservation fails, `addEvent` returns its error, and the events and the bitmap
are as before.  If it succeeds the event is started; if the start fails,
`addEvent` returns the error of the start, and the events and the bitmap are as
before; if the start succeeds, `addEvent` returns `XAIE_OK`, the event is
appended with the module and event of the call, it holds the lowest slot that
was free, and the bitmap is the one before with the bit of that slot set.  On a
tracing object that is not Reserved, a successful `addEvent` appends the event
and leaves the trace control untouched. -/
theorem C11_addEvent_late (dev : XAieDev) (t : XAieTracing) (M : XAie_ModuleType)
    (E : XAie_Events) (raw : XAieTraceEvent) (E0 : XAie_Events)
    (hlen : t.Events.length < 8) (hrun : t.State.Running = false)
    (hb : t.TraceCntr.TraceSlotBits < 256) :
    (t.State.Reserved = true →
      ((XAieTraceEvent.new t.TraceCntr.loc raw).initialise dev t.TraceCntr E0).1 = XAIE_OK →
      dev.XAie_EventLogicalToPhysicalConv t.TraceCntr.Loc M E = XAIE_OK →
      ∃ (RC : AieRC) (c1 : XAieTraceCntr) (TraceE2 : XAieTraceEvent),
        (XAieTracing.addEvent.TraceE dev t M E raw E0).reserve dev t.TraceCntr =
          some (RC, c1, TraceE2) ∧
        (RC ≠ XAIE_OK →
          ∃ t1, t.addEvent dev M E raw E0 = some (RC, t1) ∧ t1.Events = t.Events ∧
            t1.TraceCntr.TraceSlotBits = t.TraceCntr.TraceSlotBits) ∧
        (RC = XAIE_OK →
          ∃ (RC1 : AieRC) (c2 : XAieTraceCntr) (TraceE3 : XAieTraceEvent),
            TraceE2.start dev c1 = some (RC1, c2, TraceE3) ∧
            (RC1 ≠ XAIE_OK →
              ∃ t1, t.addEvent dev M E raw E0 = some (RC1, t1) ∧ t1.Events = t.Events ∧
                t1.TraceCntr.TraceSlotBits = t.TraceCntr.TraceSlotBits) ∧
            (RC1 = XAIE_OK →
              ∃ t1, t.addEvent dev M E raw E0 = some (XAIE_OK, t1) ∧
                t1.Events = t.Events ++ [TraceE3] ∧
                TraceE3.Mod = M ∧ TraceE3.Event = E ∧ TraceE3.Slot < 8 ∧
                t.TraceCntr.TraceSlotBits.testBit TraceE3.Slot = false ∧
                (∀ j < TraceE3.Slot, t.TraceCntr.TraceSlotBits.testBit j = true) ∧
                t1.TraceCntr.TraceSlotBits =
                  t.TraceCntr.TraceSlotBits ||| 2 ^ TraceE3.Slot))) ∧
    (t.State.Reserved = false →
      ∀ t1, t.addEvent dev M E raw E0 = some (XAIE_OK, t1) →
        ∃ ev : XAieTraceEvent, t1.Events = t.Events ++ [ev] ∧ ev.Mod = M ∧ ev.Event = E ∧
          t1.TraceCntr = t.TraceCntr) := by
  have hne8 : ¬ t.Events.length = 8 := by omega
  constructor
  · intro hres hinit hok
    obtain ⟨hset, hbound, hRes, hRun, _, hM, hE⟩ :=
      addEvent_TraceE_props dev t M E raw E0 hinit hok
    have heq := addEvent_late_eq dev t M E raw E0 hlen hrun hres hset
    obtain ⟨RC, c1, e2, hR, hRfail, hRok⟩ :=
      event_reserve_outcome dev t.TraceCntr _ hbound hRes hb
    refine ⟨RC, c1, e2, hR, ?_, ?_⟩
    · intro hne
      refine ⟨{ t with TraceCntr := c1 }, ?_, rfl, hRfail hne⟩
      rw [heq, hR]
      simp only [ne_eq, hne, not_false_iff, if_true]
    · intro hRC
      obtain ⟨hs8, hfree, hlow, hc1, hcrun, hst, hMod, hEv, hb2, _⟩ := hRok hRC
      obtain ⟨RC1, c2, e3, hS, hbits2, hrun2, hSfail, hSok⟩ :=
        event_start_outcome dev c1 e2 hb2
      have hc1bits : c1.TraceSlotBits = t.TraceCntr.TraceSlotBits ||| 2 ^ e2.Slot := by
        rw [hc1]
      have hc1run : c1.State.Running = false := by rw [hc1]; exact hcrun
      refine ⟨RC1, c2, e3, hS, ?_, ?_⟩
      · intro hne1
        have he3 : e3 = e2 := hSfail hne1
        have he2run : e2.State.Running = false := by rw [hst]; exact hRun
        obtain ⟨e4, hRel⟩ := event_release_outcome dev c2 e3 (by rw [he3]; exact hb2)
          (by rw [he3]; exact he2run)
        refine ⟨{ t with TraceCntr := (c2.releaseTraceSlot dev e3.Slot).2 }, ?_, rfl, ?_⟩
        · rw [heq, hR]
          simp only [ne_eq, hRC, not_true, if_false, hS, hne1, not_false_iff, if_true, hRel]
        · show (c2.releaseTraceSlot dev e3.Slot).2.TraceSlotBits = t.TraceCntr.TraceSlotBits
          rw [he3, releaseTraceSlot_in_range dev c2 (by rw [hrun2]; exact hc1run) hs8]
          show (c2.TraceSlotBits &&& (0xFFFFFFFF ^^^ (1 <<< e2.Slot))) % 256 = _
          rw [hbits2, hc1bits]
          exact clear_set_bit hb hs8 hfree
      · intro hok1
        have he3 : e3 = { e2 with State := { e2.State with Running := true } } := hSok hok1
        have hslot : e3.Slot = e2.Slot := by rw [he3]
        refine ⟨XAieTracing.changeToConfigured
          { t with TraceCntr := c2, Events := t.Events ++ [e3] }, ?_, ?_, ?_, ?_, ?_, ?_, ?_, ?_⟩
        · rw [heq, hR]
          simp only [ne_eq, hRC, not_true, if_false, hS, hok1]
        · rw [changeToConfigured_Events]
        · rw [he3]; exact hMod.trans hM
        · rw [he3]; exact hEv.trans hE
        · rw [hslot]; exact hs8
        · rw [hslot]; exact hfree
        · rw [hslot]; exact hlow
        · rw [changeToConfigured_TraceCntr, hslot]
          show c2.TraceSlotBits = _
          rw [hbits2, hc1bits]
  · intro hres t1 h
    unfold XAieTracing.addEvent at h
    simp only [XAieTraceCntr.getMaxTraceEvents, hne8, if_false, hrun, Bool.false_eq_true,
      hres] at h
    split at h
    · rename_i hfail
      simp only [Option.some.injEq, Prod.mk.injEq] at h
      exact absurd h.1 hfail
    · rename_i hsetok
      have hsetok1 : (((XAieTraceEvent.new t.TraceCntr.loc raw).initialise dev t.TraceCntr
          E0).2.setEvent dev M E).1 = XAIE_OK := by simpa using hsetok
      simp only [Option.some.injEq, Prod.mk.injEq] at h
      have hinv := setEvent_ok_inv dev _ M E hsetok1
      refine ⟨(((XAieTraceEvent.new t.TraceCntr.loc raw).initialise dev t.TraceCntr
        E0).2.setEvent dev M E).2, ?_, ?_, ?_, ?_⟩
      · rw [← h.2, changeToConfigured_Events]
      · rw [hinv]
      · rw [hinv]
      · rw [← h.2, changeToConfigured_TraceCntr]

/-- C11, at concrete inputs, on the Reserved tracing object `lateSession` (one
event, bitmap 1).  Adding the core-module event 11 succeeds: two events, bitmap
3, the new event in slot 1.  Adding the memory-module event 12 with no broadcast
channel to be had fails in the reservation with error 7; adding it on a device
that cannot program the broadcast fails in the start with error 5; both times
the events and the bitmap are as before. -/
theorem C11_addEvent_late_witness :
    lateSession.State.Reserved = true ∧ lateSession.State.Running = false ∧
    lateSession.Events.length = 1 ∧ lateSession.TraceCntr.TraceSlotBits = 1 ∧
    (∃ t1 ev, lateSession.addEvent exampleDev XAIE_CORE_MOD 11 rawEvent 0 = some (XAIE_OK, t1) ∧
      t1.Events = lateSession.Events ++ [ev] ∧ ev.Slot = 1 ∧
      t1.TraceCntr.TraceSlotBits = 3) ∧
    (∃ t1, lateSession.addEvent exampleDev XAIE_MEM_MOD 12 rawEventNoBc 0 =
        some (XAIE_OTHER 7, t1) ∧
      t1.Events = lateSession.Events ∧ t1.TraceCntr.TraceSlotBits = 1) ∧
    (∃ t1, lateSession.addEvent noBroadcastDev XAIE_MEM_MOD 12 rawEvent 0 =
        some (XAIE_OTHER 5, t1) ∧
      t1.Events = lateSession.Events ∧ t1.TraceCntr.TraceSlotBits = 1) := by
  refine ⟨by decide, by decide, by decide, by decide, ?_, ?_, ?_⟩
  · obtain ⟨RC, c1, e2, hR, _, hok⟩ :=
      (C11_addEvent_late exampleDev lateSession XAIE_CORE_MOD 11 rawEvent 0 (by decide)
        (by decide) (by decide)).1 (by decide) (by decide) (by rfl)
    have h1 : ((XAieTracing.addEvent.TraceE exampleDev lateSession XAIE_CORE_MOD 11 rawEvent
        0).reserve exampleDev lateSession.TraceCntr).map Prod.fst = some XAIE_OK := by rfl
    have h2 : (((XAieTracing.addEvent.TraceE exampleDev lateSession XAIE_CORE_MOD 11 rawEvent
        0).reserve exampleDev lateSession.TraceCntr).bind
          (fun r => r.2.2.start exampleDev r.2.1)).map (fun q => (q.1, q.2.2.Slot)) =
        some (XAIE_OK, 1) := by rfl
    rw [hR] at h1 h2
    have hRC : RC = XAIE_OK := by simpa using h1
    obtain ⟨RC1, c2, e3, hS, _, hSok⟩ := hok hRC
    simp only [Option.some_bind, hS, Option.map_some', Option.some.injEq, Prod.mk.injEq] at h2
    obtain ⟨t1, ha, hb, _, _, _, _, _, hc⟩ := hSok h2.1
    refine ⟨t1, e3, ha, hb, h2.2, ?_⟩
    rw [hc, h2.2]
    rfl
  · obtain ⟨RC, c1, e2, hR, hfail, _⟩ :=
      (C11_addEvent_late exampleDev lateSession XAIE_MEM_MOD 12 rawEventNoBc 0 (by decide)
        (by decide) (by decide)).1 (by decide) (by decide) (by rfl)
    have h1 : ((XAieTracing.addEvent.TraceE exampleDev lateSession XAIE_MEM_MOD 12 rawEventNoBc
        0).reserve exampleDev lateSession.TraceCntr).map Prod.fst = some (XAIE_OTHER 7) := by rfl
    rw [hR] at h1
    have hRC : RC = XAIE_OTHER 7 := by simpa using h1
    subst hRC
    exact hfail (by decide)
  · obtain ⟨RC, c1, e2, hR, _, hok⟩ :=
      (C11_addEvent_late noBroadcastDev lateSession XAIE_MEM_MOD 12 rawEvent 0 (by decide)
        (by decide) (by decide)).1 (by decide) (by decide) (by rfl)
    have h1 : ((XAieTracing.addEvent.TraceE noBroadcastDev lateSession XAIE_MEM_MOD 12 rawEvent
        0).reserve noBroadcastDev lateSession.TraceCntr).map Prod.fst = some XAIE_OK := by rfl
    have h2 : (((XAieTracing.addEvent.TraceE noBroadcastDev lateSession XAIE_MEM_MOD 12 rawEvent
        0).reserve noBroadcastDev lateSession.TraceCntr).bind
          (fun r => r.2.2.start noBroadcastDev r.2.1)).map Prod.fst =
        some (XAIE_OTHER 5) := by rfl
    rw [hR] at h1 h2
    have hRC : RC = XAIE_OK := by simpa using h1
    obtain ⟨RC1, c2, e3, hS, hSfail, _⟩ := hok hRC
    simp only [Option.some_bind, hS, Option.map_some', Option.some.injEq] at h2
    subst h2
    exact hSfail (by decide)

/-! ## The event of a trace event -/

/-- A failed `setEvent` leaves the event as it is. -/
theorem setEvent_fail_eq (dev : XAieDev) (e : XAieTraceEvent) (M : XAie_ModuleType)
    (E : XAie_Events) (h : (e.setEvent dev M E).1 ≠ XAIE_OK) : (e.setEvent dev M E).2 = e := by
  by_cases h1 : dev.XAie_EventLogicalToPhysicalConv e.Loc M E = XAIE_OK
  · by_cases h2 : e.State.Running = true
    · simp [XAieTraceEvent.setEvent, h1, h2]
    · by_cases h3 : e.State.Reserved = true ∧ M ≠ e.Mod
      · simp [XAieTraceEvent.setEvent, h1, h2, h3]
      · simp [XAieTraceEvent.setEvent, h1, h2, h3] at h
  · simp [XAieTraceEvent.setEvent, h1]

/-- When `setEvent` fails. -/
theorem setEvent_fail_iff (dev : XAieDev) (e : XAieTraceEvent) (M : XAie_ModuleType)
    (E : XAie_Events) :
    (e.setEvent dev M E).1 ≠ XAIE_OK ↔
      (dev.XAie_EventLogicalToPhysicalConv e.Loc M E ≠ XAIE_OK ∨ e.State.Running = true ∨
        (e.State.Reserved = true ∧ M ≠ e.Mod)) := by
  by_cases h1 : dev.XAie_EventLogicalToPhysicalConv e.Loc M E = XAIE_OK
  · by_cases h2 : e.State.Running = true
    · simp [XAieTraceEvent.setEvent, h1, h2]
    · by_cases h3 : e.State.Reserved = true ∧ M ≠ e.Mod
      · simp [XAieTraceEvent.setEvent, h1, h2, h3]
      · simp [XAieTraceEvent.setEvent, h1, h2, h3]
  · simp [XAieTraceEvent.setEvent, h1]

/-- `initialize` never changes the Configured flag. -/
theorem initialise_Configured (dev : XAieDev) (e : XAieTraceEvent) (c : XAieTraceCntr)
    (E0 : XAie_Events) :
    (e.initialise dev c E0).2.State.Configured = e.State.Configured := by
  unfold XAieTraceEvent.initialise
  dsimp only
  split_ifs <;> rfl

/-- The pair `setEvent` and `getEvent`.  After a successful `setEvent(M, E)`, `getEvent`
returns `XAIE_OK` and exactly `M` and `E`.  `setEvent` fails exactly when the driver
rejects the event for the module, or the event is Running, or it is Reserved
under another module, and then the event, with its committed module and event,
is unchanged.  On a bound trace event whose Configured flag is clear `getEvent`
fails and writes nothing; the flag is clear on every new event, also after
`initialize` and after failed `setEvent` calls.  On an event that was never
bound to a trace control the failure branch reads the module through the
unbound pointer and has no result. -/
theorem setEvent_getEvent (dev : XAieDev) (e : XAieTraceEvent) (M : XAie_ModuleType)
    (E : XAie_Events) :
    ((e.setEvent dev M E).1 = XAIE_OK →
      ∀ M0 E0, (e.setEvent dev M E).2.getEvent M0 E0 = some (XAIE_OK, M, E)) ∧
    ((e.setEvent dev M E).1 ≠ XAIE_OK ↔
      (dev.XAie_EventLogicalToPhysicalConv e.Loc M E ≠ XAIE_OK ∨ e.State.Running = true ∨
        (e.State.Reserved = true ∧ M ≠ e.Mod))) ∧
    ((e.setEvent dev M E).1 ≠ XAIE_OK → (e.setEvent dev M E).2 = e) ∧
    (e.State.Configured = false → e.TraceCntr = true →
      ∀ M0 E0, e.getEvent M0 E0 = some (XAIE_ERR, M0, E0)) ∧
    (e.State.Configured = false → e.TraceCntr = false → ∀ M0 E0, e.getEvent M0 E0 = none) ∧
    (∀ (L : XAie_LocType) (raw : XAieTraceEvent) (c : XAieTraceCntr) (E1 : XAie_Events),
      (XAieTraceEvent.new L raw).State.Configured = false ∧
      ((XAieTraceEvent.new L raw).initialise dev c E1).2.State.Configured = false ∧
      (((XAieTraceEvent.new L raw).initialise dev c E1).1 = XAIE_OK →
        (((XAieTraceEvent.new L raw).initialise dev c E1).2.setEvent dev M E).1 ≠ XAIE_OK →
        ∀ M0 E0,
          (((XAieTraceEvent.new L raw).initialise dev c E1).2.setEvent dev M E).2.getEvent M0 E0 =
            some (XAIE_ERR, M0, E0))) := by
  have hget : ∀ e1 : XAieTraceEvent, e1.State.Configured = false → e1.TraceCntr = true →
      ∀ M0 E0, e1.getEvent M0 E0 = some (XAIE_ERR, M0, E0) := by
    intro e1 hc hb M0 E0
    simp [XAieTraceEvent.getEvent, hc, hb]
  refine ⟨?_, setEvent_fail_iff dev e M E, setEvent_fail_eq dev e M E, hget e, ?_, ?_⟩
  · intro hok M0 E0
    rw [setEvent_ok_inv dev e M E hok]
    simp [XAieTraceEvent.getEvent]
  · intro hc hb M0 E0
    simp [XAieTraceEvent.getEvent, hc, hb]
  · intro L raw c E1
    have h0 : (XAieTraceEvent.new L raw).State.Configured = false := rfl
    have h1 : ((XAieTraceEvent.new L raw).initialise dev c E1).2.State.Configured = false :=
      (initialise_Configured dev _ c E1).trans h0
    refine ⟨h0, h1, ?_⟩
    intro hinit hfail M0 E0
    rw [setEvent_fail_eq dev _ M E hfail]
    exact hget _ h1 (initialise_ok_bound dev _ c E1 hinit) M0 E0

/-- C21, the code at the failing input.  A newly constructed trace event, before
`initialize`, has its Configured flag clear and its `TraceCntr` pointer unbound;
no `setEvent` has succeeded on it.  `getEvent` takes its failure branch, whose log
expression reads the module through the unbound pointer: the call has no
result (the claim, and the comment of `getEvent`: it returns a failure).  The
same holds after a failed `setEvent` on the new event, and for a new event on
any tile.  The rest of the claim holds: after a successful `setEvent(M, E)`,
`getEvent` returns `XAIE_OK` and exactly `M` and `E`; `setEvent` fails exactly
when the driver rejects the event for the module, or the event is Running, or
it is Reserved under another module, and then the event is unchanged; and on an
event bound to a trace control whose Configured flag is clear `getEvent` returns
`XAIE_ERR` and writes nothing. -/
theorem C21_getEvent_at_failing_input :
    newEvent.State.Configured = false ∧ newEvent.TraceCntr = false ∧
    (∀ M0 E0, newEvent.getEvent M0 E0 = none) ∧
    (newEvent.setEvent fussyDev XAIE_CORE_MOD 666).1 = XAIE_INVALID_ARGS ∧
    (∀ M0 E0, (newEvent.setEvent fussyDev XAIE_CORE_MOD 666).2.getEvent M0 E0 = none) ∧
    (∀ (L : XAie_LocType) (raw : XAieTraceEvent) (M0 : XAie_ModuleType) (E0 : XAie_Events),
      (XAieTraceEvent.new L raw).getEvent M0 E0 = none) ∧
    (coreEventBound.setEvent exampleDev XAIE_CORE_MOD 10).1 = XAIE_OK ∧
    (coreEventBound.setEvent exampleDev XAIE_CORE_MOD 10).2.getEvent XAIE_PL_MOD 0 =
      some (XAIE_OK, XAIE_CORE_MOD, 10) ∧
    coreEventBound.getEvent XAIE_PL_MOD 0 = some (XAIE_ERR, XAIE_PL_MOD, 0) ∧
    (∀ (dev : XAieDev) (e : XAieTraceEvent) (M : XAie_ModuleType) (E : XAie_Events),
      ((e.setEvent dev M E).1 = XAIE_OK →
        ∀ M0 E0, (e.setEvent dev M E).2.getEvent M0 E0 = some (XAIE_OK, M, E)) ∧
      ((e.setEvent dev M E).1 ≠ XAIE_OK ↔
        (dev.XAie_EventLogicalToPhysicalConv e.Loc M E ≠ XAIE_OK ∨ e.State.Running = true ∨
          (e.State.Reserved = true ∧ M ≠ e.Mod))) ∧
      ((e.setEvent dev M E).1 ≠ XAIE_OK → (e.setEvent dev M E).2 = e) ∧
      (e.State.Configured = false → e.TraceCntr = true →
        ∀ M0 E0, e.getEvent M0 E0 = some (XAIE_ERR, M0, E0))) := by
  have hnew : ∀ (L : XAie_LocType) (raw : XAieTraceEvent) (M0 : XAie_ModuleType)
      (E0 : XAie_Events), (XAieTraceEvent.new L raw).getEvent M0 E0 = none := by
    intro L raw M0 E0
    exact (setEvent_getEvent exampleDev (XAieTraceEvent.new L raw) M0 E0).2.2.2.2.1 rfl rfl
      M0 E0
  refine ⟨by decide, by decide, hnew _ _, by decide, ?_, hnew, by decide, by decide, by decide,
    ?_⟩
  · intro M0 E0
    rw [setEvent_fail_eq fussyDev newEvent XAIE_CORE_MOD 666 (by decide)]
    exact hnew _ _ M0 E0
  · intro dev e M E
    have h := setEvent_getEvent dev e M E
    exact ⟨h.1, h.2.1, h.2.2.1, h.2.2.2.1⟩

/-! ## The start hook of the trace control -/

/-- The loop of `_start` from index `i` with `n` iterations left, `i + n = 8`:
it appends the reserved indices among `i, …, i + n - 1`, in order, and their
events. -/
theorem start_loop_range (c : XAieTraceCntr) (n i : Nat) (v : List XAie_Events × List Nat)
    (h : i + n = 8) :
    XAieTraceCntr._start.loop c n i v =
      (v.1 ++ ((List.range' i n).filter (fun j => c.TraceSlotBits.testBit j)).map
          (fun j => if hj : j < 8 then c.Events ⟨j, hj⟩ else 0),
        v.2 ++ (List.range' i n).filter (fun j => c.TraceSlotBits.testBit j)) := by
  induction n generalizing i v with
  | zero => simp [XAieTraceCntr._start.loop]
  | succ n ih =>
    have hi : i < 8 := by omega
    rw [XAieTraceCntr._start.loop, dif_pos hi]
    by_cases hb : c.TraceSlotBits.testBit i = true
    · have hne : c.TraceSlotBits &&& (1 <<< i) ≠ 0 := by
        rw [Ne, land_shift_eq_zero_iff]; simp [hb]
      rw [if_pos hne, ih (i + 1) _ (by omega)]
      simp [List.range'_succ, List.filter_cons, hb, hi]
    · have hb0 : c.TraceSlotBits.testBit i = false := by simpa using hb
      have hz : ¬ (c.TraceSlotBits &&& (1 <<< i) ≠ 0) := by
        rw [Ne, land_shift_eq_zero_iff]; simp [hb0]
      rw [if_neg hz, ih (i + 1) _ (by omega)]
      simp [List.range'_succ, List.filter_cons, hb0]

/-- The two lists `_start` gathers: the reserved slots in increasing order, and
their events. -/
theorem start_loop_eq (c : XAieTraceCntr) :
    XAieTraceCntr._start.loop c 8 0 ([], []) =
      (((List.finRange 8).filter (fun i => c.TraceSlotBits.testBit i.val)).map c.Events,
        ((List.finRange 8).filter (fun i => c.TraceSlotBits.testBit i.val)).map Fin.val) := by
  rw [start_loop_range c 8 0 _ (by norm_num)]
  have hv : ((List.finRange 8).filter (fun i => c.TraceSlotBits.testBit i.val)).map Fin.val =
      (List.range' 0 8).filter (fun j => c.TraceSlotBits.testBit j) := by
    rw [← List.range_eq_range', ← List.map_coe_finRange, List.filter_map]
    rfl
  have he : ((List.finRange 8).filter (fun i => c.TraceSlotBits.testBit i.val)).map c.Events =
      (((List.finRange 8).filter (fun i => c.TraceSlotBits.testBit i.val)).map Fin.val).map
        (fun j => if hj : j < 8 then c.Events ⟨j, hj⟩ else 0) := by
    rw [List.map_map]
    apply List.map_congr_left
    intro i _
    simp
  rw [he, hv]
  simp

/-- The reserved slots, in increasing order, are as many as the bitmap has set
bits among the bits 0 to 7. -/
theorem reserved_slots_length (c : XAieTraceCntr) :
    ((List.finRange 8).filter (fun i => c.TraceSlotBits.testBit i.val)).length =
      (Finset.univ.filter (fun i : Fin 8 => c.TraceSlotBits.testBit i.val = true)).card := by
  simp [Fin.univ_def, Finset.card, Finset.filter]

/-- The three ways `_start` can end, given the lists its loop gathers. -/
theorem start_hook_cases (dev : XAieDev) (c : XAieTraceCntr) (vE : List XAie_Events)
    (vSlot : List Nat) (hv : XAieTraceCntr._start.loop c 8 0 ([], []) = (vE, vSlot)) :
    (dev.XAie_TraceEventList c.Loc c.Mod vE vSlot ≠ XAIE_OK →
      c._start dev =
        (dev.XAie_TraceEventList c.Loc c.Mod vE vSlot, c,
          [DriverCall.XAie_TraceEventList c.Loc c.Mod vE vSlot])) ∧
    (dev.XAie_TraceEventList c.Loc c.Mod vE vSlot = XAIE_OK →
      dev.XAie_TracePktConfig c.Loc c.Mod c.Pkt ≠ XAIE_OK →
      c._start dev =
        (dev.XAie_TracePktConfig c.Loc c.Mod c.Pkt, c,
          [DriverCall.XAie_TraceEventList c.Loc c.Mod vE vSlot,
            DriverCall.XAie_TracePktConfig c.Loc c.Mod c.Pkt])) ∧
    (dev.XAie_TraceEventList c.Loc c.Mod vE vSlot = XAIE_OK →
      dev.XAie_TracePktConfig c.Loc c.Mod c.Pkt = XAIE_OK →
      c._start dev =
        (dev.XAie_TraceControlConfig c.Loc c.Mod c.StartEvent c.StopEvent c.Mode, c,
          [DriverCall.XAie_TraceEventList c.Loc c.Mod vE vSlot,
            DriverCall.XAie_TracePktConfig c.Loc c.Mod c.Pkt,
            DriverCall.XAie_TraceControlConfig c.Loc c.Mod c.StartEvent c.StopEvent c.Mode])) ∧
    ((c._start dev).1 = XAIE_OK ↔
      (dev.XAie_TraceEventList c.Loc c.Mod vE vSlot = XAIE_OK ∧
        dev.XAie_TracePktConfig c.Loc c.Mod c.Pkt = XAIE_OK ∧
        dev.XAie_TraceControlConfig c.Loc c.Mod c.StartEvent c.StopEvent c.Mode = XAIE_OK)) ∧
    (c._start dev).2.1 = c := by
  by_cases h1 : dev.XAie_TraceEventList c.Loc c.Mod vE vSlot = XAIE_OK
  · by_cases h2 : dev.XAie_TracePktConfig c.Loc c.Mod c.Pkt = XAIE_OK
    · simp [XAieTraceCntr._start, hv, h1, h2]
    · simp [XAieTraceCntr._start, hv, h1, h2]
  · simp [XAieTraceCntr._start, hv, h1]


/-- C25: the start hook `_start` of the trace control.  With `L` the slots whose
bit is set in the bitmap, in increasing order, the hook calls
`XAie_TraceEventList` with the events `Events[i]` and the indices `i` for `i` in
`L`: the index list is strictly increasing, holds exactly the indices with a set
bit, and both lists are as long as the number of set bits.  If that call fails
its error is returned and nothing else is called; otherwise `XAie_TracePktConfig`
is called, and if that fails its error is returned and nothing else is called;
otherwise `XAie_TraceControlConfig` is called and its result returned.  The hook
returns `XAIE_OK` exactly when all three calls do, and it leaves the object, with
its bitmap and slot table, as it was. -/
theorem C25_start_hook (dev : XAieDev) (c : XAieTraceCntr) :
    ∃ L : List (Fin 8),
      L = (List.finRange 8).filter (fun i => c.TraceSlotBits.testBit i.val) ∧
      (L.map Fin.val).Pairwise (fun a b => a < b) ∧
      (∀ i : Fin 8, i ∈ L ↔ c.TraceSlotBits.testBit i.val = true) ∧
      (L.map c.Events).length =
        (Finset.univ.filter (fun i : Fin 8 => c.TraceSlotBits.testBit i.val = true)).card ∧
      (L.map Fin.val).length =
        (Finset.univ.filter (fun i : Fin 8 => c.TraceSlotBits.testBit i.val = true)).card ∧
      (dev.XAie_TraceEventList c.Loc c.Mod (L.map c.Events) (L.map Fin.val) ≠ XAIE_OK →
        c._start dev =
          (dev.XAie_TraceEventList c.Loc c.Mod (L.map c.Events) (L.map Fin.val), c,
            [DriverCall.XAie_TraceEventList c.Loc c.Mod (L.map c.Events) (L.map Fin.val)])) ∧
      (dev.XAie_TraceEventList c.Loc c.Mod (L.map c.Events) (L.map Fin.val) = XAIE_OK →
        dev.XAie_TracePktConfig c.Loc c.Mod c.Pkt ≠ XAIE_OK →
        c._start dev =
          (dev.XAie_TracePktConfig c.Loc c.Mod c.Pkt, c,
            [DriverCall.XAie_TraceEventList c.Loc c.Mod (L.map c.Events) (L.map Fin.val),
              DriverCall.XAie_TracePktConfig c.Loc c.Mod c.Pkt])) ∧
      (dev.XAie_TraceEventList c.Loc c.Mod (L.map c.Events) (L.map Fin.val) = XAIE_OK →
        dev.XAie_TracePktConfig c.Loc c.Mod c.Pkt = XAIE_OK →
        c._start dev =
          (dev.XAie_TraceControlConfig c.Loc c.Mod c.StartEvent c.StopEvent c.Mode, c,
            [DriverCall.XAie_TraceEventList c.Loc c.Mod (L.map c.Events) (L.map Fin.val),
              DriverCall.XAie_TracePktConfig c.Loc c.Mod c.Pkt,
              DriverCall.XAie_TraceControlConfig c.Loc c.Mod c.StartEvent c.StopEvent
                c.Mode])) ∧
      ((c._start dev).1 = XAIE_OK ↔
        (dev.XAie_TraceEventList c.Loc c.Mod (L.map c.Events) (L.map Fin.val) = XAIE_OK ∧
          dev.XAie_TracePktConfig c.Loc c.Mod c.Pkt = XAIE_OK ∧
          dev.XAie_TraceControlConfig c.Loc c.Mod c.StartEvent c.StopEvent c.Mode = XAIE_OK)) ∧
      (c._start dev).2.1 = c := by
  obtain ⟨e1, e2, e3, e4, e5⟩ := start_hook_cases dev c _ _ (start_loop_eq c)
  refine ⟨_, rfl, ?_, ?_, ?_, ?_, e1, e2, e3, e4, e5⟩
  · exact ((List.pairwise_lt_finRange 8).filter _).map Fin.val (fun _ _ h => h)
  · intro i
    simp [List.mem_filter, List.mem_finRange]
  · rw [List.length_map]; exact reserved_slots_length c
  · rw [List.length_map]; exact reserved_slots_length c

/-- C25, at concrete inputs: with the slots 0, 1 and 3 taken, on a device whose
packet configuration fails with error 9, the hook calls `XAie_TraceEventList`
with the three events and the slots `[0, 1, 3]`, then `XAie_TracePktConfig`, and
returns error 9 without calling `XAie_TraceControlConfig`. -/
theorem C25_start_hook_witness :
    noPktDev.XAie_TraceEventList busyCntr.Loc busyCntr.Mod [77, 77, 77] [0, 1, 3] = XAIE_OK ∧
    noPktDev.XAie_TracePktConfig busyCntr.Loc busyCntr.Mod busyCntr.Pkt ≠ XAIE_OK ∧
    busyCntr._start noPktDev =
      (XAIE_OTHER 9, busyCntr,
        [DriverCall.XAie_TraceEventList ⟨1, 1⟩ XAIE_CORE_MOD [77, 77, 77] [0, 1, 3],
          DriverCall.XAie_TracePktConfig ⟨1, 1⟩ XAIE_CORE_MOD ⟨0, 0⟩]) :=
  match C25_start_hook noPktDev busyCntr with
  | ⟨_, hL, _, _, _, _, _, h2, _, _, _⟩ =>
    ⟨by decide, by decide, by
      subst hL
      exact h2 (by decide) (by decide)⟩

/-! ## The Configured flag of the trace control -/

/-- The loop of `changeToConfigured` from index `i` with `n` iterations left,
`i + n = 8`: it finds a slot exactly when some reserved slot from `i` on holds
an event other than the "none" event of the module. -/
theorem changeToConfigured_loop_iff (dev : XAieDev) (c : XAieTraceCntr) (n i : Nat)
    (h : i + n = 8) :
    XAieTraceCntr.changeToConfigured.loop dev c n i = true ↔
      ∃ j : Fin 8, i ≤ j.val ∧ c.TraceSlotBits.testBit j.val = true ∧
        c.Events j ≠ dev.XAie_EventPhysicalToLogicalConv c.Loc c.Mod 0 := by
  induction n generalizing i with
  | zero =>
    simp only [XAieTraceCntr.changeToConfigured.loop, Bool.false_eq_true, false_iff]
    rintro ⟨j, hj, _⟩
    have := j.isLt
    omega
  | succ n ih =>
    have hi : i < 8 := by omega
    rw [XAieTraceCntr.changeToConfigured.loop, dif_pos hi]
    by_cases hb : c.TraceSlotBits.testBit i = true
    · have hz : ¬ c.TraceSlotBits &&& (1 <<< i) = 0 := by
        rw [land_shift_eq_zero_iff]; simp [hb]
      rw [if_neg hz]
      by_cases he : c.Events ⟨i, hi⟩ ≠ dev.XAie_EventPhysicalToLogicalConv c.Loc c.Mod 0
      · rw [if_pos he]
        simp only [true_iff]
        exact ⟨⟨i, hi⟩, le_refl _, hb, he⟩
      · rw [if_neg he, ih (i + 1) (by omega)]
        constructor
        · rintro ⟨j, hj, hjb, hje⟩
          exact ⟨j, by omega, hjb, hje⟩
        · rintro ⟨j, hj, hjb, hje⟩
          refine ⟨j, ?_, hjb, hje⟩
          rcases Nat.lt_or_ge i j.val with hlt | hge
          · exact hlt
          · have hji : j = ⟨i, hi⟩ := Fin.ext (by simp; omega)
            rw [hji] at hje
            exact absurd hje he
    · have hb0 : c.TraceSlotBits.testBit i = false := by simpa using hb
      have hz : c.TraceSlotBits &&& (1 <<< i) = 0 := by
        rw [land_shift_eq_zero_iff]; exact hb0
      rw [if_pos hz, ih (i + 1) (by omega)]
      constructor
      · rintro ⟨j, hj, hjb, hje⟩
        exact ⟨j, by omega, hjb, hje⟩
      · rintro ⟨j, hj, hjb, hje⟩
        refine ⟨j, ?_, hjb, hje⟩
        rcases Nat.lt_or_ge i j.val with hlt | hge
        · exact hlt
        · have hji : j.val = i := by omega
          rw [hji] at hjb
          exact absurd hjb hb

/-- `changeToConfigured` on a control that is not Configured: afterwards the flag
is set exactly when the start event is not `XAIE_EVENT_NONE_CORE` and some
reserved slot holds an event other than the "none" event of the module.  On a
Configured control it does nothing. -/
theorem changeToConfigured_flag (dev : XAieDev) (c : XAieTraceCntr) :
    (c.State.Configured = false →
      ((XAieTraceCntr.changeToConfigured dev c).State.Configured = true ↔
        XAieTraceCntr.passesConfiguredTest dev (XAieTraceCntr.changeToConfigured dev c))) ∧
    (c.State.Configured = true → XAieTraceCntr.changeToConfigured dev c = c) := by
  constructor
  · intro hc
    have hsetup : XAieTraceCntr.passesConfiguredTest dev (XAieTraceCntr.changeToConfigured dev c) ↔
        XAieTraceCntr.passesConfiguredTest dev c := by
      obtain ⟨b, hb⟩ := cntr_changeToConfigured_eq dev c
      rw [hb]
    rw [hsetup]
    have hloop := changeToConfigured_loop_iff dev c 8 0 (by norm_num)
    by_cases hs : c.StartEvent ≠ dev.XAIE_EVENT_NONE_CORE
    · by_cases hl : XAieTraceCntr.changeToConfigured.loop dev c 8 0 = true
      · obtain ⟨j, _, hjb, hje⟩ := hloop.1 hl
        have hne : c.TraceSlotBits ≠ 0 := by
          intro h0
          rw [h0] at hjb
          simp at hjb
        have : (XAieTraceCntr.changeToConfigured dev c).State.Configured = true := by
          simp [XAieTraceCntr.changeToConfigured, hc, hs, hne, hl]
        simp only [this, true_iff]
        exact ⟨hs, j, hjb, hje⟩
      · have hn : ¬ ∃ j : Fin 8, c.TraceSlotBits.testBit j.val = true ∧
            c.Events j ≠ dev.XAie_EventPhysicalToLogicalConv c.Loc c.Mod 0 := by
          rintro ⟨j, hjb, hje⟩
          exact hl (hloop.2 ⟨j, Nat.zero_le _, hjb, hje⟩)
        have : XAieTraceCntr.changeToConfigured dev c = c := by
          simp [XAieTraceCntr.changeToConfigured, hl]
        rw [this, hc]
        simp only [Bool.false_eq_true, false_iff]
        exact fun h => hn h.2
    · have : XAieTraceCntr.changeToConfigured dev c = c := by
        simp [XAieTraceCntr.changeToConfigured, hs]
      rw [this, hc]
      simp only [Bool.false_eq_true, false_iff]
      exact fun h => hs h.1
  · intro hc
    simp [XAieTraceCntr.changeToConfigured, hc]

/-- What `setTraceEvent` leaves behind is `changeToConfigured` of a control with
the flags the control had before the call. -/
theorem setTraceEvent_recomputes (dev : XAieDev) (c : XAieTraceCntr) (Slot : Nat)
    (E : XAie_Events) :
    ∃ c0 : XAieTraceCntr, c0.State = c.State ∧
      (c.setTraceEvent dev Slot E).2 = XAieTraceCntr.changeToConfigured dev c0 := by
  by_cases h : c.State.Initialized = true ∧ c.State.Running = false ∧ Slot < 8 ∧
      c.TraceSlotBits.testBit Slot = true
  · obtain ⟨hi, hr, hs, hbit⟩ := h
    rw [setTraceEvent_ok dev c E hi hr hs hbit]
    exact ⟨{ c with
      Events := Function.update c.Events ⟨Slot, hs⟩
        (if E = dev.XAIE_EVENT_NONE_CORE then
          dev.XAie_EventPhysicalToLogicalConv c.Loc c.Mod 0 else E) }, rfl, rfl⟩
  · exact ⟨c, rfl, (setTraceEvent_fail dev c Slot E h).2⟩

/-- The Configured flag under the setters.  On an Initialized control that is not
Running: if the flag is clear before the call, then after any `setTraceEvent`,
after `setMode`, after `setPkt` and after a successful `setCntrEvent` the flag is
set exactly when the test of `changeToConfigured` passes, and a failed
`setCntrEvent` leaves the control unchanged; if the flag is set before the call,
it is set after each of these calls. -/
theorem configured_latch (dev : XAieDev) (c : XAieTraceCntr)
    (hi : c.State.Initialized = true) (hr : c.State.Running = false) :
    (c.State.Configured = false →
      (∀ Slot E, (c.setTraceEvent dev Slot E).2.State.Configured = true ↔
        XAieTraceCntr.passesConfiguredTest dev (c.setTraceEvent dev Slot E).2) ∧
      (∀ M, (c.setMode dev M).2.State.Configured = true ↔
        XAieTraceCntr.passesConfiguredTest dev (c.setMode dev M).2) ∧
      (∀ P, (c.setPkt dev P).2.State.Configured = true ↔
        XAieTraceCntr.passesConfiguredTest dev (c.setPkt dev P).2) ∧
      (∀ StartE StopE, (c.setCntrEvent dev StartE StopE).1 = XAIE_OK →
        ((c.setCntrEvent dev StartE StopE).2.State.Configured = true ↔
          XAieTraceCntr.passesConfiguredTest dev (c.setCntrEvent dev StartE StopE).2)) ∧
      (∀ StartE StopE, (c.setCntrEvent dev StartE StopE).1 ≠ XAIE_OK →
        (c.setCntrEvent dev StartE StopE).2 = c)) ∧
    (c.State.Configured = true →
      (∀ Slot E, (c.setTraceEvent dev Slot E).2.State.Configured = true) ∧
      (∀ M, (c.setMode dev M).2.State.Configured = true) ∧
      (∀ P, (c.setPkt dev P).2.State.Configured = true) ∧
      (∀ StartE StopE, (c.setCntrEvent dev StartE StopE).2.State.Configured = true)) := by
  have hr1 : ¬ c.State.Running = true := by simp [hr]
  have hmode : ∀ M, (c.setMode dev M).2 =
      XAieTraceCntr.changeToConfigured dev { c with Mode := M } := by
    intro M; simp [XAieTraceCntr.setMode, hi, hr]
  have hpkt : ∀ P, (c.setPkt dev P).2 =
      XAieTraceCntr.changeToConfigured dev { c with Pkt := P } := by
    intro P; simp [XAieTraceCntr.setPkt, hi, hr]
  have hcntr : ∀ StartE StopE, (c.setCntrEvent dev StartE StopE).1 = XAIE_OK →
      (c.setCntrEvent dev StartE StopE).2 =
        XAieTraceCntr.changeToConfigured dev { c with StartEvent := StartE, StopEvent := StopE } := by
    intro StartE StopE h
    unfold XAieTraceCntr.setCntrEvent at h ⊢
    dsimp only at h ⊢
    split_ifs at h ⊢ <;> first | rfl | exact absurd h (by simp_all)
  have hcntr1 : ∀ StartE StopE, (c.setCntrEvent dev StartE StopE).1 ≠ XAIE_OK →
      (c.setCntrEvent dev StartE StopE).2 = c := by
    intro StartE StopE h
    unfold XAieTraceCntr.setCntrEvent at h ⊢
    dsimp only at h ⊢
    split_ifs at h ⊢ <;> first | rfl | exact absurd rfl h | simp_all
  constructor
  · intro hc
    refine ⟨?_, ?_, ?_, ?_, hcntr1⟩
    · intro Slot E
      obtain ⟨c0, hs, he⟩ := setTraceEvent_recomputes dev c Slot E
      rw [he]
      exact (changeToConfigured_flag dev c0).1 (by rw [hs]; exact hc)
    · intro M
      rw [hmode M]
      exact (changeToConfigured_flag dev { c with Mode := M }).1 hc
    · intro P
      rw [hpkt P]
      exact (changeToConfigured_flag dev { c with Pkt := P }).1 hc
    · intro StartE StopE h
      rw [hcntr StartE StopE h]
      exact (changeToConfigured_flag dev { c with StartEvent := StartE, StopEvent := StopE }).1 hc
  · intro hc
    refine ⟨?_, ?_, ?_, ?_⟩
    · intro Slot E
      obtain ⟨c0, hs, he⟩ := setTraceEvent_recomputes dev c Slot E
      rw [he, (changeToConfigured_flag dev c0).2 (by rw [hs]; exact hc), hs]
      exact hc
    · intro M
      rw [hmode M, (changeToConfigured_flag dev { c with Mode := M }).2 hc]
      exact hc
    · intro P
      rw [hpkt P, (changeToConfigured_flag dev { c with Pkt := P }).2 hc]
      exact hc
    · intro StartE StopE
      by_cases h : (c.setCntrEvent dev StartE StopE).1 = XAIE_OK
      · rw [hcntr StartE StopE h,
          (changeToConfigured_flag dev { c with StartEvent := StartE, StopEvent := StopE }).2 hc]
        exact hc
      · rw [hcntr1 StartE StopE h]
        exact hc

/-- Where the "none" event of the module of the control is `XAIE_EVENT_NONE_CORE`,
the test of `changeToConfigured` is the condition of the spec. -/
theorem passesConfiguredTest_iff_spec (dev : XAieDev) (c : XAieTraceCntr)
    (h : dev.XAie_EventPhysicalToLogicalConv c.Loc c.Mod 0 = dev.XAIE_EVENT_NONE_CORE) :
    XAieTraceCntr.passesConfiguredTest dev c ↔ XAieTraceCntr.specConfigured dev c := by
  unfold XAieTraceCntr.passesConfiguredTest XAieTraceCntr.specConfigured
  rw [h]

/-- C22, the code at the failing inputs.  The control `memTileCntr`, newly
constructed on a memory tile, is Initialized, not Running and not Configured,
and its start event is the default, the "none" event 1000 of the memory module:
no start event is set.  After `reserveTraceSlot` and `setTraceEvent(0, 10)` the
start event is still that default and Configured is true (the claim: false):
`changeToConfigured` compares the start event with `XAIE_EVENT_NONE_CORE`, the
constant of the core module, and the slots with the "none" event of the module of
the control.  On the core-module control `armedCntr`, whose start event is set,
`setTraceEvent(0, 10)` sets Configured, and after
`setTraceEvent(0, XAIE_EVENT_NONE_CORE)` slot 0 holds the "none" event again, no
reserved slot holds another event, and Configured is still true (the claim:
false): the flag is only ever set.  In general, on an Initialized control that is
not Running, a setter call on a control whose flag is clear leaves the flag set
exactly when the test of `changeToConfigured` passes, a setter call on a control
whose flag is set leaves it set, and the test is the condition of the spec where
the "none" event of the module is `XAIE_EVENT_NONE_CORE`. -/
theorem C22_configured_at_failing_input :
    memTileCntr.Mod = XAIE_MEM_MOD ∧ memTileCntr.State.Initialized = true ∧
    memTileCntr.State.Running = false ∧ memTileCntr.State.Configured = false ∧
    memTileDev.XAie_EventPhysicalToLogicalConv memTileCntr.Loc memTileCntr.Mod 0 = 1000 ∧
    memTileDev.XAIE_EVENT_NONE_CORE = 0 ∧
    memTileCntr.StartEvent = 1000 ∧
    (memTileCntr.reserveTraceSlot 0).1 = XAIE_OK ∧ (memTileCntr.reserveTraceSlot 0).2.2 = 0 ∧
    (memTileArmed.setTraceEvent memTileDev 0 10).1 = XAIE_OK ∧
    (memTileArmed.setTraceEvent memTileDev 0 10).2.StartEvent = 1000 ∧
    (memTileArmed.setTraceEvent memTileDev 0 10).2.State.Configured = true ∧
    ¬ XAieTraceCntr.specConfigured memTileDev (memTileArmed.setTraceEvent memTileDev 0 10).2 ∧
    armedCntr.State.Initialized = true ∧ armedCntr.State.Running = false ∧
    armedCntr.State.Configured = false ∧ armedCntr.StartEvent = 20 ∧
    (armedCntr.setTraceEvent exampleDev 0 10).2.State.Configured = true ∧
    ((armedCntr.setTraceEvent exampleDev 0 10).2.setTraceEvent exampleDev 0 0).1 = XAIE_OK ∧
    ((armedCntr.setTraceEvent exampleDev 0 10).2.setTraceEvent exampleDev 0 0).2.Events 0 = 0 ∧
    ((armedCntr.setTraceEvent exampleDev 0 10).2.setTraceEvent exampleDev 0
      0).2.State.Configured = true ∧
    ¬ XAieTraceCntr.specConfigured exampleDev
      ((armedCntr.setTraceEvent exampleDev 0 10).2.setTraceEvent exampleDev 0 0).2 ∧
    (∀ (dev : XAieDev) (c : XAieTraceCntr), c.State.Initialized = true →
      c.State.Running = false →
      (c.State.Configured = false →
        (∀ Slot E, (c.setTraceEvent dev Slot E).2.State.Configured = true ↔
          XAieTraceCntr.passesConfiguredTest dev (c.setTraceEvent dev Slot E).2) ∧
        (∀ M, (c.setMode dev M).2.State.Configured = true ↔
          XAieTraceCntr.passesConfiguredTest dev (c.setMode dev M).2) ∧
        (∀ P, (c.setPkt dev P).2.State.Configured = true ↔
          XAieTraceCntr.passesConfiguredTest dev (c.setPkt dev P).2) ∧
        (∀ StartE StopE, (c.setCntrEvent dev StartE StopE).1 = XAIE_OK →
          ((c.setCntrEvent dev StartE StopE).2.State.Configured = true ↔
            XAieTraceCntr.passesConfiguredTest dev (c.setCntrEvent dev StartE StopE).2)) ∧
        (∀ StartE StopE, (c.setCntrEvent dev StartE StopE).1 ≠ XAIE_OK →
          (c.setCntrEvent dev StartE StopE).2 = c)) ∧
      (c.State.Configured = true →
        (∀ Slot E, (c.setTraceEvent dev Slot E).2.State.Configured = true) ∧
        (∀ M, (c.setMode dev M).2.State.Configured = true) ∧
        (∀ P, (c.setPkt dev P).2.State.Configured = true) ∧
        (∀ StartE StopE, (c.setCntrEvent dev StartE StopE).2.State.Configured = true))) ∧
    (∀ (dev : XAieDev) (c : XAieTraceCntr),
      dev.XAie_EventPhysicalToLogicalConv c.Loc c.Mod 0 = dev.XAIE_EVENT_NONE_CORE →
      (XAieTraceCntr.passesConfiguredTest dev c ↔ XAieTraceCntr.specConfigured dev c)) := by
  split_ands
  all_goals first
    | decide
    | exact configured_latch
    | exact passesConfiguredTest_iff_spec

/-! ## The slot table of the trace control -/

/-- The constructor does not write the slot table: the slots hold what the
storage held. -/
theorem new_Events (dev : XAieDev) (L : XAie_LocType) (raw : XAieTraceCntr) :
    (XAieTraceCntr.new dev L raw).Events = raw.Events := by
  unfold XAieTraceCntr.new
  dsimp only
  split_ifs <;> rfl

/-- `changeToConfigured` keeps the slot-table invariant. -/
theorem changeToConfigured_keeps_free (dev : XAieDev) (c : XAieTraceCntr)
    (h : XAieTraceCntr.freeSlotsHoldNone dev c) :
    XAieTraceCntr.freeSlotsHoldNone dev (XAieTraceCntr.changeToConfigured dev c) := by
  obtain ⟨b, hb⟩ := cntr_changeToConfigured_eq dev c
  rw [hb]
  exact h

/-- `reserveTraceSlot` keeps the slot-table invariant. -/
theorem reserveTraceSlot_keeps_free (dev : XAieDev) (c : XAieTraceCntr) (Slot : Nat)
    (hb : c.TraceSlotBits < 256) (h : XAieTraceCntr.freeSlotsHoldNone dev c) :
    XAieTraceCntr.freeSlotsHoldNone dev (c.reserveTraceSlot Slot).2.1 := by
  rcases reserveTraceSlot_cases c Slot hb with he | ⟨i, he⟩
  · rw [he]; exact h
  · rw [he]
    intro j hj
    apply h j
    have hj1 : (c.TraceSlotBits ||| 2 ^ i).testBit j.val = false := hj
    rw [Nat.testBit_or] at hj1
    simp only [Bool.or_eq_false_iff] at hj1
    exact hj1.1

/-- `releaseTraceSlot` keeps the slot-table invariant: the released slot is given
the "none" event of the module. -/
theorem releaseTraceSlot_keeps_free (dev : XAieDev) (c : XAieTraceCntr) (Slot : Nat)
    (hb : c.TraceSlotBits < 256) (h : XAieTraceCntr.freeSlotsHoldNone dev c) :
    XAieTraceCntr.freeSlotsHoldNone dev (c.releaseTraceSlot dev Slot).2 := by
  by_cases hrun : c.State.Running = true
  · simp only [XAieTraceCntr.releaseTraceSlot, hrun, if_true]
    exact h
  · by_cases h8 : 8 ≤ Slot
    · simp only [XAieTraceCntr.releaseTraceSlot, hrun, h8, if_false, dite_true]
      exact h
    · have hs : Slot < 8 := by omega
      have hrun0 : c.State.Running = false := by simpa using hrun
      rw [releaseTraceSlot_in_range dev c hrun0 hs]
      intro j hj
      have hj1 : ((c.TraceSlotBits &&& (0xFFFFFFFF ^^^ (1 <<< Slot))) % 256).testBit j.val =
          false := hj
      rw [testBit_clear hb hs] at hj1
      show Function.update c.Events ⟨Slot, hs⟩ _ j = _
      by_cases hjs : j = ⟨Slot, hs⟩
      · rw [hjs, Function.update_same]
      · rw [Function.update_noteq hjs]
        apply h j
        have hne : j.val ≠ Slot := fun e => hjs (Fin.ext e)
        simpa [hne] using hj1

/-- `setTraceEvent` keeps the slot-table invariant: it writes reserved slots
only. -/
theorem setTraceEvent_keeps_free (dev : XAieDev) (c : XAieTraceCntr) (Slot : Nat)
    (E : XAie_Events) (h : XAieTraceCntr.freeSlotsHoldNone dev c) :
    XAieTraceCntr.freeSlotsHoldNone dev (c.setTraceEvent dev Slot E).2 := by
  by_cases hc : c.State.Initialized = true ∧ c.State.Running = false ∧ Slot < 8 ∧
      c.TraceSlotBits.testBit Slot = true
  · obtain ⟨hi, hr, hs, hbit⟩ := hc
    rw [setTraceEvent_ok dev c E hi hr hs hbit]
    apply changeToConfigured_keeps_free
    intro j hj
    have hj1 : c.TraceSlotBits.testBit j.val = false := hj
    show Function.update c.Events ⟨Slot, hs⟩ _ j = _
    have hjs : j ≠ ⟨Slot, hs⟩ := by
      intro e
      rw [e] at hj1
      rw [hbit] at hj1
      exact absurd hj1 (by decide)
    rw [Function.update_noteq hjs]
    exact h j hj1
  · rw [(setTraceEvent_fail dev c Slot E hc).2]
    exact changeToConfigured_keeps_free dev c h

/-- The setters `setCntrEvent`, `setMode` and `setPkt` keep the slot-table
invariant. -/
theorem setters_keep_free (dev : XAieDev) (c : XAieTraceCntr)
    (h : XAieTraceCntr.freeSlotsHoldNone dev c) :
    (∀ StartE StopE, XAieTraceCntr.freeSlotsHoldNone dev (c.setCntrEvent dev StartE StopE).2) ∧
    (∀ M, XAieTraceCntr.freeSlotsHoldNone dev (c.setMode dev M).2) ∧
    (∀ P, XAieTraceCntr.freeSlotsHoldNone dev (c.setPkt dev P).2) := by
  refine ⟨?_, ?_, ?_⟩
  · intro StartE StopE
    unfold XAieTraceCntr.setCntrEvent
    dsimp only
    split_ifs
    all_goals first
      | exact h
      | exact changeToConfigured_keeps_free dev
          { c with StartEvent := StartE, StopEvent := StopE } h
  · intro M
    unfold XAieTraceCntr.setMode
    split_ifs
    all_goals first
      | exact h
      | exact changeToConfigured_keeps_free dev { c with Mode := M } h
  · intro P
    unfold XAieTraceCntr.setPkt
    split_ifs
    all_goals first
      | exact h
      | exact changeToConfigured_keeps_free dev { c with Pkt := P } h

/-- A successful `setModule` to a module with another "none" event breaks the
slot-table invariant whenever a slot is free: the free slots keep the "none"
event of the old module. -/
theorem setModule_breaks_free (dev : XAieDev) (c : XAieTraceCntr) (M : XAie_ModuleType)
    (h : XAieTraceCntr.freeSlotsHoldNone dev c) (hok : (c.setModule dev M).1 = XAIE_OK)
    (hne : dev.XAie_EventPhysicalToLogicalConv c.Loc c.Mod 0 ≠
      dev.XAie_EventPhysicalToLogicalConv c.Loc M 0)
    (i : Fin 8) (hi : c.TraceSlotBits.testBit i.val = false) :
    ¬ XAieTraceCntr.freeSlotsHoldNone dev (c.setModule dev M).2 := by
  have he : (c.setModule dev M).2 =
      { c with Mod := M, State := { c.State with Initialized := true } } := by
    by_cases h1 : c.State.Reserved = true
    · simp [XAieTraceCntr.setModule, h1] at hok
    · by_cases h2 : dev._XAie_CheckModule c.Loc c.Mod = XAIE_OK
      · simp [XAieTraceCntr.setModule, h1, h2]
      · simp [XAieTraceCntr.setModule, h1, h2] at hok
  rw [he]
  intro hinv
  have h1 : c.Events i = dev.XAie_EventPhysicalToLogicalConv c.Loc M 0 := hinv i hi
  exact hne ((h i hi).symm.trans h1)

/-- C24, the code at the failing inputs.  The constructor never writes the slot
table, so on the newly constructed control `exampleCntr` all slots are free and
hold what the storage held, event 77, not the "none" event 0 of the core module:
the invariant does not hold after construction.  On `cleanCntr`, constructed over
zeroed storage, the invariant holds; `setModule(XAIE_MEM_MOD)` succeeds and
leaves the slots as they are, holding event 0, not the "none" event 1000 of the
memory module: the invariant does not hold after `setModule`.  The other
operations keep the invariant: `reserveTraceSlot`, `releaseTraceSlot`,
`setTraceEvent`, `setCntrEvent`, `setMode` and `setPkt`. -/
theorem C24_slot_table_at_failing_input :
    (∀ (dev : XAieDev) (L : XAie_LocType) (raw : XAieTraceCntr),
      (XAieTraceCntr.new dev L raw).Events = raw.Events) ∧
    exampleCntr.TraceSlotBits = 0 ∧ exampleCntr.Events 0 = 77 ∧
    exampleDev.XAie_EventPhysicalToLogicalConv exampleCntr.Loc exampleCntr.Mod 0 = 0 ∧
    ¬ XAieTraceCntr.freeSlotsHoldNone exampleDev exampleCntr ∧
    XAieTraceCntr.freeSlotsHoldNone exampleDev cleanCntr ∧
    (cleanCntr.setModule exampleDev XAIE_MEM_MOD).1 = XAIE_OK ∧
    (cleanCntr.setModule exampleDev XAIE_MEM_MOD).2.Mod = XAIE_MEM_MOD ∧
    (cleanCntr.setModule exampleDev XAIE_MEM_MOD).2.TraceSlotBits = 0 ∧
    (cleanCntr.setModule exampleDev XAIE_MEM_MOD).2.Events 0 = 0 ∧
    exampleDev.XAie_EventPhysicalToLogicalConv cleanCntr.Loc XAIE_MEM_MOD 0 = 1000 ∧
    ¬ XAieTraceCntr.freeSlotsHoldNone exampleDev
      (cleanCntr.setModule exampleDev XAIE_MEM_MOD).2 ∧
    (∀ (dev : XAieDev) (c : XAieTraceCntr), c.TraceSlotBits < 256 →
      XAieTraceCntr.freeSlotsHoldNone dev c →
      (∀ Slot, XAieTraceCntr.freeSlotsHoldNone dev (c.reserveTraceSlot Slot).2.1) ∧
      (∀ Slot, XAieTraceCntr.freeSlotsHoldNone dev (c.releaseTraceSlot dev Slot).2) ∧
      (∀ Slot E, XAieTraceCntr.freeSlotsHoldNone dev (c.setTraceEvent dev Slot E).2) ∧
      (∀ StartE StopE,
        XAieTraceCntr.freeSlotsHoldNone dev (c.setCntrEvent dev StartE StopE).2) ∧
      (∀ M, XAieTraceCntr.freeSlotsHoldNone dev (c.setMode dev M).2) ∧
      (∀ P, XAieTraceCntr.freeSlotsHoldNone dev (c.setPkt dev P).2)) := by
  refine ⟨new_Events, by decide, by decide, by decide, by decide, by decide, by decide,
    by decide, by decide, by decide, by decide, ?_, ?_⟩
  · exact setModule_breaks_free exampleDev cleanCntr XAIE_MEM_MOD (by decide) (by decide)
      (by decide) 0 (by decide)
  · intro dev c hb h
    exact ⟨fun Slot => reserveTraceSlot_keeps_free dev c Slot hb h,
      fun Slot => releaseTraceSlot_keeps_free dev c Slot hb h,
      fun Slot E => setTraceEvent_keeps_free dev c Slot E h,
      (setters_keep_free dev c h).1, (setters_keep_free dev c h).2.1,
      (setters_keep_free dev c h).2.2⟩

/-! ## The broadcast channel of a trace event -/

/-- The scan of `reserveTraceSlot` does not change the module of the control. -/
theorem reserveTraceSlot_loop_Mod (c : XAieTraceCntr) (Slot n i : Nat) :
    (XAieTraceCntr.reserveTraceSlot.loop c Slot n i).2.1.Mod = c.Mod := by
  induction n generalizing i with
  | zero => rfl
  | succ n ih =>
    rw [XAieTraceCntr.reserveTraceSlot.loop]
    split_ifs
    · rfl
    · exact ih (i + 1)

/-- `reserveTraceSlot` does not change the module of the control. -/
theorem reserveTraceSlot_Mod (c : XAieTraceCntr) (Slot : Nat) :
    (c.reserveTraceSlot Slot).2.1.Mod = c.Mod := by
  unfold XAieTraceCntr.reserveTraceSlot
  split_ifs
  · rfl
  · exact reserveTraceSlot_loop_Mod c Slot 8 0

/-- What `reserve` of the broadcast collaborator does to the count of
acquisitions and to what the channel is for. -/
theorem bc_reserve_effect (b : XAieBroadcast) :
    b.reserve.2.vLocs = b.vLocs ∧ b.reserve.2.StartMod = b.StartMod ∧
    b.reserve.2.EndMod = b.EndMod ∧
    (b.State.Reserved = false → b.reserve.2.acquired = b.acquired + 1) ∧
    (b.State.Reserved = true → b.reserve.2.acquired = b.acquired) := by
  by_cases h : b.State.Reserved = true
  · simp [XAieBroadcast.reserve, h]
  · by_cases h1 : b.acquireRC = XAIE_OK
    · simp [XAieBroadcast.reserve, h, h1]
    · simp [XAieBroadcast.reserve, h, h1]

/-- C23 as stated fails: the event `memEventSet` is of the memory module, bound
to the core-module control `exampleCntr` and not Reserved, and a slot is free.
`reserve` succeeds, and the channel its broadcast collaborator was asked for
starts at the core module, not at the event's module, and ends at the memory
module, not at the module of the control. -/
theorem C23_broadcast_counterexample :
    ¬ (∀ (dev : XAieDev) (c c1 : XAieTraceCntr) (e e1 : XAieTraceEvent) (RC : AieRC),
        e.TraceCntr = true → e.State.Reserved = false →
        (c.reserveTraceSlot e.Slot).1 = XAIE_OK → e.Mod ≠ c.Mod →
        e.reserve dev c = some (RC, c1, e1) →
        e1.BC.vLocs = [e.Loc] ∧ e1.BC.StartMod = e.Mod ∧ e1.BC.EndMod = c.Mod) := by
  intro h
  have h1 := h exampleDev exampleCntr
    { exampleCntr with TraceSlotBits := 1 }
    memEventSet
    { memEventSet with
      State := { memEventSet.State with Reserved := true }
      Slot := 0
      Rsc := ⟨XAIE_MEM_MOD, 0⟩
      BC := (memEventSet.BC.initialise [memEventSet.Loc] XAIE_CORE_MOD XAIE_MEM_MOD).reserve.2 }
    XAIE_OK (by decide) (by decide) (by decide) (by decide) (by rfl)
  exact absurd h1.2.1 (by decide)

/-- C23, amended: the broadcast channel in `reserve` of a trace event.  On a bound
event that is not Reserved, once `reserveTraceSlot` has given a slot: when the
module of the event is the module of the control, `reserve` succeeds and the
broadcast collaborator is left as it was, nothing acquired; when the modules
differ, the collaborator is initialized once, for the tile of the event with the
start module `XAIE_CORE_MOD` and the end module `XAIE_MEM_MOD` whatever the two
modules are, and asked to reserve once, and the return code is its answer: one
acquisition when the collaborator was not Reserved, none when it was. -/
theorem C23_broadcast_acquisition (dev : XAieDev) (c : XAieTraceCntr) (e : XAieTraceEvent)
    (hbound : e.TraceCntr = true) (hres : e.State.Reserved = false)
    (hslot : (c.reserveTraceSlot e.Slot).1 = XAIE_OK) :
    ∃ (RC : AieRC) (c1 : XAieTraceCntr) (e1 : XAieTraceEvent),
      e.reserve dev c = some (RC, c1, e1) ∧
      (e.Mod = c.Mod → RC = XAIE_OK ∧ e1.BC = e.BC) ∧
      (e.Mod ≠ c.Mod →
        RC = (e.BC.initialise [e.Loc] XAIE_CORE_MOD XAIE_MEM_MOD).reserve.1 ∧
        e1.BC = (e.BC.initialise [e.Loc] XAIE_CORE_MOD XAIE_MEM_MOD).reserve.2 ∧
        e1.BC.vLocs = [e.Loc] ∧ e1.BC.StartMod = XAIE_CORE_MOD ∧
        e1.BC.EndMod = XAIE_MEM_MOD ∧
        (e.BC.State.Reserved = false → e1.BC.acquired = e.BC.acquired + 1) ∧
        (e.BC.State.Reserved = true → e1.BC.acquired = e.BC.acquired)) := by
  have hm := reserveTraceSlot_Mod c e.Slot
  have hb : e.TraceCntr ≠ false := by simp [hbound]
  obtain ⟨h1, h2, h3, h4, h5⟩ :=
    bc_reserve_effect (e.BC.initialise [e.Loc] XAIE_CORE_MOD XAIE_MEM_MOD)
  by_cases hmod : e.Mod = c.Mod
  · refine ⟨XAIE_OK, (c.reserveTraceSlot e.Slot).2.1,
      { e with
        Slot := (c.reserveTraceSlot e.Slot).2.2
        State := { e.State with Reserved := true } }, ?_, fun _ => ⟨rfl, rfl⟩,
      fun h => absurd hmod h⟩
    simp [XAieTraceEvent.reserve, XAieTraceEvent._reserve, hres, hbound, hslot,
      XAieTraceCntr.getModule, hm, hmod]
  · by_cases hbc : (e.BC.initialise [e.Loc] XAIE_CORE_MOD XAIE_MEM_MOD).reserve.1 = XAIE_OK
    · refine ⟨XAIE_OK, (c.reserveTraceSlot e.Slot).2.1,
        { e with
          Slot := (c.reserveTraceSlot e.Slot).2.2
          BC := (e.BC.initialise [e.Loc] XAIE_CORE_MOD XAIE_MEM_MOD).reserve.2
          Rsc := ⟨e.Mod, (c.reserveTraceSlot e.Slot).2.2⟩
          State := { e.State with Reserved := true } }, ?_, fun h => absurd h hmod,
        fun _ => ⟨hbc.symm, rfl, h1, h2, h3, h4, h5⟩⟩
      simp [XAieTraceEvent.reserve, XAieTraceEvent._reserve, hres, hbound, hslot,
        XAieTraceCntr.getModule, hm, hmod, hbc]
    · refine ⟨(e.BC.initialise [e.Loc] XAIE_CORE_MOD XAIE_MEM_MOD).reserve.1,
        ((c.reserveTraceSlot e.Slot).2.1.releaseTraceSlot dev (c.reserveTraceSlot e.Slot).2.2).2,
        { e with
          Slot := (c.reserveTraceSlot e.Slot).2.2
          BC := (e.BC.initialise [e.Loc] XAIE_CORE_MOD XAIE_MEM_MOD).reserve.2 }, ?_,
        fun h => absurd h hmod, fun _ => ⟨rfl, rfl, h1, h2, h3, h4, h5⟩⟩
      simp [XAieTraceEvent.reserve, XAieTraceEvent._reserve, hres, hbound, hslot,
        XAieTraceCntr.getModule, hm, hmod, hbc]

/-- C23 amended, at concrete inputs: `reserve` of the memory-module event
`memEventSet` on the core-module control `exampleCntr` succeeds with one
acquisition, of a channel for tile (1, 1) with start module `XAIE_CORE_MOD` and
end module `XAIE_MEM_MOD`; `reserve` of the core-module event `coreEventSet` on
the same control succeeds with no acquisition. -/
theorem C23_broadcast_acquisition_witness :
    memEventSet.TraceCntr = true ∧ memEventSet.State.Reserved = false ∧
    (exampleCntr.reserveTraceSlot memEventSet.Slot).1 = XAIE_OK ∧
    memEventSet.Mod = XAIE_MEM_MOD ∧ exampleCntr.Mod = XAIE_CORE_MOD ∧
    memEventSet.BC.acquired = 0 ∧ coreEventSet.BC.acquired = 0 ∧
    (∃ (RC : AieRC) (c1 : XAieTraceCntr) (e1 : XAieTraceEvent),
      memEventSet.reserve exampleDev exampleCntr = some (RC, c1, e1) ∧ RC = XAIE_OK ∧
      e1.BC.vLocs = [⟨1, 1⟩] ∧ e1.BC.StartMod = XAIE_CORE_MOD ∧
      e1.BC.EndMod = XAIE_MEM_MOD ∧ e1.BC.acquired = 1) ∧
    (∃ (RC : AieRC) (c1 : XAieTraceCntr) (e1 : XAieTraceEvent),
      coreEventSet.reserve exampleDev exampleCntr = some (RC, c1, e1) ∧ RC = XAIE_OK ∧
      e1.BC.acquired = 0) :=
  ⟨by decide, by decide, by decide, by decide, by decide, by decide, by decide,
    match C23_broadcast_acquisition exampleDev exampleCntr memEventSet (by decide) (by decide)
      (by decide) with
    | ⟨RC, c1, e1, he, _, h2⟩ =>
      ⟨RC, c1, e1, he, (h2 (by decide)).1.trans (by decide), (h2 (by decide)).2.2.1,
        (h2 (by decide)).2.2.2.1, (h2 (by decide)).2.2.2.2.1,
        (h2 (by decide)).2.2.2.2.2.1 (by decide)⟩,
    match C23_broadcast_acquisition exampleDev exampleCntr coreEventSet (by decide) (by decide)
      (by decide) with
    | ⟨RC, c1, e1, he, h1, _⟩ =>
      ⟨RC, c1, e1, he, (h1 (by decide)).1, by rw [(h1 (by decide)).2]; decide⟩⟩

end xaiefal
